import Mathlib

/-!
# MOBIL lane-change planner with overtake flags (`mobil2.cc`)

A shallow embedding of `MobilPlanner2` and of the file-level overtake flags it
reads and writes on every tick.

Conventions of the embedding.

* `double` values are rationals: the statements below are about the real-number
  reading of the arithmetic (no rounding, no NaN).  The saturation and the
  assertion of `EvaluateIdm` are embedded a second time on positions that may be
  NaN or infinite (`Dbl`, `net_distance_double`, `gap_assertion`).
* A `const Lane*` is an `Option Lane`; `none` is the null pointer.  The lane of a
  `RoadPosition` returned by `CalcRoadPosition` is never null.
* The five file-level variables `overtake_to_left`, `overtake_to_right`,
  `overtake`, `old_ego_lane`, `car_id` are the fields of `ManeuverState`, which
  every tick takes and returns.
* Code that the file calls but does not define (the road network, the pose
  selector, `IdmPlanner::Evaluate`, the `IsValid` checks of the two parameter
  vectors) is a field of `World`; every theorem holds for every `World`.
* A failed `DRAKE_DEMAND`, an out-of-range `get_pose` and a null dereference
  are `none`.
-/

namespace Mobil2

/-- A lane handle: the address held by a non-null `const Lane*`. -/
abbrev Lane := Nat

/-- The part of `maliput::api::RoadPosition` the planner reads: the lane and
the longitudinal coordinate `pos.s()`. -/
structure RoadPosition where
  lane : Lane
  s : ℚ
  deriving DecidableEq, Repr

/-- The part of `RoadOdometry<T>` the planner reads: lane (possibly null),
`pos.s()` and the velocity the odometry was built from. -/
structure RoadOdometry (Vel : Type) where
  lane : Option Lane
  s : ℚ
  vel : Vel

/-- The constructor `RoadOdometry<T>(road_position, frame_velocity)`. -/
def RoadOdometry.ofPosition {Vel : Type} (road_position : RoadPosition) (frame_velocity : Vel) :
    RoadOdometry Vel :=
  { lane := some road_position.lane, s := road_position.s, vel := frame_velocity }

/-- Fields of `IdmPlannerParameters<T>`; the file itself reads
`bloat_diameter` and `distance_lower_limit` only. -/
structure IdmPlannerParameters where
  v_ref : ℚ
  a : ℚ
  b : ℚ
  s_0 : ℚ
  time_headway : ℚ
  delta : ℚ
  bloat_diameter : ℚ
  distance_lower_limit : ℚ
  deriving DecidableEq, Repr

/-- Fields of `MobilPlannerParameters<T>`. -/
structure MobilPlannerParameters where
  p : ℚ
  threshold : ℚ
  max_deceleration : ℚ
  deriving DecidableEq, Repr

/-- The output `LaneDirection(lane, with_s)`. -/
structure LaneDirection where
  lane : Option Lane
  with_s : Bool
  deriving DecidableEq, Repr

/-- The file-level overtake flags of `mobil2.cc` (lines 44-49). -/
structure ManeuverState where
  overtake_to_left : Bool
  overtake_to_right : Bool
  overtake : Bool
  old_ego_lane : Option Lane
  car_id : Int
  deriving DecidableEq, Repr

/-- The initial values of the flags: no maneuver under way. -/
def ManeuverState.idle : ManeuverState :=
  { overtake_to_left := false
    overtake_to_right := false
    overtake := false
    old_ego_lane := none
    car_id := -1 }

/-- Everything the planner calls but `mobil2.cc` does not define.
`laneId` is `lane->id().id`, `to_left` and `to_right` the neighbour queries of a
lane, `CalcRoadPosition` the pose selector on `road_`, `FindClosestPair` the
pose selector's leading and trailing odometries in a lane (`none`: the default
argument, the ego's own lane), `Evaluate` is `IdmPlanner<T>::Evaluate`, and
`with_s` the planner's `with_s_` member. -/
structure World (Pose Vel : Type) where
  with_s : Bool
  laneId : Lane → String
  to_left : Lane → Option Lane
  to_right : Lane → Option Lane
  CalcRoadPosition : Pose → RoadPosition
  GetSVelocity : RoadOdometry Vel → ℚ
  FindClosestPair : Pose → List Pose → Option Lane → RoadOdometry Vel × RoadOdometry Vel
  Evaluate : IdmPlannerParameters → ℚ → ℚ → ℚ → ℚ
  IdmIsValid : IdmPlannerParameters → Bool
  MobilIsValid : MobilPlannerParameters → Bool

/-- The constant `kDefaultLargeAccel{1e6}`. -/
def kDefaultLargeAccel : ℚ := 1000000

variable {Pose Vel : Type}

/-- The local `net_distance` of `EvaluateIdm` (lines 413-417): the gap `delta`
saturated away from zero. -/
def net_distance (idm_params : IdmPlannerParameters) (delta : ℚ) : ℚ :=
  if delta ≥ 0 then
    max (delta - idm_params.bloat_diameter) idm_params.distance_lower_limit
  else
    min (delta + idm_params.bloat_diameter) (-idm_params.distance_lower_limit)

/-- `MobilPlanner2::EvaluateIdm` (lines 399-423); `none` when the
`DRAKE_DEMAND` on the saturated gap fails. -/
def EvaluateIdm (w : World Pose Vel) (idm_params : IdmPlannerParameters)
    (ego_odometry lead_car_odometry : RoadOdometry Vel) : Option ℚ :=
  let s_ego := ego_odometry.s
  let s_dot_ego := w.GetSVelocity ego_odometry
  let s_lead := lead_car_odometry.s
  let s_dot_lead := w.GetSVelocity lead_car_odometry
  let delta := s_lead - s_ego
  let nd := net_distance idm_params delta
  if |nd| ≥ idm_params.distance_lower_limit then
    let closing_velocity := s_dot_ego - s_dot_lead
    some (w.Evaluate idm_params s_dot_ego nd closing_velocity)
  else
    none

/-- `MobilPlanner2::ComputeIncentiveOutOfLane` (lines 365-397).  The in/out
argument `T* incentive` is the argument `incentive` and the returned value. -/
def ComputeIncentiveOutOfLane (w : World Pose Vel) (idm_params : IdmPlannerParameters)
    (mobil_params : MobilPlannerParameters)
    (odometries : RoadOdometry Vel × RoadOdometry Vel) (ego_odometry : RoadOdometry Vel)
    (ego_old_accel trailing_delta_accel_this : ℚ) (incentive : ℚ) : Option ℚ := do
  let leading_odometry := odometries.1
  let trailing_odometry := odometries.2
  let ego_new_accel ← EvaluateIdm w idm_params ego_odometry leading_odometry
  let trailing_old_accel ← EvaluateIdm w idm_params trailing_odometry leading_odometry
  let trailing_new_accel ← EvaluateIdm w idm_params trailing_odometry ego_odometry
  let trailing_delta_accel_other := trailing_new_accel - trailing_old_accel
  let ego_delta_accel := ego_new_accel - ego_old_accel
  if trailing_new_accel < -mobil_params.max_deceleration then
    pure incentive
  else
    pure (ego_delta_accel +
      mobil_params.p * (trailing_delta_accel_other + trailing_delta_accel_this))

/-- `MobilPlanner2::ComputeIncentives` (lines 315-363): the pair
(left incentive, right incentive). -/
def ComputeIncentives (w : World Pose Vel) (lanes : Option Lane × Option Lane)
    (idm_params : IdmPlannerParameters) (mobil_params : MobilPlannerParameters)
    (ego_pose : Pose) (ego_velocity : Vel) (traffic_poses : List Pose)
    (ego_acceleration : ℚ) : Option (ℚ × ℚ) := do
  let ego_position := w.CalcRoadPosition ego_pose
  let leading_odometry := (w.FindClosestPair ego_pose traffic_poses none).1
  let trailing_odometry := (w.FindClosestPair ego_pose traffic_poses none).2
  let ego_odometry : RoadOdometry Vel := RoadOdometry.ofPosition ego_position ego_velocity
  let trailing_this_old_accel ← EvaluateIdm w idm_params trailing_odometry ego_odometry
  let trailing_this_new_accel ← EvaluateIdm w idm_params trailing_odometry leading_odometry
  let trailing_delta_accel_this := trailing_this_new_accel - trailing_this_old_accel
  let first ←
    match lanes.1 with
    | some l =>
      ComputeIncentiveOutOfLane w idm_params mobil_params
        (w.FindClosestPair ego_pose traffic_poses (some l)) ego_odometry ego_acceleration
        trailing_delta_accel_this (-kDefaultLargeAccel)
    | none => pure (-kDefaultLargeAccel)
  let second ←
    match lanes.2 with
    | some l =>
      ComputeIncentiveOutOfLane w idm_params mobil_params
        (w.FindClosestPair ego_pose traffic_poses (some l)) ego_odometry ego_acceleration
        trailing_delta_accel_this (-kDefaultLargeAccel)
    | none => pure (-kDefaultLargeAccel)
  pure (first, second)

/-- The function `reset_overtake_flags` (lines 142-149). -/
def reset_overtake_flags (_st : ManeuverState) : ManeuverState :=
  { overtake_to_right := false
    overtake_to_left := false
    overtake := false
    old_ego_lane := none
    car_id := -1 }

/-- The call `traffic_poses.get_pose(i)` of `PoseBundle`: the bundle demands
`0 <= i < get_num_poses()`. -/
def get_pose (traffic_poses : List Pose) (i : Int) : Option Pose :=
  if 0 ≤ i then traffic_poses.get? i.toNat else none

/-- `MobilPlanner2::overtake_condition` (lines 151-170); it reads the flag
`car_id`.  `none` when `get_pose(car_id)` is out of range. -/
def overtake_condition (w : World Pose Vel) (ego_pose : Pose) (traffic_poses : List Pose)
    (st : ManeuverState) : Option Bool := do
  let pose ← get_pose traffic_poses st.car_id
  let traffic_position := w.CalcRoadPosition pose
  let s_traffic := traffic_position.s
  let ego_position := w.CalcRoadPosition ego_pose
  let s_ego := ego_position.s
  if s_ego > s_traffic then pure true else pure false

/-- The `for` loop of lines 222-240, from index `i` over the poses not yet
visited; the value is `car_id` after the loop. -/
def scanLoop (w : World Pose Vel) (ego_position : RoadPosition) :
    Nat → List Pose → Int → Int
  | _, [], car_id => car_id
  | i, pose :: rest, car_id =>
    let traffic_position := w.CalcRoadPosition pose
    if w.laneId traffic_position.lane ≠ w.laneId ego_position.lane then
      scanLoop w ego_position (i + 1) rest car_id
    else
      let s_ego := ego_position.s
      let s_traffic := traffic_position.s
      if w.laneId traffic_position.lane = w.laneId ego_position.lane ∧ s_ego ≠ s_traffic then
        scanLoop w ego_position (i + 1) rest (i : Int)
      else
        scanLoop w ego_position (i + 1) rest car_id

/-- Lines 207-212: once the ego is resolved to a lane other than
`old_ego_lane` and a direction flag is set, `overtake` becomes true. -/
def markOvertake (w : World Pose Vel) (ego_position : RoadPosition)
    (st : ManeuverState) : ManeuverState :=
  match st.old_ego_lane with
  | some old =>
    if w.laneId ego_position.lane ≠ w.laneId old then
      if st.overtake_to_right = true ∨ st.overtake_to_left = true then
        { st with overtake := true }
      else st
    else st
  | none => st

/-- Lines 214-242: the search for the car to pass, run when a direction flag
is set and `car_id` is still -1. -/
def findCar (w : World Pose Vel) (ego_position : RoadPosition) (traffic_poses : List Pose)
    (st : ManeuverState) : ManeuverState :=
  if (st.overtake_to_left = true ∨ st.overtake_to_right = true) ∧ st.car_id = -1 then
    { st with car_id := scanLoop w ego_position 0 traffic_poses st.car_id }
  else st

/-- Lines 244-305: the decision, given the incentives and the flags as the two
steps before it left them.  The value is the local `lane` and the flags. -/
def decide_lane (w : World Pose Vel) (ego_position : RoadPosition)
    (lanes : Option Lane × Option Lane) (incentives : ℚ × ℚ)
    (mobil_params : MobilPlannerParameters) (ego_pose : Pose) (traffic_poses : List Pose)
    (st : ManeuverState) : Option (Option Lane × ManeuverState) :=
  let threshold := mobil_params.threshold
  if st.overtake = false then
    if incentives.1 ≥ incentives.2 then
      if incentives.1 > threshold then
        some (lanes.1,
          { st with overtake_to_right := true, old_ego_lane := some ego_position.lane })
      else
        some (some ego_position.lane, st)
    else
      if incentives.2 > threshold then
        some (lanes.2,
          { st with overtake_to_left := true, old_ego_lane := some ego_position.lane })
      else
        some (some ego_position.lane, st)
  else
    if st.car_id ≠ -1 then
      if st.overtake_to_right = true then
        match overtake_condition w ego_pose traffic_poses st with
        | none => none
        | some true =>
          match st.old_ego_lane with
          | none => none
          | some old =>
            if w.laneId old = w.laneId ego_position.lane then
              some (lanes.2, reset_overtake_flags st)
            else
              some (lanes.2, st)
        | some false => some (some ego_position.lane, st)
      else
        match overtake_condition w ego_pose traffic_poses st with
        | none => none
        | some true =>
          match st.old_ego_lane with
          | none => none
          | some old =>
            if w.laneId old = w.laneId ego_position.lane then
              some (lanes.1, reset_overtake_flags st)
            else
              some (lanes.1, st)
        | some false => some (some ego_position.lane, st)
    else
      some (some ego_position.lane, st)

/-- `MobilPlanner2::ImplDoCalcLane` (lines 173-313): one tick.  It takes the
flags as they are before the tick and returns `*lane_direction` with the flags
after it; `none` when the tick aborts. -/
def ImplDoCalcLane (w : World Pose Vel) (ego_pose : Pose) (ego_velocity : Vel)
    (traffic_poses : List Pose) (ego_accel_command : ℚ)
    (idm_params : IdmPlannerParameters) (mobil_params : MobilPlannerParameters)
    (st : ManeuverState) : Option (LaneDirection × ManeuverState) :=
  if w.IdmIsValid idm_params = false then none
  else if w.MobilIsValid mobil_params = false then none
  else
    let ego_position := w.CalcRoadPosition ego_pose
    let lanes := (w.to_left ego_position.lane, w.to_right ego_position.lane)
    if lanes.1 ≠ none ∨ lanes.2 ≠ none then
      match ComputeIncentives w lanes idm_params mobil_params ego_pose ego_velocity
          traffic_poses ego_accel_command with
      | none => none
      | some incentives =>
        let st1 := markOvertake w ego_position st
        let st2 := findCar w ego_position traffic_poses st1
        match decide_lane w ego_position lanes incentives mobil_params ego_pose
            traffic_poses st2 with
        | none => none
        | some (lane, st3) => some ({ lane := lane, with_s := w.with_s }, st3)
    else
      some ({ lane := some ego_position.lane, with_s := w.with_s }, st)

/-- The inputs of one tick. -/
structure Tick (Pose Vel : Type) where
  ego_pose : Pose
  ego_velocity : Vel
  traffic_poses : List Pose
  ego_accel_command : ℚ
  idm_params : IdmPlannerParameters
  mobil_params : MobilPlannerParameters

/-- One tick on a `Tick` record. -/
def tick (w : World Pose Vel) (t : Tick Pose Vel) (st : ManeuverState) :
    Option (LaneDirection × ManeuverState) :=
  ImplDoCalcLane w t.ego_pose t.ego_velocity t.traffic_poses t.ego_accel_command
    t.idm_params t.mobil_params st

/-- Successive ticks from the flags `st`: for each tick, the lane direction it
wrote and the flags after it; `none` as soon as a tick aborts. -/
def runTicks (w : World Pose Vel) : ManeuverState → List (Tick Pose Vel) →
    Option (List (LaneDirection × ManeuverState))
  | _, [] => some []
  | st, t :: ts =>
    match tick w t st with
    | none => none
    | some (out, st1) =>
      match runTicks w st1 ts with
      | none => none
      | some rest => some ((out, st1) :: rest)

/-! ## Closed forms used in the statements -/

/-- The acceleration `EvaluateIdm` hands back: `Evaluate` on the follower's
speed, the saturated gap and the closing speed. -/
def idmAccel (w : World Pose Vel) (idm_params : IdmPlannerParameters)
    (follower leader : RoadOdometry Vel) : ℚ :=
  w.Evaluate idm_params (w.GetSVelocity follower)
    (net_distance idm_params (leader.s - follower.s))
    (w.GetSVelocity follower - w.GetSVelocity leader)

/-- The incentive `ComputeIncentives` leaves in the slot of one side, as a
function of that side's lane pointer. -/
def sideIncentive (w : World Pose Vel) (idm_params : IdmPlannerParameters)
    (mobil_params : MobilPlannerParameters) (ego_pose : Pose) (ego_velocity : Vel)
    (traffic_poses : List Pose) (ego_acceleration : ℚ) (side : Option Lane) : ℚ :=
  let ego := RoadOdometry.ofPosition (w.CalcRoadPosition ego_pose) ego_velocity
  let cur := w.FindClosestPair ego_pose traffic_poses none
  match side with
  | none => -kDefaultLargeAccel
  | some l =>
    let od := w.FindClosestPair ego_pose traffic_poses (some l)
    if idmAccel w idm_params od.2 ego < -mobil_params.max_deceleration then
      -kDefaultLargeAccel
    else
      (idmAccel w idm_params ego od.1 - ego_acceleration) +
        mobil_params.p *
          ((idmAccel w idm_params od.2 ego - idmAccel w idm_params od.2 od.1) +
            (idmAccel w idm_params cur.2 cur.1 - idmAccel w idm_params cur.2 ego))

/-! ## A concrete world for the examples

A road of two parallel lanes, lane 0 with lane 1 on its left, and a lane 2 with
no neighbour.  A pose is a lane, a longitudinal coordinate and a speed. -/

/-- A vehicle of the example world. -/
structure Car where
  lane : Lane
  s : ℚ
  v : ℚ
  deriving DecidableEq, Repr

/-- Lane names of the example road. -/
def demoLaneId : Lane → String
  | 0 => "right"
  | 1 => "left"
  | _ => "single"

/-- Left neighbours of the example road. -/
def demoLeft : Lane → Option Lane
  | 0 => some 1
  | _ => none

/-- Right neighbours of the example road. -/
def demoRight : Lane → Option Lane
  | 1 => some 0
  | _ => none

/-- Closest vehicle of `lane` strictly ahead of `ego_s`; a stopped vehicle far
ahead when there is none. -/
def demoLeading (lane : Lane) (ego_s : ℚ) : List Car → RoadOdometry ℚ
  | [] => { lane := some lane, s := 1000000, vel := 0 }
  | c :: cs =>
    let best := demoLeading lane ego_s cs
    if c.lane = lane ∧ ego_s < c.s ∧ c.s < best.s then
      { lane := some lane, s := c.s, vel := c.v }
    else best

/-- Closest vehicle of `lane` strictly behind `ego_s`; a stopped vehicle far
behind when there is none. -/
def demoTrailing (lane : Lane) (ego_s : ℚ) : List Car → RoadOdometry ℚ
  | [] => { lane := some lane, s := -1000000, vel := 0 }
  | c :: cs =>
    let best := demoTrailing lane ego_s cs
    if c.lane = lane ∧ c.s < ego_s ∧ best.s < c.s then
      { lane := some lane, s := c.s, vel := c.v }
    else best

/-- Leading and trailing odometries of the example world. -/
def demoClosestPair (ego : Car) (traffic : List Car) (lane : Option Lane) :
    RoadOdometry ℚ × RoadOdometry ℚ :=
  let l := lane.getD ego.lane
  (demoLeading l ego.s traffic, demoTrailing l ego.s traffic)

/-- A rational car-following law of the example world: free-road term minus
interaction term. -/
def demoEvaluate (p : IdmPlannerParameters) (v d c : ℚ) : ℚ :=
  p.a * (1 - (v / p.v_ref) ^ 2) - p.a * ((p.s_0 + v * p.time_headway + v * c / (2 * p.b)) / d) ^ 2

/-- The example world. -/
def demoWorld : World Car ℚ :=
  { with_s := true
    laneId := demoLaneId
    to_left := demoLeft
    to_right := demoRight
    CalcRoadPosition := fun c => { lane := c.lane, s := c.s }
    GetSVelocity := fun o => o.vel
    FindClosestPair := demoClosestPair
    Evaluate := demoEvaluate
    IdmIsValid := fun p => decide (0 < p.v_ref ∧ 0 < p.a ∧ 0 < p.b ∧ 0 < p.s_0 ∧
      0 < p.time_headway ∧ 0 < p.delta ∧ 0 < p.bloat_diameter ∧ 0 < p.distance_lower_limit)
    MobilIsValid := fun p => decide (0 ≤ p.p ∧ 0 < p.max_deceleration) }

/-- Car-following parameters of the examples. -/
def demoIdm : IdmPlannerParameters :=
  { v_ref := 30, a := 1, b := 3, s_0 := 1, time_headway := 1 / 10, delta := 4,
    bloat_diameter := 9 / 2, distance_lower_limit := 1 / 1000 }

/-- A follower of the examples: lane 0, `s = 40`, speed 20. -/
def demoFollower : RoadOdometry ℚ := { lane := some 0, s := 40, vel := 20 }

/-- A leader two metres ahead of `demoFollower`, speed 5. -/
def demoNearLeader : RoadOdometry ℚ := { lane := some 0, s := 42, vel := 5 }

/-- The ego of the examples: lane 0, `s = 40`, speed 20. -/
def demoEgo : Car := { lane := 0, s := 40, v := 20 }

/-- A slow vehicle ahead of `demoEgo` in its lane: `s = 50`, speed 5. -/
def demoSlow : Car := { lane := 0, s := 50, v := 5 }

/-- A fast vehicle one metre behind `demoEgo`, in the left lane. -/
def demoTailgater : Car := { lane := 1, s := 39, v := 30 }

/-- An ego in the left lane, lane 1, with `demoSlow` and a fast vehicle of
lane 0 one metre behind it. -/
def demoEgoLeft : Car := { lane := 1, s := 40, v := 20 }

/-- A fast vehicle of lane 0, one metre behind `demoEgoLeft`. -/
def demoTailgaterRight : Car := { lane := 0, s := 39, v := 30 }

/-- The example road with the neighbour relations removed: every lane is a
single lane. -/
def singleLaneWorld : World Car ℚ :=
  { demoWorld with to_left := fun _ => none, to_right := fun _ => none }

/-- Incentive parameters of the examples. -/
def demoMobil : MobilPlannerParameters :=
  { p := 1 / 2, threshold := 1 / 10, max_deceleration := 4 }

/-- The ego behind the slow vehicle, already braking at 10: no lane change pays. -/
def demoQuietTick : Tick Car ℚ :=
  { ego_pose := demoEgo, ego_velocity := 20, traffic_poses := [demoSlow],
    ego_accel_command := 10, idm_params := demoIdm, mobil_params := demoMobil }

/-- A tick of an ego alone in lane 2, the lane without neighbours. -/
def demoSingleTick : Tick Car ℚ :=
  { ego_pose := { lane := 2, s := 40, v := 20 }, ego_velocity := 20, traffic_poses := [demoSlow],
    ego_accel_command := -5, idm_params := demoIdm, mobil_params := demoMobil }

/-- Flags of an ego that left lane 0 to the left to pass vehicle 0 of the
snapshot. -/
def demoPassing : ManeuverState :=
  { overtake_to_left := false, overtake_to_right := true, overtake := true,
    old_ego_lane := some 0, car_id := 0 }

/-- The ego in the left lane, past the slow vehicle. -/
def demoEgoPast : Car := { lane := 1, s := 60, v := 20 }

/-- The ego back in lane 0, past the slow vehicle. -/
def demoEgoBack : Car := { lane := 0, s := 60, v := 20 }

/-! ## Definitions for the maneuver claims -/

/-- The test the loop of lines 222-240 applies to one pose: the vehicle is
resolved to a lane with the id of the ego's lane and its `s` differs from the
ego's `s`. -/
def scanMatch (w : World Pose Vel) (ego_position : RoadPosition) (pose : Pose) : Prop :=
  w.laneId (w.CalcRoadPosition pose).lane = w.laneId ego_position.lane ∧
    ego_position.s ≠ (w.CalcRoadPosition pose).s

/-- Ticks of two planners of one process in the order they run, planner `A`
tagged `true` and planner `B` tagged `false`.  The flags are file-level
variables (lines 44-49), so a tick of either planner starts from the flags the
tick before it left, whichever planner ran it. -/
def runShared (wA wB : World Pose Vel) : ManeuverState → List (Bool × Tick Pose Vel) →
    Option (List (Bool × LaneDirection × ManeuverState))
  | _, [] => some []
  | st, (isA, t) :: ts =>
    match tick (if isA = true then wA else wB) t st with
    | none => none
    | some (out, st1) =>
      match runShared wA wB st1 ts with
      | none => none
      | some rest => some ((isA, out, st1) :: rest)

/-- The lane directions planner `B` wrote in a trace of `runShared`. -/
def lanesOfB (trace : List (Bool × LaneDirection × ManeuverState)) : List LaneDirection :=
  (trace.filter fun e => e.1 = false).map fun e => e.2.1

/-- The ticks of planner `B` in an interleaving. -/
def ticksOfB (ts : List (Bool × Tick Pose Vel)) : List (Tick Pose Vel) :=
  (ts.filter fun e => e.1 = false).map fun e => e.2

/-- The lane directions written in a trace of `runTicks`. -/
def lanesOf (trace : List (LaneDirection × ManeuverState)) : List LaneDirection :=
  trace.map fun e => e.1

/-- Lane names of a road of three parallel lanes. -/
def threeLaneId : Lane → String
  | 0 => "right"
  | 1 => "middle"
  | _ => "left"

/-- Left neighbours of the three-lane road. -/
def threeLeft : Lane → Option Lane
  | 0 => some 1
  | 1 => some 2
  | _ => none

/-- Right neighbours of the three-lane road. -/
def threeRight : Lane → Option Lane
  | 1 => some 0
  | 2 => some 1
  | _ => none

/-- The example world on a road of three parallel lanes, lane 0 the rightmost. -/
def threeLaneWorld : World Car ℚ :=
  { demoWorld with laneId := threeLaneId, to_left := threeLeft, to_right := threeRight }

/-- The flags after a move to the left out of lane 0 was decided: no target
yet. -/
def demoOutbound : ManeuverState :=
  { overtake_to_left := false, overtake_to_right := true, overtake := false,
    old_ego_lane := some 0, car_id := -1 }

/-- The ego in the left lane, level with its old position. -/
def demoEgoMoved : Car := { lane := 1, s := 41, v := 20 }

/-- A vehicle ahead of the ego in the left lane. -/
def demoLeftAhead : Car := { lane := 1, s := 70, v := 20 }

/-- A vehicle behind the ego in the left lane. -/
def demoLeftBehind : Car := { lane := 1, s := 30, v := 20 }

/-- The slow vehicle after it has itself moved to the left lane. -/
def demoSlowMoved : Car := { lane := 1, s := 50, v := 5 }

/-- The flags after the search found vehicle 0 while the ego was still in
lane 0. -/
def demoOutboundTarget : ManeuverState :=
  { overtake_to_left := false, overtake_to_right := true, overtake := false,
    old_ego_lane := some 0, car_id := 0 }

/-- A tick of the example road with the slow vehicle as only traffic, the ego
braking at 5. -/
def demoTickAt (ego : Car) : Tick Car ℚ :=
  { ego_pose := ego, ego_velocity := 20, traffic_poses := [demoSlow],
    ego_accel_command := -5, idm_params := demoIdm, mobil_params := demoMobil }

/-- An overtake of the slow vehicle, tick by tick: the ego behind it in lane 0
(twice), in the left lane behind it, in the left lane past it, and back in
lane 0 past it. -/
def demoOvertakeRun : List (Tick Car ℚ) :=
  [demoTickAt demoEgo, demoTickAt { lane := 0, s := 41, v := 20 },
    demoTickAt { lane := 1, s := 45, v := 20 }, demoTickAt demoEgoPast,
    demoTickAt { lane := 0, s := 61, v := 20 }]

/-- First tick on the three-lane road: the ego in the middle lane behind a slow
vehicle, a slow vehicle just ahead in the right lane, the left lane free. -/
def threeLaneTick1 : Tick Car ℚ :=
  { ego_pose := { lane := 1, s := 40, v := 20 }, ego_velocity := 20,
    traffic_poses := [{ lane := 1, s := 50, v := 5 }, { lane := 0, s := 45, v := 5 }],
    ego_accel_command := -5, idm_params := demoIdm, mobil_params := demoMobil }

/-- Second tick on the three-lane road: the ego still in the middle lane, a slow
vehicle now just ahead in the left lane, the right lane free. -/
def threeLaneTick2 : Tick Car ℚ :=
  { ego_pose := { lane := 1, s := 41, v := 20 }, ego_velocity := 20,
    traffic_poses := [{ lane := 1, s := 50, v := 5 }, { lane := 2, s := 45, v := 5 }],
    ego_accel_command := -5, idm_params := demoIdm, mobil_params := demoMobil }

/-- The states a run from the idle flags goes through: the idle flags and the
flags after each tick. -/
def statesOfRun (w : World Pose Vel) (ts : List (Tick Pose Vel)) :
    Option (List ManeuverState) :=
  (runTicks w ManeuverState.idle ts).map fun trace =>
    ManeuverState.idle :: trace.map fun e => e.2

/-- A tick of planner `B` on the example road: its ego in the left lane at
`s = 60`, the slow vehicle in lane 0 and a vehicle behind the ego in the left
lane, the ego already accelerating at 10. -/
def demoTickB : Tick Car ℚ :=
  { ego_pose := demoEgoPast, ego_velocity := 20, traffic_poses := [demoSlow, demoLeftBehind],
    ego_accel_command := 10, idm_params := demoIdm, mobil_params := demoMobil }

/-- The flags after a tick in the left lane found vehicle 1 of the snapshot. -/
def demoPassingOne : ManeuverState :=
  { overtake_to_left := false, overtake_to_right := true, overtake := true,
    old_ego_lane := some 0, car_id := 1 }

/-- The flags after a tick in the left lane found no vehicle. -/
def demoMovedNoTarget : ManeuverState :=
  { overtake_to_left := false, overtake_to_right := true, overtake := true,
    old_ego_lane := some 0, car_id := -1 }

/-! ## Doubles that may be NaN

The saturation and the assertion of `EvaluateIdm` (lines 409-418) once more, on
positions that are doubles read without rounding but with NaN and the
infinities; the parameters stay real numbers. -/

/-- A `double` read without rounding: NaN, an infinity or a real number. -/
inductive Dbl where
  | nan
  | negInf
  | fin (q : ℚ)
  | posInf
  deriving DecidableEq

/-- The operator `-` of doubles. -/
def Dbl.sub : Dbl → Dbl → Dbl
  | Dbl.nan, _ => Dbl.nan
  | _, Dbl.nan => Dbl.nan
  | Dbl.fin x, Dbl.fin y => Dbl.fin (x - y)
  | Dbl.posInf, Dbl.posInf => Dbl.nan
  | Dbl.negInf, Dbl.negInf => Dbl.nan
  | Dbl.posInf, _ => Dbl.posInf
  | Dbl.negInf, _ => Dbl.negInf
  | Dbl.fin _, Dbl.posInf => Dbl.negInf
  | Dbl.fin _, Dbl.negInf => Dbl.posInf

/-- The operator `+` of doubles. -/
def Dbl.add : Dbl → Dbl → Dbl
  | Dbl.nan, _ => Dbl.nan
  | _, Dbl.nan => Dbl.nan
  | Dbl.fin x, Dbl.fin y => Dbl.fin (x + y)
  | Dbl.posInf, Dbl.negInf => Dbl.nan
  | Dbl.negInf, Dbl.posInf => Dbl.nan
  | Dbl.posInf, _ => Dbl.posInf
  | Dbl.negInf, _ => Dbl.negInf
  | Dbl.fin _, Dbl.posInf => Dbl.posInf
  | Dbl.fin _, Dbl.negInf => Dbl.negInf

/-- The operator `<` of doubles: false as soon as an operand is NaN. -/
def Dbl.lt : Dbl → Dbl → Bool
  | Dbl.nan, _ => false
  | _, Dbl.nan => false
  | Dbl.fin x, Dbl.fin y => decide (x < y)
  | Dbl.negInf, Dbl.negInf => false
  | Dbl.negInf, _ => true
  | _, Dbl.negInf => false
  | Dbl.posInf, _ => false
  | Dbl.fin _, Dbl.posInf => true

/-- The operator `>=` of doubles: false as soon as an operand is NaN. -/
def Dbl.ge : Dbl → Dbl → Bool
  | Dbl.nan, _ => false
  | _, Dbl.nan => false
  | a, b => !(Dbl.lt a b)

/-- The function `std::abs` on doubles. -/
def Dbl.abs : Dbl → Dbl
  | Dbl.nan => Dbl.nan
  | Dbl.negInf => Dbl.posInf
  | Dbl.posInf => Dbl.posInf
  | Dbl.fin q => Dbl.fin |q|

/-- The function `std::max(a, b)`: `(a < b) ? b : a`. -/
def Dbl.max (a b : Dbl) : Dbl := if Dbl.lt a b = true then b else a

/-- The function `std::min(a, b)`: `(b < a) ? b : a`. -/
def Dbl.min (a b : Dbl) : Dbl := if Dbl.lt b a = true then b else a

/-- The local `net_distance` of `EvaluateIdm` (lines 409-417) on positions that
may be NaN or infinite. -/
def net_distance_double (idm_params : IdmPlannerParameters) (s_ego s_lead : Dbl) : Dbl :=
  let delta := Dbl.sub s_lead s_ego
  if Dbl.ge delta (Dbl.fin 0) = true then
    Dbl.max (Dbl.sub delta (Dbl.fin idm_params.bloat_diameter))
      (Dbl.fin idm_params.distance_lower_limit)
  else
    Dbl.min (Dbl.add delta (Dbl.fin idm_params.bloat_diameter))
      (Dbl.fin (-idm_params.distance_lower_limit))

/-- The condition of the `DRAKE_DEMAND` of line 418 on positions that may be NaN
or infinite: `true` when the assertion passes. -/
def gap_assertion (idm_params : IdmPlannerParameters) (s_ego s_lead : Dbl) : Bool :=
  Dbl.ge (Dbl.abs (net_distance_double idm_params s_ego s_lead))
    (Dbl.fin idm_params.distance_lower_limit)

/-- In an interleaving run from the flags `st`, every tick of planner `A`
returns and leaves the flags as it found them. -/
def keepsFlagsA (wA wB : World Pose Vel) : ManeuverState → List (Bool × Tick Pose Vel) → Prop
  | _, [] => True
  | st, (true, t) :: ts => (∃ out, tick wA t st = some (out, st)) ∧ keepsFlagsA wA wB st ts
  | st, (false, t) :: ts =>
    ∀ (out : LaneDirection) (st1 : ManeuverState),
      tick wB t st = some (out, st1) → keepsFlagsA wA wB st1 ts

/-! ## The car-following evaluation -/

/-- The saturated gap is at least `distance_lower_limit` in magnitude. -/
theorem le_abs_net_distance (idm_params : IdmPlannerParameters) (delta : ℚ) :
    idm_params.distance_lower_limit ≤ |net_distance idm_params delta| := by
  unfold net_distance
  split_ifs with h
  · exact le_trans (le_max_right _ _) (le_abs_self _)
  · have h1 : min (delta + idm_params.bloat_diameter) (-idm_params.distance_lower_limit)
        ≤ -idm_params.distance_lower_limit := min_le_right _ _
    have h2 := neg_le_abs
      (min (delta + idm_params.bloat_diameter) (-idm_params.distance_lower_limit))
    linarith

/-- The value of `EvaluateIdm`: its assertion always passes. -/
theorem EvaluateIdm_eq (w : World Pose Vel) (idm_params : IdmPlannerParameters)
    (f l : RoadOdometry Vel) :
    EvaluateIdm w idm_params f l =
      some (w.Evaluate idm_params (w.GetSVelocity f) (net_distance idm_params (l.s - f.s))
        (w.GetSVelocity f - w.GetSVelocity l)) := by
  simp [EvaluateIdm, le_abs_net_distance]

/-- The value of `EvaluateIdm`, folded. -/
theorem EvaluateIdm_idmAccel (w : World Pose Vel) (idm_params : IdmPlannerParameters)
    (f l : RoadOdometry Vel) : EvaluateIdm w idm_params f l = some (idmAccel w idm_params f l) :=
  EvaluateIdm_eq w idm_params f l

/-! ## The incentives -/

/-- The value of `ComputeIncentiveOutOfLane`. -/
theorem ComputeIncentiveOutOfLane_eq (w : World Pose Vel) (idm_params : IdmPlannerParameters)
    (mobil_params : MobilPlannerParameters) (od : RoadOdometry Vel × RoadOdometry Vel)
    (ego : RoadOdometry Vel) (ego_old_accel tdat incentive : ℚ) :
    ComputeIncentiveOutOfLane w idm_params mobil_params od ego ego_old_accel tdat incentive =
      some (if idmAccel w idm_params od.2 ego < -mobil_params.max_deceleration then incentive
        else (idmAccel w idm_params ego od.1 - ego_old_accel) +
          mobil_params.p *
            ((idmAccel w idm_params od.2 ego - idmAccel w idm_params od.2 od.1) + tdat)) := by
  simp only [ComputeIncentiveOutOfLane, EvaluateIdm_idmAccel, Option.bind_eq_bind,
    Option.some_bind, Option.pure_def]
  split_ifs <;> rfl

/-- The value of `ComputeIncentives`: one `sideIncentive` per side. -/
theorem ComputeIncentives_eq (w : World Pose Vel) (lanes : Option Lane × Option Lane)
    (idm_params : IdmPlannerParameters) (mobil_params : MobilPlannerParameters)
    (ego_pose : Pose) (ego_velocity : Vel) (traffic_poses : List Pose) (ego_acceleration : ℚ) :
    ComputeIncentives w lanes idm_params mobil_params ego_pose ego_velocity traffic_poses
        ego_acceleration =
      some (sideIncentive w idm_params mobil_params ego_pose ego_velocity traffic_poses
              ego_acceleration lanes.1,
            sideIncentive w idm_params mobil_params ego_pose ego_velocity traffic_poses
              ego_acceleration lanes.2) := by
  obtain ⟨a, b⟩ := lanes
  cases a <;> cases b <;>
    simp [ComputeIncentives, sideIncentive, EvaluateIdm_idmAccel, ComputeIncentiveOutOfLane_eq]

/-! ## Claims on `EvaluateIdm` -/

/-- C7: with `rawDelta = s_lead - s_follow`, `EvaluateIdm` hands to `Evaluate` the
follower's speed, the gap `max (rawDelta - bloat_diameter) distance_lower_limit`
when `rawDelta ≥ 0` and `min (rawDelta + bloat_diameter) (-distance_lower_limit)`
when `rawDelta < 0`, and the closing speed `s_dot_follow - s_dot_lead`.  The gap is
exactly `distance_lower_limit` for `0 ≤ rawDelta ≤ bloat_diameter +
distance_lower_limit` and exactly `-distance_lower_limit` for
`-(bloat_diameter + distance_lower_limit) ≤ rawDelta < 0` (the positivity of the
two parameters is not needed). -/
theorem evaluateIdm_gap_saturation (w : World Pose Vel) (idm_params : IdmPlannerParameters)
    (follower leader : RoadOdometry Vel) :
    EvaluateIdm w idm_params follower leader =
        some (w.Evaluate idm_params (w.GetSVelocity follower)
          (if leader.s - follower.s ≥ 0 then
            max (leader.s - follower.s - idm_params.bloat_diameter)
              idm_params.distance_lower_limit
           else
            min (leader.s - follower.s + idm_params.bloat_diameter)
              (-idm_params.distance_lower_limit))
          (w.GetSVelocity follower - w.GetSVelocity leader)) ∧
      (0 ≤ leader.s - follower.s →
        leader.s - follower.s ≤ idm_params.bloat_diameter + idm_params.distance_lower_limit →
        EvaluateIdm w idm_params follower leader =
          some (w.Evaluate idm_params (w.GetSVelocity follower)
            idm_params.distance_lower_limit
            (w.GetSVelocity follower - w.GetSVelocity leader))) ∧
      (-(idm_params.bloat_diameter + idm_params.distance_lower_limit) ≤ leader.s - follower.s →
        leader.s - follower.s < 0 →
        EvaluateIdm w idm_params follower leader =
          some (w.Evaluate idm_params (w.GetSVelocity follower)
            (-idm_params.distance_lower_limit)
            (w.GetSVelocity follower - w.GetSVelocity leader))) := by
  refine ⟨?_, ?_, ?_⟩
  · rw [EvaluateIdm_eq]; rfl
  · intro h0 h1
    rw [EvaluateIdm_eq, net_distance, if_pos h0, max_eq_right (by linarith)]
  · intro h0 h1
    rw [EvaluateIdm_eq, net_distance, if_neg (not_le.mpr h1), min_eq_right (by linarith)]

/-- C7 at a follower two metres behind its leader, and at the same two vehicles
with the roles exchanged: the gap handed over is `distance_lower_limit`,
respectively `-distance_lower_limit`. -/
theorem evaluateIdm_gap_saturation_witness :
    ((0 : ℚ) ≤ demoNearLeader.s - demoFollower.s ∧
      demoNearLeader.s - demoFollower.s ≤
        demoIdm.bloat_diameter + demoIdm.distance_lower_limit ∧
      EvaluateIdm demoWorld demoIdm demoFollower demoNearLeader =
        some (demoWorld.Evaluate demoIdm (demoWorld.GetSVelocity demoFollower)
          demoIdm.distance_lower_limit
          (demoWorld.GetSVelocity demoFollower - demoWorld.GetSVelocity demoNearLeader))) ∧
    (-(demoIdm.bloat_diameter + demoIdm.distance_lower_limit) ≤
        demoFollower.s - demoNearLeader.s ∧
      demoFollower.s - demoNearLeader.s < 0 ∧
      EvaluateIdm demoWorld demoIdm demoNearLeader demoFollower =
        some (demoWorld.Evaluate demoIdm (demoWorld.GetSVelocity demoNearLeader)
          (-demoIdm.distance_lower_limit)
          (demoWorld.GetSVelocity demoNearLeader - demoWorld.GetSVelocity demoFollower))) :=
  ⟨⟨by norm_num [demoNearLeader, demoFollower],
     by norm_num [demoNearLeader, demoFollower, demoIdm],
     (evaluateIdm_gap_saturation demoWorld demoIdm demoFollower demoNearLeader).2.1
       (by norm_num [demoNearLeader, demoFollower])
       (by norm_num [demoNearLeader, demoFollower, demoIdm])⟩,
   ⟨by norm_num [demoNearLeader, demoFollower, demoIdm],
     by norm_num [demoNearLeader, demoFollower],
     (evaluateIdm_gap_saturation demoWorld demoIdm demoNearLeader demoFollower).2.2
       (by norm_num [demoNearLeader, demoFollower, demoIdm])
       (by norm_num [demoNearLeader, demoFollower])⟩⟩

/-- On real-valued positions the gap `EvaluateIdm` computes passes the
`DRAKE_DEMAND` `|net_distance| ≥ distance_lower_limit`: the call returns the
value of `Evaluate` on a gap that is the saturated one and is at least
`distance_lower_limit` in magnitude. -/
theorem evaluateIdm_gap_real (w : World Pose Vel)
    (idm_params : IdmPlannerParameters) (follower leader : RoadOdometry Vel) :
    ∃ gap : ℚ,
      gap = net_distance idm_params (leader.s - follower.s) ∧
      idm_params.distance_lower_limit ≤ |gap| ∧
      EvaluateIdm w idm_params follower leader =
        some (w.Evaluate idm_params (w.GetSVelocity follower) gap
          (w.GetSVelocity follower - w.GetSVelocity leader)) :=
  ⟨_, rfl, le_abs_net_distance idm_params _, EvaluateIdm_eq w idm_params follower leader⟩

/-! ## Claims on the incentives -/

/-- C4 (P1, safety gate): when the acceleration of the candidate lane's trailing
vehicle behind the ego, `trailing_new_accel`, is below `-max_deceleration`,
`ComputeIncentiveOutOfLane` returns the incentive it was given, and the slot of
that lane in the pair returned by `ComputeIncentives` is the sentinel
`-kDefaultLargeAccel`, whatever the other terms are. -/
theorem safety_gate_keeps_sentinel (w : World Pose Vel) (idm_params : IdmPlannerParameters)
    (mobil_params : MobilPlannerParameters) :
    (∀ (od : RoadOdometry Vel × RoadOdometry Vel) (ego : RoadOdometry Vel)
        (ego_old_accel tdat incentive a : ℚ),
        EvaluateIdm w idm_params od.2 ego = some a →
        a < -mobil_params.max_deceleration →
        ComputeIncentiveOutOfLane w idm_params mobil_params od ego ego_old_accel tdat
          incentive = some incentive) ∧
    (∀ (lanes : Option Lane × Option Lane) (ego_pose : Pose) (ego_velocity : Vel)
        (traffic_poses : List Pose) (ego_acceleration : ℚ) (l : Lane) (a : ℚ),
        lanes.1 = some l →
        EvaluateIdm w idm_params (w.FindClosestPair ego_pose traffic_poses (some l)).2
          (RoadOdometry.ofPosition (w.CalcRoadPosition ego_pose) ego_velocity) = some a →
        a < -mobil_params.max_deceleration →
        ∃ y, ComputeIncentives w lanes idm_params mobil_params ego_pose ego_velocity
          traffic_poses ego_acceleration = some (-kDefaultLargeAccel, y)) ∧
    (∀ (lanes : Option Lane × Option Lane) (ego_pose : Pose) (ego_velocity : Vel)
        (traffic_poses : List Pose) (ego_acceleration : ℚ) (l : Lane) (a : ℚ),
        lanes.2 = some l →
        EvaluateIdm w idm_params (w.FindClosestPair ego_pose traffic_poses (some l)).2
          (RoadOdometry.ofPosition (w.CalcRoadPosition ego_pose) ego_velocity) = some a →
        a < -mobil_params.max_deceleration →
        ∃ x, ComputeIncentives w lanes idm_params mobil_params ego_pose ego_velocity
          traffic_poses ego_acceleration = some (x, -kDefaultLargeAccel)) := by
  refine ⟨?_, ?_, ?_⟩
  · intro od ego ego_old_accel tdat incentive a ha hlt
    rw [EvaluateIdm_idmAccel] at ha
    rw [ComputeIncentiveOutOfLane_eq, if_pos (by rw [Option.some.inj ha]; exact hlt)]
  · intro lanes ego_pose ego_velocity traffic_poses ego_acceleration l a hl ha hlt
    rw [EvaluateIdm_idmAccel] at ha
    refine ⟨sideIncentive w idm_params mobil_params ego_pose ego_velocity traffic_poses
      ego_acceleration lanes.2, ?_⟩
    rw [ComputeIncentives_eq, hl]
    congr 2
    simp only [sideIncentive]
    rw [if_pos (by rw [Option.some.inj ha]; exact hlt)]
  · intro lanes ego_pose ego_velocity traffic_poses ego_acceleration l a hl ha hlt
    rw [EvaluateIdm_idmAccel] at ha
    refine ⟨sideIncentive w idm_params mobil_params ego_pose ego_velocity traffic_poses
      ego_acceleration lanes.1, ?_⟩
    rw [ComputeIncentives_eq, hl]
    congr 2
    simp only [sideIncentive]
    rw [if_pos (by rw [Option.some.inj ha]; exact hlt)]

/-- The tailgater of the left lane would brake harder than `max_deceleration`
behind the ego. -/
theorem demo_tailgater_unsafe :
    idmAccel demoWorld demoIdm
        (demoWorld.FindClosestPair demoEgo [demoTailgater, demoSlow] (some 1)).2
        (RoadOdometry.ofPosition (demoWorld.CalcRoadPosition demoEgo) (20 : ℚ)) <
      -demoMobil.max_deceleration := by
  norm_num [idmAccel, net_distance, demoWorld, demoClosestPair, demoTrailing, demoEvaluate,
    demoIdm, demoMobil, demoEgo, demoTailgater, demoSlow, RoadOdometry.ofPosition]

/-- The tailgater of the right lane would brake harder than `max_deceleration`
behind the ego of the left lane. -/
theorem demo_tailgaterRight_unsafe :
    idmAccel demoWorld demoIdm
        (demoWorld.FindClosestPair demoEgoLeft [demoTailgaterRight, demoSlow] (some 0)).2
        (RoadOdometry.ofPosition (demoWorld.CalcRoadPosition demoEgoLeft) (20 : ℚ)) <
      -demoMobil.max_deceleration := by
  norm_num [idmAccel, net_distance, demoWorld, demoClosestPair, demoTrailing, demoEvaluate,
    demoIdm, demoMobil, demoEgoLeft, demoTailgaterRight, demoSlow, RoadOdometry.ofPosition]

/-- C4 on the example road: a fast vehicle one metre behind the ego in the
candidate lane keeps that lane's incentive at the sentinel. -/
theorem safety_gate_keeps_sentinel_witness :
    (∃ a : ℚ,
      EvaluateIdm demoWorld demoIdm
          (demoWorld.FindClosestPair demoEgo [demoTailgater, demoSlow] (some 1)).2
          (RoadOdometry.ofPosition (demoWorld.CalcRoadPosition demoEgo) (20 : ℚ)) = some a ∧
      a < -demoMobil.max_deceleration ∧
      ComputeIncentiveOutOfLane demoWorld demoIdm demoMobil
          (demoWorld.FindClosestPair demoEgo [demoTailgater, demoSlow] (some 1))
          (RoadOdometry.ofPosition (demoWorld.CalcRoadPosition demoEgo) (20 : ℚ)) 0 0 7 =
        some 7 ∧
      ∃ y, ComputeIncentives demoWorld (some 1, none) demoIdm demoMobil demoEgo 20
          [demoTailgater, demoSlow] 0 = some (-kDefaultLargeAccel, y)) ∧
    (∃ a : ℚ,
      EvaluateIdm demoWorld demoIdm
          (demoWorld.FindClosestPair demoEgoLeft [demoTailgaterRight, demoSlow] (some 0)).2
          (RoadOdometry.ofPosition (demoWorld.CalcRoadPosition demoEgoLeft) (20 : ℚ)) =
        some a ∧
      a < -demoMobil.max_deceleration ∧
      ∃ x, ComputeIncentives demoWorld (none, some 0) demoIdm demoMobil demoEgoLeft 20
          [demoTailgaterRight, demoSlow] 0 = some (x, -kDefaultLargeAccel)) :=
  ⟨⟨_, EvaluateIdm_idmAccel _ _ _ _, demo_tailgater_unsafe,
      (safety_gate_keeps_sentinel demoWorld demoIdm demoMobil).1 _ _ 0 0 7 _
        (EvaluateIdm_idmAccel _ _ _ _) demo_tailgater_unsafe,
      (safety_gate_keeps_sentinel demoWorld demoIdm demoMobil).2.1 (some 1, none) demoEgo 20
        [demoTailgater, demoSlow] 0 1 _ rfl (EvaluateIdm_idmAccel _ _ _ _)
        demo_tailgater_unsafe⟩,
    ⟨_, EvaluateIdm_idmAccel _ _ _ _, demo_tailgaterRight_unsafe,
      (safety_gate_keeps_sentinel demoWorld demoIdm demoMobil).2.2 (none, some 0) demoEgoLeft 20
        [demoTailgaterRight, demoSlow] 0 0 _ rfl (EvaluateIdm_idmAccel _ _ _ _)
        demo_tailgaterRight_unsafe⟩⟩

/-- C5: for an existing candidate lane `L` whose trailing vehicle's acceleration
behind the ego is at least `-max_deceleration`, the incentive returned for `L` is
`(egoNewAccel - egoCurrentAccel) + p * ((trailingNewAccelL - trailingOldAccelL) +
(trailingNewAccelCurrent - trailingOldAccelCurrent))`, each term being the
`EvaluateIdm` value the claim names; the current-lane term is the same in the
left and in the right incentive. -/
theorem incentive_formula (w : World Pose Vel) (lanes : Option Lane × Option Lane)
    (idm_params : IdmPlannerParameters) (mobil_params : MobilPlannerParameters)
    (ego_pose : Pose) (ego_velocity : Vel) (traffic_poses : List Pose)
    (ego_acceleration trailingOldAccelCurrent trailingNewAccelCurrent : ℚ)
    (hOldC : EvaluateIdm w idm_params (w.FindClosestPair ego_pose traffic_poses none).2
      (RoadOdometry.ofPosition (w.CalcRoadPosition ego_pose) ego_velocity) =
        some trailingOldAccelCurrent)
    (hNewC : EvaluateIdm w idm_params (w.FindClosestPair ego_pose traffic_poses none).2
      (w.FindClosestPair ego_pose traffic_poses none).1 = some trailingNewAccelCurrent) :
    (∀ (L : Lane) (egoNewAccel trailingOldAccelL trailingNewAccelL : ℚ),
        lanes.1 = some L →
        EvaluateIdm w idm_params
          (RoadOdometry.ofPosition (w.CalcRoadPosition ego_pose) ego_velocity)
          (w.FindClosestPair ego_pose traffic_poses (some L)).1 = some egoNewAccel →
        EvaluateIdm w idm_params (w.FindClosestPair ego_pose traffic_poses (some L)).2
          (w.FindClosestPair ego_pose traffic_poses (some L)).1 = some trailingOldAccelL →
        EvaluateIdm w idm_params (w.FindClosestPair ego_pose traffic_poses (some L)).2
          (RoadOdometry.ofPosition (w.CalcRoadPosition ego_pose) ego_velocity) =
            some trailingNewAccelL →
        trailingNewAccelL ≥ -mobil_params.max_deceleration →
        ∃ y, ComputeIncentives w lanes idm_params mobil_params ego_pose ego_velocity
          traffic_poses ego_acceleration =
            some ((egoNewAccel - ego_acceleration) +
              mobil_params.p * ((trailingNewAccelL - trailingOldAccelL) +
                (trailingNewAccelCurrent - trailingOldAccelCurrent)), y)) ∧
    (∀ (L : Lane) (egoNewAccel trailingOldAccelL trailingNewAccelL : ℚ),
        lanes.2 = some L →
        EvaluateIdm w idm_params
          (RoadOdometry.ofPosition (w.CalcRoadPosition ego_pose) ego_velocity)
          (w.FindClosestPair ego_pose traffic_poses (some L)).1 = some egoNewAccel →
        EvaluateIdm w idm_params (w.FindClosestPair ego_pose traffic_poses (some L)).2
          (w.FindClosestPair ego_pose traffic_poses (some L)).1 = some trailingOldAccelL →
        EvaluateIdm w idm_params (w.FindClosestPair ego_pose traffic_poses (some L)).2
          (RoadOdometry.ofPosition (w.CalcRoadPosition ego_pose) ego_velocity) =
            some trailingNewAccelL →
        trailingNewAccelL ≥ -mobil_params.max_deceleration →
        ∃ x, ComputeIncentives w lanes idm_params mobil_params ego_pose ego_velocity
          traffic_poses ego_acceleration =
            some (x, (egoNewAccel - ego_acceleration) +
              mobil_params.p * ((trailingNewAccelL - trailingOldAccelL) +
                (trailingNewAccelCurrent - trailingOldAccelCurrent)))) := by
  rw [EvaluateIdm_idmAccel] at hOldC hNewC
  have hO := Option.some.inj hOldC
  have hN := Option.some.inj hNewC
  refine ⟨?_, ?_⟩
  · intro L e tO tN hL he htO htN hge
    rw [EvaluateIdm_idmAccel] at he htO htN
    have h1 := Option.some.inj he
    have h2 := Option.some.inj htO
    have h3 := Option.some.inj htN
    refine ⟨sideIncentive w idm_params mobil_params ego_pose ego_velocity traffic_poses
      ego_acceleration lanes.2, ?_⟩
    rw [ComputeIncentives_eq, hL]
    congr 2
    simp only [sideIncentive]
    rw [if_neg (by rw [h3]; exact not_lt.mpr hge), h1, h2, h3, hO, hN]
  · intro L e tO tN hL he htO htN hge
    rw [EvaluateIdm_idmAccel] at he htO htN
    have h1 := Option.some.inj he
    have h2 := Option.some.inj htO
    have h3 := Option.some.inj htN
    refine ⟨sideIncentive w idm_params mobil_params ego_pose ego_velocity traffic_poses
      ego_acceleration lanes.1, ?_⟩
    rw [ComputeIncentives_eq, hL]
    congr 2
    simp only [sideIncentive]
    rw [if_neg (by rw [h3]; exact not_lt.mpr hge), h1, h2, h3, hO, hN]

/-- With nobody behind the ego in the other lane, the trailing sentinel of that
lane brakes less than `max_deceleration`. -/
theorem demo_empty_lane_safe :
    idmAccel demoWorld demoIdm (demoWorld.FindClosestPair demoEgo [demoSlow] (some 1)).2
        (RoadOdometry.ofPosition (demoWorld.CalcRoadPosition demoEgo) (20 : ℚ)) ≥
      -demoMobil.max_deceleration := by
  norm_num [idmAccel, net_distance, demoWorld, demoClosestPair, demoTrailing, demoEvaluate,
    demoIdm, demoMobil, demoEgo, demoSlow, RoadOdometry.ofPosition]

/-- With nobody behind the ego of the left lane in lane 0, the trailing sentinel
of lane 0 brakes less than `max_deceleration`. -/
theorem demo_empty_right_safe :
    idmAccel demoWorld demoIdm (demoWorld.FindClosestPair demoEgoLeft [demoSlow] (some 0)).2
        (RoadOdometry.ofPosition (demoWorld.CalcRoadPosition demoEgoLeft) (20 : ℚ)) ≥
      -demoMobil.max_deceleration := by
  norm_num [idmAccel, net_distance, demoWorld, demoClosestPair, demoTrailing, demoEvaluate,
    demoIdm, demoMobil, demoEgoLeft, demoSlow, RoadOdometry.ofPosition]

/-- C5 on the example road: the ego behind the slow vehicle with a free left
lane, and the ego of the left lane with lane 0 on its right. -/
theorem incentive_formula_witness :
    (∃ y, ComputeIncentives demoWorld (some 1, none) demoIdm demoMobil demoEgo 20 [demoSlow] (-5) =
      some ((idmAccel demoWorld demoIdm
              (RoadOdometry.ofPosition (demoWorld.CalcRoadPosition demoEgo) (20 : ℚ))
              (demoWorld.FindClosestPair demoEgo [demoSlow] (some 1)).1 - (-5)) +
            demoMobil.p *
              ((idmAccel demoWorld demoIdm
                  (demoWorld.FindClosestPair demoEgo [demoSlow] (some 1)).2
                  (RoadOdometry.ofPosition (demoWorld.CalcRoadPosition demoEgo) (20 : ℚ)) -
                idmAccel demoWorld demoIdm
                  (demoWorld.FindClosestPair demoEgo [demoSlow] (some 1)).2
                  (demoWorld.FindClosestPair demoEgo [demoSlow] (some 1)).1) +
               (idmAccel demoWorld demoIdm
                  (demoWorld.FindClosestPair demoEgo [demoSlow] none).2
                  (demoWorld.FindClosestPair demoEgo [demoSlow] none).1 -
                idmAccel demoWorld demoIdm
                  (demoWorld.FindClosestPair demoEgo [demoSlow] none).2
                  (RoadOdometry.ofPosition (demoWorld.CalcRoadPosition demoEgo) (20 : ℚ)))),
            y)) ∧
    (∃ x, ComputeIncentives demoWorld (none, some 0) demoIdm demoMobil demoEgoLeft 20 [demoSlow]
        (-5) =
      some (x,
        (idmAccel demoWorld demoIdm
              (RoadOdometry.ofPosition (demoWorld.CalcRoadPosition demoEgoLeft) (20 : ℚ))
              (demoWorld.FindClosestPair demoEgoLeft [demoSlow] (some 0)).1 - (-5)) +
            demoMobil.p *
              ((idmAccel demoWorld demoIdm
                  (demoWorld.FindClosestPair demoEgoLeft [demoSlow] (some 0)).2
                  (RoadOdometry.ofPosition (demoWorld.CalcRoadPosition demoEgoLeft) (20 : ℚ)) -
                idmAccel demoWorld demoIdm
                  (demoWorld.FindClosestPair demoEgoLeft [demoSlow] (some 0)).2
                  (demoWorld.FindClosestPair demoEgoLeft [demoSlow] (some 0)).1) +
               (idmAccel demoWorld demoIdm
                  (demoWorld.FindClosestPair demoEgoLeft [demoSlow] none).2
                  (demoWorld.FindClosestPair demoEgoLeft [demoSlow] none).1 -
                idmAccel demoWorld demoIdm
                  (demoWorld.FindClosestPair demoEgoLeft [demoSlow] none).2
                  (RoadOdometry.ofPosition (demoWorld.CalcRoadPosition demoEgoLeft)
                    (20 : ℚ)))))) :=
  ⟨(incentive_formula demoWorld (some 1, none) demoIdm demoMobil demoEgo 20 [demoSlow] (-5) _ _
      (EvaluateIdm_idmAccel _ _ _ _) (EvaluateIdm_idmAccel _ _ _ _)).1 1 _ _ _ rfl
      (EvaluateIdm_idmAccel _ _ _ _) (EvaluateIdm_idmAccel _ _ _ _)
      (EvaluateIdm_idmAccel _ _ _ _) demo_empty_lane_safe,
   (incentive_formula demoWorld (none, some 0) demoIdm demoMobil demoEgoLeft 20 [demoSlow] (-5)
      _ _ (EvaluateIdm_idmAccel _ _ _ _) (EvaluateIdm_idmAccel _ _ _ _)).2 0 _ _ _ rfl
      (EvaluateIdm_idmAccel _ _ _ _) (EvaluateIdm_idmAccel _ _ _ _)
      (EvaluateIdm_idmAccel _ _ _ _) demo_empty_right_safe⟩

/-- C6: the pair returned by `ComputeIncentives` has the sentinel
`-kDefaultLargeAccel` in the slot of a neighbour lane that does not exist; a
slot that differs from the sentinel belongs to a lane that exists. -/
theorem missing_lane_keeps_sentinel (w : World Pose Vel) (lanes : Option Lane × Option Lane)
    (idm_params : IdmPlannerParameters) (mobil_params : MobilPlannerParameters)
    (ego_pose : Pose) (ego_velocity : Vel) (traffic_poses : List Pose) (ego_acceleration : ℚ) :
    ∃ x y, ComputeIncentives w lanes idm_params mobil_params ego_pose ego_velocity
        traffic_poses ego_acceleration = some (x, y) ∧
      (lanes.1 = none → x = -kDefaultLargeAccel) ∧
      (lanes.2 = none → y = -kDefaultLargeAccel) ∧
      (x ≠ -kDefaultLargeAccel → lanes.1 ≠ none) ∧
      (y ≠ -kDefaultLargeAccel → lanes.2 ≠ none) := by
  have hnone : sideIncentive w idm_params mobil_params ego_pose ego_velocity traffic_poses
      ego_acceleration none = -kDefaultLargeAccel := rfl
  refine ⟨_, _, ComputeIncentives_eq w lanes idm_params mobil_params ego_pose ego_velocity
    traffic_poses ego_acceleration, ?_, ?_, ?_, ?_⟩
  · intro h; rw [h]; exact hnone
  · intro h; rw [h]; exact hnone
  · intro hx h; exact hx (by rw [h]; exact hnone)
  · intro hy h; exact hy (by rw [h]; exact hnone)

/-- C9 (P2, left/right symmetry): `ComputeIncentives` returns a pair `(x, y)` on
the lane pair `(A, B)` and the pair `(y, x)` on the swapped pair `(B, A)`, all
other arguments being the same; `A` and `B` may be null. -/
theorem incentives_swap (w : World Pose Vel) (A B : Option Lane)
    (idm_params : IdmPlannerParameters) (mobil_params : MobilPlannerParameters)
    (ego_pose : Pose) (ego_velocity : Vel) (traffic_poses : List Pose) (ego_acceleration : ℚ) :
    ∃ x y,
      ComputeIncentives w (A, B) idm_params mobil_params ego_pose ego_velocity traffic_poses
        ego_acceleration = some (x, y) ∧
      ComputeIncentives w (B, A) idm_params mobil_params ego_pose ego_velocity traffic_poses
        ego_acceleration = some (y, x) :=
  ⟨_, _, ComputeIncentives_eq w (A, B) idm_params mobil_params ego_pose ego_velocity
      traffic_poses ego_acceleration,
    ComputeIncentives_eq w (B, A) idm_params mobil_params ego_pose ego_velocity
      traffic_poses ego_acceleration⟩

/-- C6 on the example road: the ego in lane 0 has no right neighbour, so the
right slot is the sentinel; the left slot differs from it and lane 1 exists. -/
theorem missing_lane_keeps_sentinel_witness :
    ∃ x y, ComputeIncentives demoWorld (demoWorld.to_left 0, demoWorld.to_right 0) demoIdm
        demoMobil demoEgo 20 [demoSlow] (-5) = some (x, y) ∧
      y = -kDefaultLargeAccel ∧ x ≠ -kDefaultLargeAccel ∧ demoWorld.to_left 0 ≠ none := by
  obtain ⟨x, y, h, _, h2, h3, _⟩ := missing_lane_keeps_sentinel demoWorld
    (demoWorld.to_left 0, demoWorld.to_right 0) demoIdm demoMobil demoEgo 20 [demoSlow] (-5)
  have hx : x ≠ -kDefaultLargeAccel := by
    rw [ComputeIncentives_eq] at h
    rw [← (Prod.mk.inj (Option.some.inj h)).1]
    norm_num [sideIncentive, idmAccel, net_distance, demoWorld, demoClosestPair, demoLeading,
      demoTrailing, demoEvaluate, demoIdm, demoMobil, demoEgo, demoSlow, demoLeft,
      RoadOdometry.ofPosition, kDefaultLargeAccel]
  exact ⟨x, y, h, h2 rfl, hx, h3 hx⟩

/-! ## The tick from the idle flags -/

/-- The step of lines 207-212 does nothing while `old_ego_lane` is null. -/
theorem markOvertake_of_old_none (w : World Pose Vel) (ego_position : RoadPosition)
    (st : ManeuverState) (h : st.old_ego_lane = none) : markOvertake w ego_position st = st := by
  unfold markOvertake
  rw [h]

/-- The search of lines 214-242 does not run while no direction flag is set. -/
theorem findCar_of_no_direction (w : World Pose Vel) (ego_position : RoadPosition)
    (traffic_poses : List Pose) (st : ManeuverState)
    (hl : st.overtake_to_left = false) (hr : st.overtake_to_right = false) :
    findCar w ego_position traffic_poses st = st := by
  simp [findCar, hl, hr]

/-- The nested `if` of lines 247-271 on the idle flags, written as the chain
`if / else if / else`. -/
theorem decide_lane_idle (w : World Pose Vel) (ego_position : RoadPosition)
    (lanes : Option Lane × Option Lane) (L R : ℚ) (mobil_params : MobilPlannerParameters)
    (ego_pose : Pose) (traffic_poses : List Pose) :
    decide_lane w ego_position lanes (L, R) mobil_params ego_pose traffic_poses
        ManeuverState.idle =
      some
        (if L ≥ R ∧ L > mobil_params.threshold then
          (lanes.1,
            { overtake_to_left := false, overtake_to_right := true, overtake := false,
              old_ego_lane := some ego_position.lane, car_id := -1 })
        else if R > mobil_params.threshold then
          (lanes.2,
            { overtake_to_left := true, overtake_to_right := false, overtake := false,
              old_ego_lane := some ego_position.lane, car_id := -1 })
        else (some ego_position.lane, ManeuverState.idle)) := by
  by_cases h1 : L ≥ R
  · by_cases h2 : L > mobil_params.threshold
    · simp [decide_lane, ManeuverState.idle, h1, h2]
    · have h3 : ¬ R > mobil_params.threshold := fun h => h2 (lt_of_lt_of_le h h1)
      simp [decide_lane, ManeuverState.idle, h1, h2, h3]
  · by_cases h3 : R > mobil_params.threshold
    · simp [decide_lane, ManeuverState.idle, h1, h3]
    · simp [decide_lane, ManeuverState.idle, h1, h3]

/-- C1 (Idle decision): a tick with valid parameters that starts from the idle
flags with at least one neighbour lane computes the incentives `(L, R)` and, if
`L ≥ R` and `L > threshold`, selects the left neighbour and records the move to
the left (the flag the file sets for it is `overtake_to_right`, the direction of
the way back) with `old_ego_lane` the ego's lane; else if `R > threshold`, selects
the right neighbour and records the move to the right (flag `overtake_to_left`)
with `old_ego_lane` the ego's lane; else selects the ego's lane and leaves the
flags idle.  The chain of the statement is the spec's `if / else if / else`; the
tick is the file's nested `if`. -/
theorem idle_decision (w : World Pose Vel) (ego_pose : Pose) (ego_velocity : Vel)
    (traffic_poses : List Pose) (ego_accel_command : ℚ) (idm_params : IdmPlannerParameters)
    (mobil_params : MobilPlannerParameters)
    (hidm : w.IdmIsValid idm_params = true) (hmobil : w.MobilIsValid mobil_params = true)
    (hn : w.to_left (w.CalcRoadPosition ego_pose).lane ≠ none ∨
      w.to_right (w.CalcRoadPosition ego_pose).lane ≠ none) :
    ∃ leftIncentive rightIncentive : ℚ,
      ComputeIncentives w
          (w.to_left (w.CalcRoadPosition ego_pose).lane,
            w.to_right (w.CalcRoadPosition ego_pose).lane)
          idm_params mobil_params ego_pose ego_velocity traffic_poses ego_accel_command =
        some (leftIncentive, rightIncentive) ∧
      ImplDoCalcLane w ego_pose ego_velocity traffic_poses ego_accel_command idm_params
          mobil_params ManeuverState.idle =
        some
          (if leftIncentive ≥ rightIncentive ∧ leftIncentive > mobil_params.threshold then
            ({ lane := w.to_left (w.CalcRoadPosition ego_pose).lane, with_s := w.with_s },
              { overtake_to_left := false, overtake_to_right := true, overtake := false,
                old_ego_lane := some (w.CalcRoadPosition ego_pose).lane, car_id := -1 })
          else if rightIncentive > mobil_params.threshold then
            ({ lane := w.to_right (w.CalcRoadPosition ego_pose).lane, with_s := w.with_s },
              { overtake_to_left := true, overtake_to_right := false, overtake := false,
                old_ego_lane := some (w.CalcRoadPosition ego_pose).lane, car_id := -1 })
          else
            ({ lane := some (w.CalcRoadPosition ego_pose).lane, with_s := w.with_s },
              ManeuverState.idle)) := by
  refine ⟨_, _, ComputeIncentives_eq w _ idm_params mobil_params ego_pose ego_velocity
    traffic_poses ego_accel_command, ?_⟩
  unfold ImplDoCalcLane
  simp only [hidm, hmobil, Bool.true_eq_false, if_false, if_pos hn, ComputeIncentives_eq]
  rw [markOvertake_of_old_none w _ _ rfl, findCar_of_no_direction w _ _ _ rfl rfl,
    decide_lane_idle]
  split_ifs <;> rfl

/-- C1 on the example road: the ego of lane 0 behind the slow vehicle, lane 1
on its left. -/
theorem idle_decision_witness :
    demoWorld.IdmIsValid demoIdm = true ∧ demoWorld.MobilIsValid demoMobil = true ∧
    (demoWorld.to_left (demoWorld.CalcRoadPosition demoEgo).lane ≠ none ∨
      demoWorld.to_right (demoWorld.CalcRoadPosition demoEgo).lane ≠ none) ∧
    ∃ leftIncentive rightIncentive : ℚ,
      ComputeIncentives demoWorld
          (demoWorld.to_left (demoWorld.CalcRoadPosition demoEgo).lane,
            demoWorld.to_right (demoWorld.CalcRoadPosition demoEgo).lane)
          demoIdm demoMobil demoEgo 20 [demoSlow] (-5) =
        some (leftIncentive, rightIncentive) ∧
      ImplDoCalcLane demoWorld demoEgo 20 [demoSlow] (-5) demoIdm demoMobil
          ManeuverState.idle =
        some
          (if leftIncentive ≥ rightIncentive ∧ leftIncentive > demoMobil.threshold then
            ({ lane := demoWorld.to_left (demoWorld.CalcRoadPosition demoEgo).lane,
               with_s := demoWorld.with_s },
              { overtake_to_left := false, overtake_to_right := true, overtake := false,
                old_ego_lane := some (demoWorld.CalcRoadPosition demoEgo).lane, car_id := -1 })
          else if rightIncentive > demoMobil.threshold then
            ({ lane := demoWorld.to_right (demoWorld.CalcRoadPosition demoEgo).lane,
               with_s := demoWorld.with_s },
              { overtake_to_left := true, overtake_to_right := false, overtake := false,
                old_ego_lane := some (demoWorld.CalcRoadPosition demoEgo).lane, car_id := -1 })
          else
            ({ lane := some (demoWorld.CalcRoadPosition demoEgo).lane,
               with_s := demoWorld.with_s },
              ManeuverState.idle)) :=
  ⟨by simp [demoWorld, demoIdm], by simp [demoWorld, demoMobil], Or.inl (by decide),
    idle_decision demoWorld demoEgo 20 [demoSlow] (-5) demoIdm demoMobil
      (by simp [demoWorld, demoIdm]) (by simp [demoWorld, demoMobil]) (Or.inl (by decide))⟩

/-- A tick with valid parameters and at least one neighbour lane, as a function
of the incentives and of the flags the two preliminary steps leave. -/
theorem ImplDoCalcLane_of_neighbour (w : World Pose Vel) (ego_pose : Pose) (ego_velocity : Vel)
    (traffic_poses : List Pose) (ego_accel_command : ℚ) (idm_params : IdmPlannerParameters)
    (mobil_params : MobilPlannerParameters) (st : ManeuverState)
    (hidm : w.IdmIsValid idm_params = true) (hmobil : w.MobilIsValid mobil_params = true)
    (hn : w.to_left (w.CalcRoadPosition ego_pose).lane ≠ none ∨
      w.to_right (w.CalcRoadPosition ego_pose).lane ≠ none) :
    ImplDoCalcLane w ego_pose ego_velocity traffic_poses ego_accel_command idm_params
        mobil_params st =
      (decide_lane w (w.CalcRoadPosition ego_pose)
          (w.to_left (w.CalcRoadPosition ego_pose).lane,
            w.to_right (w.CalcRoadPosition ego_pose).lane)
          (sideIncentive w idm_params mobil_params ego_pose ego_velocity traffic_poses
              ego_accel_command (w.to_left (w.CalcRoadPosition ego_pose).lane),
            sideIncentive w idm_params mobil_params ego_pose ego_velocity traffic_poses
              ego_accel_command (w.to_right (w.CalcRoadPosition ego_pose).lane))
          mobil_params ego_pose traffic_poses
          (findCar w (w.CalcRoadPosition ego_pose) traffic_poses
            (markOvertake w (w.CalcRoadPosition ego_pose) st))).map
        (fun r => ({ lane := r.1, with_s := w.with_s }, r.2)) := by
  unfold ImplDoCalcLane
  simp only [hidm, hmobil, Bool.true_eq_false, if_false, if_pos hn, ComputeIncentives_eq]
  cases decide_lane w (w.CalcRoadPosition ego_pose)
      (w.to_left (w.CalcRoadPosition ego_pose).lane,
        w.to_right (w.CalcRoadPosition ego_pose).lane)
      (sideIncentive w idm_params mobil_params ego_pose ego_velocity traffic_poses
          ego_accel_command (w.to_left (w.CalcRoadPosition ego_pose).lane),
        sideIncentive w idm_params mobil_params ego_pose ego_velocity traffic_poses
          ego_accel_command (w.to_right (w.CalcRoadPosition ego_pose).lane))
      mobil_params ego_pose traffic_poses
      (findCar w (w.CalcRoadPosition ego_pose) traffic_poses
        (markOvertake w (w.CalcRoadPosition ego_pose) st)) <;> rfl

/-- Scenario B on the example road: the ego of lane 0, braking at 5 behind the
slow vehicle, with a free lane on its left, selects lane 1 and records the move
with `old_ego_lane` lane 0. -/
theorem demo_scenario_B :
    ImplDoCalcLane demoWorld demoEgo 20 [demoSlow] (-5) demoIdm demoMobil ManeuverState.idle =
      some ({ lane := some 1, with_s := true },
        { overtake_to_left := false, overtake_to_right := true, overtake := false,
          old_ego_lane := some 0, car_id := -1 }) := by
  rw [ImplDoCalcLane_of_neighbour demoWorld demoEgo 20 [demoSlow] (-5) demoIdm demoMobil
    ManeuverState.idle (by simp [demoWorld, demoIdm]) (by simp [demoWorld, demoMobil])
    (Or.inl (by decide)),
    markOvertake_of_old_none demoWorld _ _ rfl, findCar_of_no_direction demoWorld _ _ _ rfl rfl,
    decide_lane_idle]
  norm_num [sideIncentive, idmAccel, net_distance, demoWorld, demoClosestPair, demoLeading,
    demoTrailing, demoEvaluate, demoIdm, demoMobil, demoEgo, demoSlow, demoLeft, demoRight,
    RoadOdometry.ofPosition, kDefaultLargeAccel]

/-- A tick with valid parameters on a lane without neighbours selects the
ego's lane and returns the flags it was given. -/
theorem ImplDoCalcLane_of_no_neighbour (w : World Pose Vel) (ego_pose : Pose)
    (ego_velocity : Vel) (traffic_poses : List Pose) (ego_accel_command : ℚ)
    (idm_params : IdmPlannerParameters) (mobil_params : MobilPlannerParameters)
    (st : ManeuverState)
    (hidm : w.IdmIsValid idm_params = true) (hmobil : w.MobilIsValid mobil_params = true)
    (hl : w.to_left (w.CalcRoadPosition ego_pose).lane = none)
    (hr : w.to_right (w.CalcRoadPosition ego_pose).lane = none) :
    ImplDoCalcLane w ego_pose ego_velocity traffic_poses ego_accel_command idm_params
        mobil_params st =
      some ({ lane := some (w.CalcRoadPosition ego_pose).lane, with_s := w.with_s }, st) := by
  unfold ImplDoCalcLane
  simp [hidm, hmobil, hl, hr]

/-- Ticks that each select the ego's lane and return the flags `st` they were
given: the run selects the ego's lane at every tick and the flags are `st`
after every tick. -/
theorem runTicks_of_stationary (w : World Pose Vel) (st : ManeuverState)
    (ts : List (Tick Pose Vel))
    (h : ∀ t ∈ ts, tick w t st =
      some ({ lane := some (w.CalcRoadPosition t.ego_pose).lane, with_s := w.with_s }, st)) :
    runTicks w st ts =
      some (ts.map fun t =>
        ({ lane := some (w.CalcRoadPosition t.ego_pose).lane, with_s := w.with_s }, st)) := by
  induction ts with
  | nil => rfl
  | cons t ts ih =>
    have ht := h t (List.mem_cons_self t ts)
    have ih1 := ih (fun u hu => h u (List.mem_cons_of_mem t hu))
    simp only [runTicks, ht, ih1, List.map_cons]

/-- A tick from the idle flags whose two incentives are at most the threshold
selects the ego's lane and leaves the flags idle. -/
theorem tick_idle_of_low_incentives (w : World Pose Vel) (t : Tick Pose Vel)
    (hidm : w.IdmIsValid t.idm_params = true) (hmobil : w.MobilIsValid t.mobil_params = true)
    (hlow : ∀ L R : ℚ,
      ComputeIncentives w
          (w.to_left (w.CalcRoadPosition t.ego_pose).lane,
            w.to_right (w.CalcRoadPosition t.ego_pose).lane)
          t.idm_params t.mobil_params t.ego_pose t.ego_velocity t.traffic_poses
          t.ego_accel_command = some (L, R) →
        L ≤ t.mobil_params.threshold ∧ R ≤ t.mobil_params.threshold) :
    tick w t ManeuverState.idle =
      some ({ lane := some (w.CalcRoadPosition t.ego_pose).lane, with_s := w.with_s },
        ManeuverState.idle) := by
  unfold tick
  by_cases hn : w.to_left (w.CalcRoadPosition t.ego_pose).lane ≠ none ∨
      w.to_right (w.CalcRoadPosition t.ego_pose).lane ≠ none
  · obtain ⟨hL, hR⟩ := hlow _ _ (ComputeIncentives_eq w _ t.idm_params t.mobil_params
      t.ego_pose t.ego_velocity t.traffic_poses t.ego_accel_command)
    rw [ImplDoCalcLane_of_neighbour w _ _ _ _ _ _ _ hidm hmobil hn,
      markOvertake_of_old_none w _ _ rfl, findCar_of_no_direction w _ _ _ rfl rfl,
      decide_lane_idle, if_neg (fun h => absurd hL (not_le.mpr h.2)),
      if_neg (not_lt.mpr hR)]
    rfl
  · rw [not_or, not_ne_iff, not_ne_iff] at hn
    exact ImplDoCalcLane_of_no_neighbour w _ _ _ _ _ _ _ hidm hmobil hn.1 hn.2

/-! ## Runs from the idle flags -/

/-- C2 (P3, idempotence of Idle): in a run from the idle flags in which every
tick has valid parameters and both incentives at most the threshold, every tick
selects the ego's current lane and the flags (the three booleans,
`old_ego_lane`, `car_id`) are idle after every tick. -/
theorem idle_idempotent (w : World Pose Vel) (ts : List (Tick Pose Vel))
    (h : ∀ t ∈ ts,
      w.IdmIsValid t.idm_params = true ∧ w.MobilIsValid t.mobil_params = true ∧
      ∀ L R : ℚ,
        ComputeIncentives w
            (w.to_left (w.CalcRoadPosition t.ego_pose).lane,
              w.to_right (w.CalcRoadPosition t.ego_pose).lane)
            t.idm_params t.mobil_params t.ego_pose t.ego_velocity t.traffic_poses
            t.ego_accel_command = some (L, R) →
          L ≤ t.mobil_params.threshold ∧ R ≤ t.mobil_params.threshold) :
    runTicks w ManeuverState.idle ts =
      some (ts.map fun t =>
        ({ lane := some (w.CalcRoadPosition t.ego_pose).lane, with_s := w.with_s },
          ManeuverState.idle)) :=
  runTicks_of_stationary w ManeuverState.idle ts
    (fun t ht => tick_idle_of_low_incentives w t (h t ht).1 (h t ht).2.1 (h t ht).2.2)

/-- The incentives of `demoQuietTick` are below the threshold. -/
theorem demoQuietTick_low (L R : ℚ)
    (h : ComputeIncentives demoWorld
        (demoWorld.to_left (demoWorld.CalcRoadPosition demoQuietTick.ego_pose).lane,
          demoWorld.to_right (demoWorld.CalcRoadPosition demoQuietTick.ego_pose).lane)
        demoQuietTick.idm_params demoQuietTick.mobil_params demoQuietTick.ego_pose
        demoQuietTick.ego_velocity demoQuietTick.traffic_poses
        demoQuietTick.ego_accel_command = some (L, R)) :
    L ≤ demoQuietTick.mobil_params.threshold ∧ R ≤ demoQuietTick.mobil_params.threshold := by
  rw [ComputeIncentives_eq] at h
  obtain ⟨h1, h2⟩ := Prod.mk.inj (Option.some.inj h)
  rw [← h1, ← h2]
  norm_num [sideIncentive, idmAccel, net_distance, demoWorld, demoClosestPair, demoLeading,
    demoTrailing, demoEvaluate, demoIdm, demoMobil, demoEgo, demoSlow, demoLeft, demoRight,
    demoQuietTick, RoadOdometry.ofPosition, kDefaultLargeAccel]

/-- C2 on the example road: three ticks of the ego braking behind the slow
vehicle keep lane 0 and the idle flags. -/
theorem idle_idempotent_witness :
    (∀ t ∈ [demoQuietTick, demoQuietTick, demoQuietTick],
      demoWorld.IdmIsValid t.idm_params = true ∧ demoWorld.MobilIsValid t.mobil_params = true ∧
      ∀ L R : ℚ,
        ComputeIncentives demoWorld
            (demoWorld.to_left (demoWorld.CalcRoadPosition t.ego_pose).lane,
              demoWorld.to_right (demoWorld.CalcRoadPosition t.ego_pose).lane)
            t.idm_params t.mobil_params t.ego_pose t.ego_velocity t.traffic_poses
            t.ego_accel_command = some (L, R) →
          L ≤ t.mobil_params.threshold ∧ R ≤ t.mobil_params.threshold) ∧
    runTicks demoWorld ManeuverState.idle [demoQuietTick, demoQuietTick, demoQuietTick] =
      some ([demoQuietTick, demoQuietTick, demoQuietTick].map fun t =>
        ({ lane := some (demoWorld.CalcRoadPosition t.ego_pose).lane,
           with_s := demoWorld.with_s }, ManeuverState.idle)) := by
  have h : ∀ t ∈ [demoQuietTick, demoQuietTick, demoQuietTick],
      demoWorld.IdmIsValid t.idm_params = true ∧ demoWorld.MobilIsValid t.mobil_params = true ∧
      ∀ L R : ℚ,
        ComputeIncentives demoWorld
            (demoWorld.to_left (demoWorld.CalcRoadPosition t.ego_pose).lane,
              demoWorld.to_right (demoWorld.CalcRoadPosition t.ego_pose).lane)
            t.idm_params t.mobil_params t.ego_pose t.ego_velocity t.traffic_poses
            t.ego_accel_command = some (L, R) →
          L ≤ t.mobil_params.threshold ∧ R ≤ t.mobil_params.threshold := by
    intro t ht
    have ht1 : t = demoQuietTick := by simpa using ht
    subst ht1
    exact ⟨by simp [demoWorld, demoIdm, demoQuietTick],
      by simp [demoWorld, demoMobil, demoQuietTick], demoQuietTick_low⟩
  exact ⟨h, idle_idempotent demoWorld [demoQuietTick, demoQuietTick, demoQuietTick] h⟩

/-- C3 (single-lane road): a tick with valid parameters at which the ego's lane
has neither a left nor a right neighbour selects the ego's lane and returns the
flags unchanged; so on a road where no lane has a neighbour, every run from the
idle flags selects the ego's lane at every tick and the flags are idle after
every tick. -/
theorem single_lane_keeps_lane (w : World Pose Vel) :
    (∀ (ego_pose : Pose) (ego_velocity : Vel) (traffic_poses : List Pose)
        (ego_accel_command : ℚ) (idm_params : IdmPlannerParameters)
        (mobil_params : MobilPlannerParameters) (st : ManeuverState),
        w.IdmIsValid idm_params = true → w.MobilIsValid mobil_params = true →
        w.to_left (w.CalcRoadPosition ego_pose).lane = none →
        w.to_right (w.CalcRoadPosition ego_pose).lane = none →
        ImplDoCalcLane w ego_pose ego_velocity traffic_poses ego_accel_command idm_params
            mobil_params st =
          some ({ lane := some (w.CalcRoadPosition ego_pose).lane, with_s := w.with_s }, st)) ∧
    ((∀ l : Lane, w.to_left l = none ∧ w.to_right l = none) →
      ∀ ts : List (Tick Pose Vel),
        (∀ t ∈ ts, w.IdmIsValid t.idm_params = true ∧ w.MobilIsValid t.mobil_params = true) →
        runTicks w ManeuverState.idle ts =
          some (ts.map fun t =>
            ({ lane := some (w.CalcRoadPosition t.ego_pose).lane, with_s := w.with_s },
              ManeuverState.idle))) := by
  refine ⟨?_, ?_⟩
  · intro ego_pose ego_velocity traffic_poses ego_accel_command idm_params mobil_params st
      hidm hmobil hl hr
    exact ImplDoCalcLane_of_no_neighbour w _ _ _ _ _ _ _ hidm hmobil hl hr
  · intro hroad ts hvalid
    exact runTicks_of_stationary w ManeuverState.idle ts (fun t ht =>
      ImplDoCalcLane_of_no_neighbour w _ _ _ _ _ _ _ (hvalid t ht).1 (hvalid t ht).2
        (hroad _).1 (hroad _).2)

/-- C3 on the examples: a tick in lane 2 of the example road from the flags of a
maneuver under way, and two ticks on the road without neighbour relations. -/
theorem single_lane_keeps_lane_witness :
    (demoWorld.IdmIsValid demoIdm = true ∧ demoWorld.MobilIsValid demoMobil = true ∧
      demoWorld.to_left (demoWorld.CalcRoadPosition demoSingleTick.ego_pose).lane = none ∧
      demoWorld.to_right (demoWorld.CalcRoadPosition demoSingleTick.ego_pose).lane = none ∧
      ImplDoCalcLane demoWorld demoSingleTick.ego_pose 20 [demoSlow] (-5) demoIdm demoMobil
          demoPassing =
        some ({ lane := some (demoWorld.CalcRoadPosition demoSingleTick.ego_pose).lane,
                with_s := demoWorld.with_s }, demoPassing)) ∧
    ((∀ l : Lane, singleLaneWorld.to_left l = none ∧ singleLaneWorld.to_right l = none) ∧
      (∀ t ∈ [demoSingleTick, demoQuietTick],
        singleLaneWorld.IdmIsValid t.idm_params = true ∧
          singleLaneWorld.MobilIsValid t.mobil_params = true) ∧
      runTicks singleLaneWorld ManeuverState.idle [demoSingleTick, demoQuietTick] =
        some ([demoSingleTick, demoQuietTick].map fun t =>
          ({ lane := some (singleLaneWorld.CalcRoadPosition t.ego_pose).lane,
             with_s := singleLaneWorld.with_s }, ManeuverState.idle))) := by
  have h1 : demoWorld.IdmIsValid demoIdm = true := by simp [demoWorld, demoIdm]
  have h2 : demoWorld.MobilIsValid demoMobil = true := by simp [demoWorld, demoMobil]
  have h3 : ∀ l : Lane, singleLaneWorld.to_left l = none ∧ singleLaneWorld.to_right l = none :=
    fun _ => ⟨rfl, rfl⟩
  have h4 : ∀ t ∈ [demoSingleTick, demoQuietTick],
      singleLaneWorld.IdmIsValid t.idm_params = true ∧
        singleLaneWorld.MobilIsValid t.mobil_params = true := by
    intro t ht
    simp only [List.mem_cons, List.mem_singleton, List.not_mem_nil, or_false] at ht
    rcases ht with rfl | rfl
    · exact ⟨h1, h2⟩
    · exact ⟨h1, h2⟩
  exact ⟨⟨h1, h2, rfl, rfl,
      (single_lane_keeps_lane demoWorld).1 demoSingleTick.ego_pose 20 [demoSlow] (-5) demoIdm
        demoMobil demoPassing h1 h2 rfl rfl⟩,
    ⟨h3, h4, (single_lane_keeps_lane singleLaneWorld).2 h3 [demoSingleTick, demoQuietTick] h4⟩⟩

/-! ## The tracked target -/

/-- The step of lines 207-212 does not write `car_id`. -/
theorem markOvertake_car_id (w : World Pose Vel) (ego_position : RoadPosition)
    (st : ManeuverState) : (markOvertake w ego_position st).car_id = st.car_id := by
  unfold markOvertake
  split
  · split_ifs <;> rfl
  · rfl

/-- The search of lines 214-242 does not run once `car_id` is set. -/
theorem findCar_of_car_id_set (w : World Pose Vel) (ego_position : RoadPosition)
    (traffic_poses : List Pose) (st : ManeuverState) (h : st.car_id ≠ -1) :
    findCar w ego_position traffic_poses st = st := by
  unfold findCar
  rw [if_neg (fun hc => h hc.2)]

/-- The decision of lines 244-305 either keeps `car_id` or resets all the
flags. -/
theorem decide_lane_car_id (w : World Pose Vel) (ego_position : RoadPosition)
    (lanes : Option Lane × Option Lane) (incentives : ℚ × ℚ)
    (mobil_params : MobilPlannerParameters) (ego_pose : Pose) (traffic_poses : List Pose)
    (st st1 : ManeuverState) (lane : Option Lane)
    (h : decide_lane w ego_position lanes incentives mobil_params ego_pose traffic_poses st =
      some (lane, st1)) :
    st1.car_id = st.car_id ∨ st1 = ManeuverState.idle := by
  unfold decide_lane at h
  dsimp only at h
  repeat' split at h
  all_goals
    cases h <;> first
      | exact Or.inl rfl
      | exact Or.inr rfl

/-- C10: in a tick that starts with `car_id = k`, `k ≠ -1`, the flag `car_id` is
`k` or `-1` after the tick, and it is `-1` only when the tick has reset all the
flags to idle (the three booleans false, `old_ego_lane` null). -/
theorem target_fixed_for_maneuver (w : World Pose Vel) (ego_pose : Pose) (ego_velocity : Vel)
    (traffic_poses : List Pose) (ego_accel_command : ℚ) (idm_params : IdmPlannerParameters)
    (mobil_params : MobilPlannerParameters) (st st1 : ManeuverState) (out : LaneDirection)
    (hk : st.car_id ≠ -1)
    (h : ImplDoCalcLane w ego_pose ego_velocity traffic_poses ego_accel_command idm_params
      mobil_params st = some (out, st1)) :
    (st1.car_id = st.car_id ∨ st1.car_id = -1) ∧
      (st1.car_id = -1 → st1 = ManeuverState.idle) := by
  have hidm : w.IdmIsValid idm_params = true := by
    by_contra hc
    simp [ImplDoCalcLane, hc] at h
  have hmobil : w.MobilIsValid mobil_params = true := by
    by_contra hc
    simp [ImplDoCalcLane, hc] at h
  have key : st1.car_id = st.car_id ∨ st1 = ManeuverState.idle := by
    by_cases hn : w.to_left (w.CalcRoadPosition ego_pose).lane ≠ none ∨
        w.to_right (w.CalcRoadPosition ego_pose).lane ≠ none
    · rw [ImplDoCalcLane_of_neighbour w _ _ _ _ _ _ _ hidm hmobil hn,
        findCar_of_car_id_set w _ _ _ (by rw [markOvertake_car_id]; exact hk)] at h
      obtain ⟨⟨lane, st3⟩, hd, he⟩ := Option.map_eq_some'.mp h
      obtain ⟨-, rfl⟩ := Prod.mk.inj he
      rcases decide_lane_car_id w _ _ _ _ _ _ _ _ _ hd with hc | hc
      · exact Or.inl (by rw [hc, markOvertake_car_id])
      · exact Or.inr hc
    · rw [not_or, not_ne_iff, not_ne_iff] at hn
      rw [ImplDoCalcLane_of_no_neighbour w _ _ _ _ _ _ _ hidm hmobil hn.1 hn.2] at h
      obtain ⟨-, rfl⟩ := Prod.mk.inj (Option.some.inj h)
      exact Or.inl rfl
  rcases key with hc | hc
  · exact ⟨Or.inl hc, fun h1 => absurd (hc ▸ h1) hk⟩
  · exact ⟨Or.inr (by rw [hc]; rfl), fun _ => hc⟩

/-- The ego in the left lane, past the target: the tick selects the right
neighbour, lane 0, and keeps the flags. -/
theorem demo_tick_past_target :
    ImplDoCalcLane demoWorld demoEgoPast 20 [demoSlow] (-5) demoIdm demoMobil demoPassing =
      some ({ lane := some 0, with_s := true }, demoPassing) := by
  rw [ImplDoCalcLane_of_neighbour demoWorld demoEgoPast 20 [demoSlow] (-5) demoIdm demoMobil
    demoPassing (by simp [demoWorld, demoIdm]) (by simp [demoWorld, demoMobil])
    (Or.inr (by decide))]
  norm_num [decide_lane, findCar, markOvertake, overtake_condition, get_pose, demoPassing,
    demoWorld, demoEgoPast, demoSlow, demoLaneId, demoLeft, demoRight]
  intro h
  exact absurd h (by decide)

/-- The ego back in lane 0, past the target: the tick resets the flags. -/
theorem demo_tick_back_in_origin :
    ImplDoCalcLane demoWorld demoEgoBack 20 [demoSlow] (-5) demoIdm demoMobil demoPassing =
      some ({ lane := none, with_s := true }, ManeuverState.idle) := by
  rw [ImplDoCalcLane_of_neighbour demoWorld demoEgoBack 20 [demoSlow] (-5) demoIdm demoMobil
    demoPassing (by simp [demoWorld, demoIdm]) (by simp [demoWorld, demoMobil])
    (Or.inl (by decide))]
  norm_num [decide_lane, findCar, markOvertake, overtake_condition, get_pose, demoPassing,
    demoWorld, demoEgoBack, demoSlow, demoLaneId, demoLeft, demoRight, reset_overtake_flags,
    ManeuverState.idle]

/-- C10 on the example road: from the flags of a pass of vehicle 0, the tick in
the passing lane keeps `car_id = 0`, and the tick back in lane 0 sets it to -1
together with the reset of all the flags. -/
theorem target_fixed_for_maneuver_witness :
    (demoPassing.car_id ≠ -1 ∧
      ImplDoCalcLane demoWorld demoEgoPast 20 [demoSlow] (-5) demoIdm demoMobil demoPassing =
        some ({ lane := some 0, with_s := true }, demoPassing) ∧
      (demoPassing.car_id = demoPassing.car_id ∨ demoPassing.car_id = -1) ∧
      (demoPassing.car_id = -1 → demoPassing = ManeuverState.idle)) ∧
    (demoPassing.car_id ≠ -1 ∧
      ImplDoCalcLane demoWorld demoEgoBack 20 [demoSlow] (-5) demoIdm demoMobil demoPassing =
        some ({ lane := none, with_s := true }, ManeuverState.idle) ∧
      (ManeuverState.idle.car_id = demoPassing.car_id ∨ ManeuverState.idle.car_id = -1) ∧
      (ManeuverState.idle.car_id = -1 → ManeuverState.idle = ManeuverState.idle)) :=
  ⟨⟨by decide, demo_tick_past_target,
      target_fixed_for_maneuver demoWorld demoEgoPast 20 [demoSlow] (-5) demoIdm demoMobil
        demoPassing demoPassing _ (by decide) demo_tick_past_target⟩,
    ⟨by decide, demo_tick_back_in_origin,
      target_fixed_for_maneuver demoWorld demoEgoBack 20 [demoSlow] (-5) demoIdm demoMobil
        demoPassing ManeuverState.idle _ (by decide) demo_tick_back_in_origin⟩⟩

/-! ## The tick in a passing state -/

/-- The step of lines 207-212 changes nothing once `overtake` is true. -/
theorem markOvertake_of_overtake (w : World Pose Vel) (ego_position : RoadPosition)
    (st : ManeuverState) (h : st.overtake = true) : markOvertake w ego_position st = st := by
  obtain ⟨otl, otr, ov, old, cid⟩ := st
  simp only at h
  subst h
  unfold markOvertake
  split
  · split_ifs <;> rfl
  · rfl

/-- An index `get_pose` accepts is not -1. -/
theorem ne_neg_one_of_get_pose {traffic_poses : List Pose} {k : Int} {target : Pose}
    (h : get_pose traffic_poses k = some target) : k ≠ -1 := by
  intro hk
  subst hk
  simp [get_pose] at h

/-- The value of `overtake_condition` when `car_id` is an index of the
snapshot. -/
theorem overtake_condition_of_target (w : World Pose Vel) (ego_pose : Pose)
    (traffic_poses : List Pose) (st : ManeuverState) (target : Pose)
    (h : get_pose traffic_poses st.car_id = some target) :
    overtake_condition w ego_pose traffic_poses st =
      some (decide ((w.CalcRoadPosition ego_pose).s > (w.CalcRoadPosition target).s)) := by
  unfold overtake_condition
  rw [h]
  by_cases hs : (w.CalcRoadPosition ego_pose).s > (w.CalcRoadPosition target).s
  · simp [hs]
  · simp [hs]

/-- The decision in a passing state while the ego is not past the target: the
ego's lane, flags unchanged. -/
theorem decide_lane_hold (w : World Pose Vel) (ego_position : RoadPosition)
    (lanes : Option Lane × Option Lane) (incentives : ℚ × ℚ)
    (mobil_params : MobilPlannerParameters) (ego_pose : Pose) (traffic_poses : List Pose)
    (st : ManeuverState) (target : Pose) (hov : st.overtake = true)
    (htarget : get_pose traffic_poses st.car_id = some target)
    (hs : ¬ (w.CalcRoadPosition ego_pose).s > (w.CalcRoadPosition target).s) :
    decide_lane w ego_position lanes incentives mobil_params ego_pose traffic_poses st =
      some (some ego_position.lane, st) := by
  have hk := ne_neg_one_of_get_pose htarget
  unfold decide_lane
  simp only [hov, Bool.true_eq_false, if_false, ne_eq, hk, not_false_eq_true, if_true,
    overtake_condition_of_target w ego_pose traffic_poses st target htarget, hs, decide_False]
  split_ifs <;> rfl

/-- The decision in a passing state once the ego is past the target: the lane
on the side of the direction flag, and the flags reset when the ego's lane has
the id of `old_ego_lane`. -/
theorem decide_lane_return (w : World Pose Vel) (ego_position : RoadPosition)
    (lanes : Option Lane × Option Lane) (incentives : ℚ × ℚ)
    (mobil_params : MobilPlannerParameters) (ego_pose : Pose) (traffic_poses : List Pose)
    (st : ManeuverState) (target : Pose) (origin : Lane) (hov : st.overtake = true)
    (htarget : get_pose traffic_poses st.car_id = some target)
    (hold : st.old_ego_lane = some origin)
    (hs : (w.CalcRoadPosition ego_pose).s > (w.CalcRoadPosition target).s) :
    decide_lane w ego_position lanes incentives mobil_params ego_pose traffic_poses st =
      some (if st.overtake_to_right = true then lanes.2 else lanes.1,
        if w.laneId origin = w.laneId ego_position.lane then reset_overtake_flags st else st) := by
  have hk := ne_neg_one_of_get_pose htarget
  unfold decide_lane
  simp only [hov, Bool.true_eq_false, if_false, ne_eq, hk, not_false_eq_true, if_true,
    overtake_condition_of_target w ego_pose traffic_poses st target htarget, hs, decide_True,
    hold]
  split_ifs <;> rfl

/-- The tick in a passing state while the ego is not past the target, in terms
of the steps of the tick. -/
theorem ImplDoCalcLane_of_hold (w : World Pose Vel) (ego_pose : Pose) (ego_velocity : Vel)
    (traffic_poses : List Pose) (ego_accel_command : ℚ) (idm_params : IdmPlannerParameters)
    (mobil_params : MobilPlannerParameters) (st : ManeuverState) (target : Pose)
    (hidm : w.IdmIsValid idm_params = true) (hmobil : w.MobilIsValid mobil_params = true)
    (hn : w.to_left (w.CalcRoadPosition ego_pose).lane ≠ none ∨
      w.to_right (w.CalcRoadPosition ego_pose).lane ≠ none)
    (hov : st.overtake = true)
    (htarget : get_pose traffic_poses st.car_id = some target)
    (hs : ¬ (w.CalcRoadPosition ego_pose).s > (w.CalcRoadPosition target).s) :
    ImplDoCalcLane w ego_pose ego_velocity traffic_poses ego_accel_command idm_params
        mobil_params st =
      some ({ lane := some (w.CalcRoadPosition ego_pose).lane, with_s := w.with_s }, st) := by
  rw [ImplDoCalcLane_of_neighbour w _ _ _ _ _ _ _ hidm hmobil hn,
    markOvertake_of_overtake w _ _ hov,
    findCar_of_car_id_set w _ _ _ (ne_neg_one_of_get_pose htarget),
    decide_lane_hold w _ _ _ _ _ _ _ target hov htarget hs]
  rfl

/-- C13: a tick with valid parameters and at least one neighbour lane that starts
with `overtake` true and `car_id` an index of the snapshot, at which the ego's
`s` is not greater than the `s` of that vehicle, selects the ego's current lane
and returns the flags unchanged (whatever the direction flags are, so in
particular when exactly one is set). -/
theorem hold_while_not_past (w : World Pose Vel) (ego_pose : Pose) (ego_velocity : Vel)
    (traffic_poses : List Pose) (ego_accel_command : ℚ) (idm_params : IdmPlannerParameters)
    (mobil_params : MobilPlannerParameters) (st : ManeuverState) (target : Pose)
    (hidm : w.IdmIsValid idm_params = true) (hmobil : w.MobilIsValid mobil_params = true)
    (hn : w.to_left (w.CalcRoadPosition ego_pose).lane ≠ none ∨
      w.to_right (w.CalcRoadPosition ego_pose).lane ≠ none)
    (hov : st.overtake = true)
    (htarget : get_pose traffic_poses st.car_id = some target)
    (hs : ¬ (w.CalcRoadPosition ego_pose).s > (w.CalcRoadPosition target).s) :
    ImplDoCalcLane w ego_pose ego_velocity traffic_poses ego_accel_command idm_params
        mobil_params st =
      some ({ lane := some (w.CalcRoadPosition ego_pose).lane, with_s := w.with_s }, st) := by
  have hk := ne_neg_one_of_get_pose htarget
  rw [ImplDoCalcLane_of_neighbour w _ _ _ _ _ _ _ hidm hmobil hn,
    markOvertake_of_overtake w _ _ hov, findCar_of_car_id_set w _ _ _ hk]
  have hd := decide_lane_hold w (w.CalcRoadPosition ego_pose)
    (w.to_left (w.CalcRoadPosition ego_pose).lane, w.to_right (w.CalcRoadPosition ego_pose).lane)
    (sideIncentive w idm_params mobil_params ego_pose ego_velocity traffic_poses
        ego_accel_command (w.to_left (w.CalcRoadPosition ego_pose).lane),
      sideIncentive w idm_params mobil_params ego_pose ego_velocity traffic_poses
        ego_accel_command (w.to_right (w.CalcRoadPosition ego_pose).lane))
    mobil_params ego_pose traffic_poses st target hov htarget hs
  rw [hd]
  rfl

/-- C13 on the example road: the ego in the left lane at `s = 41`, the target in
lane 0 at `s = 50`. -/
theorem hold_while_not_past_witness :
    demoWorld.IdmIsValid demoIdm = true ∧ demoWorld.MobilIsValid demoMobil = true ∧
    (demoWorld.to_left (demoWorld.CalcRoadPosition demoEgoMoved).lane ≠ none ∨
      demoWorld.to_right (demoWorld.CalcRoadPosition demoEgoMoved).lane ≠ none) ∧
    demoPassing.overtake = true ∧
    get_pose [demoSlow] demoPassing.car_id = some demoSlow ∧
    ¬ (demoWorld.CalcRoadPosition demoEgoMoved).s > (demoWorld.CalcRoadPosition demoSlow).s ∧
    ImplDoCalcLane demoWorld demoEgoMoved 20 [demoSlow] (-5) demoIdm demoMobil demoPassing =
      some ({ lane := some (demoWorld.CalcRoadPosition demoEgoMoved).lane,
              with_s := demoWorld.with_s }, demoPassing) :=
  ⟨by simp [demoWorld, demoIdm], by simp [demoWorld, demoMobil], Or.inr (by decide), rfl, rfl,
    by norm_num [demoWorld, demoEgoMoved, demoSlow],
    hold_while_not_past demoWorld demoEgoMoved 20 [demoSlow] (-5) demoIdm demoMobil demoPassing
      demoSlow (by simp [demoWorld, demoIdm]) (by simp [demoWorld, demoMobil])
      (Or.inr (by decide)) rfl rfl (by norm_num [demoWorld, demoEgoMoved, demoSlow])⟩

/-- C15: a tick with valid parameters that starts with `overtake` true, `car_id`
an index of the snapshot and `old_ego_lane = origin`.  If the ego is resolved to
a lane with the id of `origin`, that lane has a neighbour and the ego's `s`
exceeds the target's, the flags after the tick are exactly idle.  If the ego is
resolved to a lane whose id differs from that of `origin`, the tick returns the
flags unchanged. -/
theorem return_completion_resets (w : World Pose Vel) (ego_pose : Pose) (ego_velocity : Vel)
    (traffic_poses : List Pose) (ego_accel_command : ℚ) (idm_params : IdmPlannerParameters)
    (mobil_params : MobilPlannerParameters) (st : ManeuverState) (target : Pose)
    (origin : Lane)
    (hidm : w.IdmIsValid idm_params = true) (hmobil : w.MobilIsValid mobil_params = true)
    (hov : st.overtake = true)
    (htarget : get_pose traffic_poses st.car_id = some target)
    (hold : st.old_ego_lane = some origin) :
    (w.laneId (w.CalcRoadPosition ego_pose).lane = w.laneId origin →
      (w.to_left (w.CalcRoadPosition ego_pose).lane ≠ none ∨
        w.to_right (w.CalcRoadPosition ego_pose).lane ≠ none) →
      (w.CalcRoadPosition ego_pose).s > (w.CalcRoadPosition target).s →
      ∃ out, ImplDoCalcLane w ego_pose ego_velocity traffic_poses ego_accel_command idm_params
        mobil_params st = some (out, ManeuverState.idle)) ∧
    (w.laneId (w.CalcRoadPosition ego_pose).lane ≠ w.laneId origin →
      ∃ out, ImplDoCalcLane w ego_pose ego_velocity traffic_poses ego_accel_command idm_params
        mobil_params st = some (out, st)) := by
  have hk := ne_neg_one_of_get_pose htarget
  refine ⟨?_, ?_⟩
  · intro hlane hn hs
    refine ⟨{ lane := if st.overtake_to_right = true then
        w.to_right (w.CalcRoadPosition ego_pose).lane
        else w.to_left (w.CalcRoadPosition ego_pose).lane, with_s := w.with_s }, ?_⟩
    rw [ImplDoCalcLane_of_neighbour w _ _ _ _ _ _ _ hidm hmobil hn,
      markOvertake_of_overtake w _ _ hov, findCar_of_car_id_set w _ _ _ hk,
      decide_lane_return w _ _ _ _ _ _ _ target origin hov htarget hold hs]
    have hreset : (if w.laneId origin = w.laneId (w.CalcRoadPosition ego_pose).lane then
        reset_overtake_flags st else st) = ManeuverState.idle := by
      rw [if_pos hlane.symm]; rfl
    rw [hreset]
    split_ifs <;> rfl
  · intro hlane
    by_cases hn : w.to_left (w.CalcRoadPosition ego_pose).lane ≠ none ∨
        w.to_right (w.CalcRoadPosition ego_pose).lane ≠ none
    · by_cases hs : (w.CalcRoadPosition ego_pose).s > (w.CalcRoadPosition target).s
      · refine ⟨{ lane := if st.overtake_to_right = true then
            w.to_right (w.CalcRoadPosition ego_pose).lane
            else w.to_left (w.CalcRoadPosition ego_pose).lane, with_s := w.with_s }, ?_⟩
        rw [ImplDoCalcLane_of_neighbour w _ _ _ _ _ _ _ hidm hmobil hn,
          markOvertake_of_overtake w _ _ hov, findCar_of_car_id_set w _ _ _ hk,
          decide_lane_return w _ _ _ _ _ _ _ target origin hov htarget hold hs]
        have hkeep : (if w.laneId origin = w.laneId (w.CalcRoadPosition ego_pose).lane then
            reset_overtake_flags st else st) = st := if_neg (fun h => hlane h.symm)
        rw [hkeep]
        split_ifs <;> rfl
      · exact ⟨_, ImplDoCalcLane_of_hold w _ _ _ _ _ _ st target hidm hmobil hn hov htarget hs⟩
    · rw [not_or, not_ne_iff, not_ne_iff] at hn
      exact ⟨_, ImplDoCalcLane_of_no_neighbour w _ _ _ _ _ _ _ hidm hmobil hn.1 hn.2⟩

/-- C15 on the example road, from the flags of a pass of vehicle 0 out of lane 0:
the ego back in lane 0 past the target (reset), and the ego in the left lane
past the target (flags unchanged). -/
theorem return_completion_resets_witness :
    (demoWorld.IdmIsValid demoIdm = true ∧ demoWorld.MobilIsValid demoMobil = true ∧
      demoPassing.overtake = true ∧ get_pose [demoSlow] demoPassing.car_id = some demoSlow ∧
      demoPassing.old_ego_lane = some 0) ∧
    (demoWorld.laneId (demoWorld.CalcRoadPosition demoEgoBack).lane = demoWorld.laneId 0 ∧
      (demoWorld.to_left (demoWorld.CalcRoadPosition demoEgoBack).lane ≠ none ∨
        demoWorld.to_right (demoWorld.CalcRoadPosition demoEgoBack).lane ≠ none) ∧
      (demoWorld.CalcRoadPosition demoEgoBack).s > (demoWorld.CalcRoadPosition demoSlow).s ∧
      ∃ out, ImplDoCalcLane demoWorld demoEgoBack 20 [demoSlow] (-5) demoIdm demoMobil
        demoPassing = some (out, ManeuverState.idle)) ∧
    (demoWorld.laneId (demoWorld.CalcRoadPosition demoEgoPast).lane ≠ demoWorld.laneId 0 ∧
      ∃ out, ImplDoCalcLane demoWorld demoEgoPast 20 [demoSlow] (-5) demoIdm demoMobil
        demoPassing = some (out, demoPassing)) :=
  ⟨⟨by simp [demoWorld, demoIdm], by simp [demoWorld, demoMobil], rfl, rfl, rfl⟩,
    ⟨rfl, Or.inl (by decide), by norm_num [demoWorld, demoEgoBack, demoSlow],
      (return_completion_resets demoWorld demoEgoBack 20 [demoSlow] (-5) demoIdm demoMobil
        demoPassing demoSlow 0 (by simp [demoWorld, demoIdm]) (by simp [demoWorld, demoMobil])
        rfl rfl rfl).1 rfl (Or.inl (by decide))
        (by norm_num [demoWorld, demoEgoBack, demoSlow])⟩,
    ⟨by decide,
      (return_completion_resets demoWorld demoEgoPast 20 [demoSlow] (-5) demoIdm demoMobil
        demoPassing demoSlow 0 (by simp [demoWorld, demoIdm]) (by simp [demoWorld, demoMobil])
        rfl rfl rfl).2 (by decide)⟩⟩

/-! ## A target that left the snapshot -/

/-- The call `get_pose(k)` fails when the snapshot has `k` or fewer poses. -/
theorem get_pose_of_length_le (traffic_poses : List Pose) (k : Int)
    (h : (traffic_poses.length : Int) ≤ k) : get_pose traffic_poses k = none := by
  unfold get_pose
  split_ifs with h0
  · exact List.get?_eq_none.mpr (by omega)
  · rfl

/-- The decision in a passing state whose `car_id` is not an index of the
snapshot: the pose lookup of `overtake_condition` fails. -/
theorem decide_lane_vanished (w : World Pose Vel) (ego_position : RoadPosition)
    (lanes : Option Lane × Option Lane) (incentives : ℚ × ℚ)
    (mobil_params : MobilPlannerParameters) (ego_pose : Pose) (traffic_poses : List Pose)
    (st : ManeuverState) (hov : st.overtake = true)
    (hlen : (traffic_poses.length : Int) ≤ st.car_id) :
    decide_lane w ego_position lanes incentives mobil_params ego_pose traffic_poses st =
      none := by
  have hk : st.car_id ≠ -1 := by
    intro h
    rw [h] at hlen
    omega
  have hc : overtake_condition w ego_pose traffic_poses st = none := by
    unfold overtake_condition
    rw [get_pose_of_length_le traffic_poses st.car_id hlen]
    rfl
  unfold decide_lane
  simp only [hov, Bool.true_eq_false, if_false, ne_eq, hk, not_false_eq_true, if_true, hc]
  split_ifs <;> rfl

/-- C16 as the code has it: a tick with valid parameters that starts with
`overtake` true and `car_id = k` while the snapshot has `k` or fewer poses aborts
in the pose lookup of `overtake_condition` when the ego's lane has a neighbour;
only on a lane without neighbours does it select the ego's lane and return the
flags unchanged. -/
theorem vanished_target_aborts (w : World Pose Vel) (ego_pose : Pose) (ego_velocity : Vel)
    (traffic_poses : List Pose) (ego_accel_command : ℚ) (idm_params : IdmPlannerParameters)
    (mobil_params : MobilPlannerParameters) (st : ManeuverState)
    (hidm : w.IdmIsValid idm_params = true) (hmobil : w.MobilIsValid mobil_params = true)
    (hov : st.overtake = true)
    (hlen : (traffic_poses.length : Int) ≤ st.car_id) :
    ((w.to_left (w.CalcRoadPosition ego_pose).lane ≠ none ∨
        w.to_right (w.CalcRoadPosition ego_pose).lane ≠ none) →
      ImplDoCalcLane w ego_pose ego_velocity traffic_poses ego_accel_command idm_params
        mobil_params st = none) ∧
    (w.to_left (w.CalcRoadPosition ego_pose).lane = none →
      w.to_right (w.CalcRoadPosition ego_pose).lane = none →
      ImplDoCalcLane w ego_pose ego_velocity traffic_poses ego_accel_command idm_params
          mobil_params st =
        some ({ lane := some (w.CalcRoadPosition ego_pose).lane, with_s := w.with_s }, st)) := by
  have hk : st.car_id ≠ -1 := by
    intro h
    rw [h] at hlen
    omega
  refine ⟨?_, ?_⟩
  · intro hn
    rw [ImplDoCalcLane_of_neighbour w _ _ _ _ _ _ _ hidm hmobil hn,
      markOvertake_of_overtake w _ _ hov, findCar_of_car_id_set w _ _ _ hk,
      decide_lane_vanished w _ _ _ _ _ _ _ hov hlen]
    rfl
  · intro hl hr
    exact ImplDoCalcLane_of_no_neighbour w _ _ _ _ _ _ _ hidm hmobil hl hr

/-- C16 as the code has it, on the example road: with the target gone from the
snapshot, the tick of the ego in the left lane aborts, and the tick of an ego in
lane 2, which has no neighbour, keeps lane 2 and the flags. -/
theorem vanished_target_aborts_witness :
    demoWorld.IdmIsValid demoIdm = true ∧ demoWorld.MobilIsValid demoMobil = true ∧
    demoPassing.overtake = true ∧
    (([] : List Car).length : Int) ≤ demoPassing.car_id ∧
    ((demoWorld.to_left (demoWorld.CalcRoadPosition demoEgoPast).lane ≠ none ∨
        demoWorld.to_right (demoWorld.CalcRoadPosition demoEgoPast).lane ≠ none) ∧
      ImplDoCalcLane demoWorld demoEgoPast 20 [] (-5) demoIdm demoMobil demoPassing = none) ∧
    (demoWorld.to_left (demoWorld.CalcRoadPosition demoSingleTick.ego_pose).lane = none ∧
      demoWorld.to_right (demoWorld.CalcRoadPosition demoSingleTick.ego_pose).lane = none ∧
      ImplDoCalcLane demoWorld demoSingleTick.ego_pose 20 [] (-5) demoIdm demoMobil
          demoPassing =
        some ({ lane := some (demoWorld.CalcRoadPosition demoSingleTick.ego_pose).lane,
                with_s := demoWorld.with_s }, demoPassing)) :=
  ⟨by simp [demoWorld, demoIdm], by simp [demoWorld, demoMobil], rfl, by decide,
    ⟨Or.inr (by decide),
      (vanished_target_aborts demoWorld demoEgoPast 20 [] (-5) demoIdm demoMobil demoPassing
        (by simp [demoWorld, demoIdm]) (by simp [demoWorld, demoMobil]) rfl (by decide)).1
        (Or.inr (by decide))⟩,
    ⟨rfl, rfl,
      (vanished_target_aborts demoWorld demoSingleTick.ego_pose 20 [] (-5) demoIdm demoMobil
        demoPassing (by simp [demoWorld, demoIdm]) (by simp [demoWorld, demoMobil]) rfl
        (by decide)).2 rfl rfl⟩⟩

/-- The tick of the ego in the left lane with the target gone from the snapshot
aborts. -/
theorem demo_tick_vanished :
    ImplDoCalcLane demoWorld demoEgoPast 20 [] (-5) demoIdm demoMobil demoPassing = none := by
  rw [ImplDoCalcLane_of_neighbour demoWorld demoEgoPast 20 [] (-5) demoIdm demoMobil
    demoPassing (by simp [demoWorld, demoIdm]) (by simp [demoWorld, demoMobil])
    (Or.inr (by decide)),
    markOvertake_of_overtake demoWorld _ _ rfl,
    findCar_of_car_id_set demoWorld _ _ _ (by decide),
    decide_lane_vanished demoWorld _ _ _ _ _ _ _ rfl (by decide)]
  rfl

/-- C16 as stated fails: the passing state `demoPassing` tracks vehicle 0, the
snapshot is empty, the parameters are valid, and the tick of the ego in the left
lane does not return the ego's lane with the flags unchanged (it aborts). -/
theorem vanished_target_counterexample :
    ¬ ∀ (w : World Car ℚ) (ego_pose : Car) (ego_velocity : ℚ) (traffic_poses : List Car)
        (ego_accel_command : ℚ) (idm_params : IdmPlannerParameters)
        (mobil_params : MobilPlannerParameters) (st : ManeuverState),
        w.IdmIsValid idm_params = true → w.MobilIsValid mobil_params = true →
        st.overtake = true →
        (st.overtake_to_left = true ∨ st.overtake_to_right = true) →
        (traffic_poses.length : Int) ≤ st.car_id →
        ImplDoCalcLane w ego_pose ego_velocity traffic_poses ego_accel_command idm_params
            mobil_params st =
          some ({ lane := some (w.CalcRoadPosition ego_pose).lane, with_s := w.with_s }, st) := by
  intro h
  have h1 := h demoWorld demoEgoPast 20 [] (-5) demoIdm demoMobil demoPassing
    (by simp [demoWorld, demoIdm]) (by simp [demoWorld, demoMobil]) rfl (Or.inr rfl)
    (by decide)
  rw [demo_tick_vanished] at h1
  cases h1

/-! ## The way back to the origin lane -/

/-- A tick of the example road with valid parameters whose ego lane has a
neighbour, as a function of the flags. -/
theorem demoTickAt_eq (ego : Car) (st : ManeuverState)
    (hn : demoLeft ego.lane ≠ none ∨ demoRight ego.lane ≠ none) :
    tick demoWorld (demoTickAt ego) st =
      (decide_lane demoWorld (demoWorld.CalcRoadPosition ego)
          (demoLeft ego.lane, demoRight ego.lane)
          (sideIncentive demoWorld demoIdm demoMobil ego 20 [demoSlow] (-5) (demoLeft ego.lane),
            sideIncentive demoWorld demoIdm demoMobil ego 20 [demoSlow] (-5)
              (demoRight ego.lane))
          demoMobil ego [demoSlow]
          (findCar demoWorld (demoWorld.CalcRoadPosition ego) [demoSlow]
            (markOvertake demoWorld (demoWorld.CalcRoadPosition ego) st))).map
        (fun r => ({ lane := r.1, with_s := true }, r.2)) :=
  ImplDoCalcLane_of_neighbour demoWorld ego 20 [demoSlow] (-5) demoIdm demoMobil st
    (by simp [demoWorld, demoIdm]) (by simp [demoWorld, demoMobil]) hn

/-- Second tick of the overtake: the ego still in lane 0; the search finds
vehicle 0 and the decision selects the left lane again. -/
theorem demo_run_tick2 :
    tick demoWorld (demoTickAt { lane := 0, s := 41, v := 20 }) demoOutbound =
      some ({ lane := some 1, with_s := true }, demoOutboundTarget) := by
  rw [demoTickAt_eq _ _ (Or.inl (by decide))]
  norm_num [decide_lane, findCar, scanLoop, markOvertake, demoOutbound, demoOutboundTarget,
    sideIncentive, idmAccel, net_distance, demoWorld, demoClosestPair, demoLeading,
    demoTrailing, demoEvaluate, demoIdm, demoMobil, demoSlow, demoLeft, demoRight,
    demoLaneId, RoadOdometry.ofPosition, kDefaultLargeAccel]

/-- Third tick of the overtake: the ego in the left lane behind the target;
`overtake` becomes true and the ego holds its lane. -/
theorem demo_run_tick3 :
    tick demoWorld (demoTickAt { lane := 1, s := 45, v := 20 }) demoOutboundTarget =
      some ({ lane := some 1, with_s := true }, demoPassing) := by
  rw [demoTickAt_eq _ _ (Or.inr (by decide))]
  norm_num [decide_lane, findCar, markOvertake, overtake_condition, get_pose,
    demoOutboundTarget, demoPassing, demoWorld, demoSlow, demoLeft, demoRight, demoLaneId]
  decide

/-- Fifth tick of the overtake: the ego back in lane 0, past the target; the
tick selects the right neighbour of lane 0, which does not exist, and resets
the flags. -/
theorem demo_run_tick5 :
    tick demoWorld (demoTickAt { lane := 0, s := 61, v := 20 }) demoPassing =
      some ({ lane := none, with_s := true }, ManeuverState.idle) := by
  rw [demoTickAt_eq _ _ (Or.inl (by decide))]
  norm_num [decide_lane, findCar, markOvertake, overtake_condition, get_pose, demoPassing,
    demoWorld, demoSlow, demoLeft, demoRight, demoLaneId, reset_overtake_flags,
    ManeuverState.idle]

/-- The example road is a road on which the right neighbour of a lane's left
neighbour is that lane, and the left neighbour of its right neighbour too. -/
theorem demoWorld_neighbours_inverse :
    (∀ l r : Lane, demoWorld.to_left l = some r → demoWorld.to_right r = some l) ∧
    (∀ l r : Lane, demoWorld.to_right l = some r → demoWorld.to_left r = some l) := by
  refine ⟨?_, ?_⟩
  · intro l r h
    rcases l with _ | l
    · obtain rfl : 1 = r := Option.some.inj h
      rfl
    · simp [demoWorld, demoLeft] at h
  · intro l r h
    rcases l with _ | _ | l
    · simp [demoWorld, demoRight] at h
    · obtain rfl : 0 = r := Option.some.inj h
      rfl
    · simp [demoWorld, demoRight] at h

/-- The overtake of the slow vehicle on the example road, from the idle flags,
tick by tick. -/
theorem demo_overtake_run :
    runTicks demoWorld ManeuverState.idle demoOvertakeRun =
      some [({ lane := some 1, with_s := true }, demoOutbound),
        ({ lane := some 1, with_s := true }, demoOutboundTarget),
        ({ lane := some 1, with_s := true }, demoPassing),
        ({ lane := some 0, with_s := true }, demoPassing),
        ({ lane := none, with_s := true }, ManeuverState.idle)] := by
  have h1 : tick demoWorld (demoTickAt demoEgo) ManeuverState.idle =
      some ({ lane := some 1, with_s := true }, demoOutbound) := demo_scenario_B
  have h4 : tick demoWorld (demoTickAt demoEgoPast) demoPassing =
      some ({ lane := some 0, with_s := true }, demoPassing) := demo_tick_past_target
  simp only [demoOvertakeRun, runTicks, h1, demo_run_tick2, demo_run_tick3, h4,
    demo_run_tick5]

/-- C14 fails on the code at the tick that completes the return.  On the example
road, where the neighbour relations are inverse to each other, the overtake of
the slow vehicle runs from the idle flags as follows: the move to the left out
of lane 0 is decided (twice, the second tick finding vehicle 0 as the target),
the ego holds the left lane, then past the target the tick selects lane 0, the
origin; on the last tick the ego is back in lane 0, past the target, and the
lane selected is the null right neighbour of lane 0, not lane 0, while the
flags are reset. -/
theorem return_tick_in_origin_selects_beyond :
    ((∀ l r : Lane, demoWorld.to_left l = some r → demoWorld.to_right r = some l) ∧
      (∀ l r : Lane, demoWorld.to_right l = some r → demoWorld.to_left r = some l)) ∧
    runTicks demoWorld ManeuverState.idle demoOvertakeRun =
      some [({ lane := some 1, with_s := true }, demoOutbound),
        ({ lane := some 1, with_s := true }, demoOutboundTarget),
        ({ lane := some 1, with_s := true }, demoPassing),
        ({ lane := some 0, with_s := true }, demoPassing),
        ({ lane := none, with_s := true }, ManeuverState.idle)] ∧
    demoPassing.old_ego_lane = some 0 ∧
    demoWorld.to_right 0 = none :=
  ⟨demoWorld_neighbours_inverse, demo_overtake_run, rfl, rfl⟩

/-- The part of C14 the code does: in a passing state recorded by
`overtake_to_right` (a move to the left), with the ego past the target in a lane
whose right neighbour is `origin` and whose id differs from that of `origin`,
the tick selects `origin` and keeps the flags. -/
theorem return_from_passing_lane (w : World Pose Vel) (ego_pose : Pose) (ego_velocity : Vel)
    (traffic_poses : List Pose) (ego_accel_command : ℚ) (idm_params : IdmPlannerParameters)
    (mobil_params : MobilPlannerParameters) (st : ManeuverState) (target : Pose)
    (origin : Lane)
    (hidm : w.IdmIsValid idm_params = true) (hmobil : w.MobilIsValid mobil_params = true)
    (hov : st.overtake = true) (hdir : st.overtake_to_right = true)
    (htarget : get_pose traffic_poses st.car_id = some target)
    (hold : st.old_ego_lane = some origin)
    (hback : w.to_right (w.CalcRoadPosition ego_pose).lane = some origin)
    (hlane : w.laneId (w.CalcRoadPosition ego_pose).lane ≠ w.laneId origin)
    (hs : (w.CalcRoadPosition ego_pose).s > (w.CalcRoadPosition target).s) :
    ImplDoCalcLane w ego_pose ego_velocity traffic_poses ego_accel_command idm_params
        mobil_params st =
      some ({ lane := some origin, with_s := w.with_s }, st) := by
  have hn : w.to_left (w.CalcRoadPosition ego_pose).lane ≠ none ∨
      w.to_right (w.CalcRoadPosition ego_pose).lane ≠ none := Or.inr (by rw [hback]; simp)
  rw [ImplDoCalcLane_of_neighbour w _ _ _ _ _ _ _ hidm hmobil hn,
    markOvertake_of_overtake w _ _ hov,
    findCar_of_car_id_set w _ _ _ (ne_neg_one_of_get_pose htarget),
    decide_lane_return w _ _ _ _ _ _ _ target origin hov htarget hold hs]
  have hkeep : (if w.laneId origin = w.laneId (w.CalcRoadPosition ego_pose).lane then
      reset_overtake_flags st else st) = st := if_neg (fun h => hlane h.symm)
  rw [hkeep, if_pos hdir, hback]
  rfl

/-! ## Both direction flags -/

/-- First tick on the three-lane road from the idle flags: the move to the left
is decided. -/
theorem threeLane_tick1 :
    tick threeLaneWorld threeLaneTick1 ManeuverState.idle =
      some ({ lane := some 2, with_s := true },
        { overtake_to_left := false, overtake_to_right := true, overtake := false,
          old_ego_lane := some 1, car_id := -1 }) := by
  unfold tick
  rw [ImplDoCalcLane_of_neighbour threeLaneWorld _ _ _ _ _ _ _
    (by simp [threeLaneWorld, demoWorld, threeLaneTick1, demoIdm])
    (by simp [threeLaneWorld, demoWorld, threeLaneTick1, demoMobil]) (Or.inl (by decide)),
    markOvertake_of_old_none threeLaneWorld _ _ rfl,
    findCar_of_no_direction threeLaneWorld _ _ _ rfl rfl, decide_lane_idle]
  norm_num [sideIncentive, idmAccel, net_distance, threeLaneWorld, demoWorld, demoClosestPair,
    demoLeading, demoTrailing, demoEvaluate, demoIdm, demoMobil, threeLaneTick1, threeLeft,
    threeRight, RoadOdometry.ofPosition, kDefaultLargeAccel]

/-- Second tick on the three-lane road, the ego still in the middle lane: the
search finds vehicle 0 and the decision, taken again, goes to the right. -/
theorem threeLane_tick2 :
    tick threeLaneWorld threeLaneTick2
        { overtake_to_left := false, overtake_to_right := true, overtake := false,
          old_ego_lane := some 1, car_id := -1 } =
      some ({ lane := some 0, with_s := true },
        { overtake_to_left := true, overtake_to_right := true, overtake := false,
          old_ego_lane := some 1, car_id := 0 }) := by
  unfold tick
  rw [ImplDoCalcLane_of_neighbour threeLaneWorld _ _ _ _ _ _ _
    (by simp [threeLaneWorld, demoWorld, threeLaneTick2, demoIdm])
    (by simp [threeLaneWorld, demoWorld, threeLaneTick2, demoMobil]) (Or.inl (by decide))]
  norm_num [decide_lane, findCar, scanLoop, markOvertake, sideIncentive, idmAccel,
    net_distance, threeLaneWorld, demoWorld, demoClosestPair, demoLeading, demoTrailing,
    demoEvaluate, demoIdm, demoMobil, threeLaneTick2, threeLeft, threeRight, threeLaneId,
    RoadOdometry.ofPosition, kDefaultLargeAccel]
  decide

/-- C11 fails on the code.  On a road of three lanes, from the idle flags: the
first tick of the ego in the middle lane decides a move to the left and sets
`overtake_to_right`; on the second tick the ego is still in the middle lane, the
left lane is now blocked and the right lane free, the decision is taken again
and sets `overtake_to_left`: both direction flags are true. -/
theorem both_direction_flags_reachable :
    runTicks threeLaneWorld ManeuverState.idle [threeLaneTick1, threeLaneTick2] =
      some [({ lane := some 2, with_s := true },
          { overtake_to_left := false, overtake_to_right := true, overtake := false,
            old_ego_lane := some 1, car_id := -1 }),
        ({ lane := some 0, with_s := true },
          { overtake_to_left := true, overtake_to_right := true, overtake := false,
            old_ego_lane := some 1, car_id := 0 })] := by
  simp only [runTicks, threeLane_tick1, threeLane_tick2]

/-! ## The search for the target -/

/-- One step of the loop of lines 222-240 on a pose that passes the test. -/
theorem scanLoop_cons_of_match (w : World Pose Vel) (ego_position : RoadPosition) (i : Nat)
    (pose : Pose) (rest : List Pose) (car_id : Int) (h : scanMatch w ego_position pose) :
    scanLoop w ego_position i (pose :: rest) car_id =
      scanLoop w ego_position (i + 1) rest (i : Int) := by
  simp only [scanLoop]
  rw [if_neg (not_not.mpr h.1)]
  exact if_pos h

/-- One step of the loop of lines 222-240 on a pose that fails the test. -/
theorem scanLoop_cons_of_not_match (w : World Pose Vel) (ego_position : RoadPosition) (i : Nat)
    (pose : Pose) (rest : List Pose) (car_id : Int) (h : ¬ scanMatch w ego_position pose) :
    scanLoop w ego_position i (pose :: rest) car_id =
      scanLoop w ego_position (i + 1) rest car_id := by
  simp only [scanLoop]
  split_ifs with h1 h2
  · rfl
  · exact absurd h2 h
  · rfl

/-- The loop of lines 222-240 returns the incoming `car_id` when no pose passes
the test, and otherwise the index of the last pose that passes it. -/
theorem scanLoop_last_match (w : World Pose Vel) (ego_position : RoadPosition)
    (poses : List Pose) :
    ∀ (i : Nat) (car_id : Int),
      (scanLoop w ego_position i poses car_id = car_id ∧
        ∀ p ∈ poses, ¬ scanMatch w ego_position p) ∨
      (∃ j : Nat, scanLoop w ego_position i poses car_id = ((i + j : Nat) : Int) ∧
        (∃ p, poses.get? j = some p ∧ scanMatch w ego_position p) ∧
        ∀ (k : Nat) (q : Pose), j < k → poses.get? k = some q →
          ¬ scanMatch w ego_position q) := by
  induction poses with
  | nil =>
    intro i car_id
    exact Or.inl ⟨rfl, fun p hp => absurd hp (List.not_mem_nil p)⟩
  | cons pose rest ih =>
    intro i car_id
    by_cases hm : scanMatch w ego_position pose
    · rw [scanLoop_cons_of_match w ego_position i pose rest car_id hm]
      rcases ih (i + 1) (i : Int) with ⟨heq, hnone⟩ | ⟨j, heq, ⟨p, hp, hpm⟩, hlast⟩
      · refine Or.inr ⟨0, by rw [heq]; rfl, ⟨pose, rfl, hm⟩, ?_⟩
        intro k q hk hq
        obtain ⟨k, rfl⟩ : ∃ k1, k = k1 + 1 := ⟨k - 1, by omega⟩
        exact hnone q (List.get?_mem hq)
      · refine Or.inr ⟨j + 1, by rw [heq]; congr 1; omega, ⟨p, hp, hpm⟩, ?_⟩
        intro k q hk hq
        obtain ⟨k, rfl⟩ : ∃ k1, k = k1 + 1 := ⟨k - 1, by omega⟩
        exact hlast k q (by omega) hq
    · rw [scanLoop_cons_of_not_match w ego_position i pose rest car_id hm]
      rcases ih (i + 1) car_id with ⟨heq, hnone⟩ | ⟨j, heq, ⟨p, hp, hpm⟩, hlast⟩
      · refine Or.inl ⟨heq, ?_⟩
        intro p hp
        rcases List.mem_cons.mp hp with rfl | hp
        · exact hm
        · exact hnone p hp
      · refine Or.inr ⟨j + 1, by rw [heq]; congr 1; omega, ⟨p, hp, hpm⟩, ?_⟩
        intro k q hk hq
        obtain ⟨k, rfl⟩ : ∃ k1, k = k1 + 1 := ⟨k - 1, by omega⟩
        exact hlast k q (by omega) hq

/-- The step of lines 207-212 writes `overtake` only. -/
theorem markOvertake_fields (w : World Pose Vel) (ego_position : RoadPosition)
    (st : ManeuverState) :
    (markOvertake w ego_position st).overtake_to_left = st.overtake_to_left ∧
    (markOvertake w ego_position st).overtake_to_right = st.overtake_to_right ∧
    (markOvertake w ego_position st).old_ego_lane = st.old_ego_lane ∧
    (markOvertake w ego_position st).car_id = st.car_id := by
  unfold markOvertake
  split
  · split_ifs <;> exact ⟨rfl, rfl, rfl, rfl⟩
  · exact ⟨rfl, rfl, rfl, rfl⟩

/-- The search of lines 214-242 writes `car_id` only. -/
theorem findCar_fields (w : World Pose Vel) (ego_position : RoadPosition)
    (traffic_poses : List Pose) (st : ManeuverState) :
    (findCar w ego_position traffic_poses st).overtake_to_left = st.overtake_to_left ∧
    (findCar w ego_position traffic_poses st).overtake_to_right = st.overtake_to_right ∧
    (findCar w ego_position traffic_poses st).overtake = st.overtake ∧
    (findCar w ego_position traffic_poses st).old_ego_lane = st.old_ego_lane := by
  unfold findCar
  split_ifs <;> exact ⟨rfl, rfl, rfl, rfl⟩

/-- The search of lines 214-242 on a tick that starts with a direction flag set
and `car_id = -1`: `car_id` becomes the value of the loop run from -1. -/
theorem findCar_of_direction (w : World Pose Vel) (ego_position : RoadPosition)
    (traffic_poses : List Pose) (st : ManeuverState)
    (h : (st.overtake_to_left = true ∨ st.overtake_to_right = true) ∧ st.car_id = -1) :
    findCar w ego_position traffic_poses (markOvertake w ego_position st) =
      { markOvertake w ego_position st with
        car_id := scanLoop w ego_position 0 traffic_poses (-1) } := by
  obtain ⟨hl, hr, -, hc⟩ := markOvertake_fields w ego_position st
  unfold findCar
  rw [if_pos (by rw [hl, hr, hc]; exact h), hc, h.2]

/-- C19: on a tick that starts with a direction flag set and `car_id = -1`, the
flag `car_id` after the search of lines 214-242 is the largest index of the
snapshot whose vehicle is resolved to a lane with the id of the ego's lane (the
lane the search scans) and has an `s` different from the ego's, whatever its
distance and side; it stays -1 when no vehicle qualifies.  On a tick that starts
with no direction flag set or with `car_id ≠ -1` the search does not run: the
flags after it are the flags before it. -/
theorem scan_keeps_last_match (w : World Pose Vel) (ego_pose : Pose)
    (traffic_poses : List Pose) (st : ManeuverState) :
    ((st.overtake_to_left = true ∨ st.overtake_to_right = true) ∧ st.car_id = -1 →
      ((findCar w (w.CalcRoadPosition ego_pose) traffic_poses
            (markOvertake w (w.CalcRoadPosition ego_pose) st)).car_id = -1 ∧
          ∀ p ∈ traffic_poses, ¬ scanMatch w (w.CalcRoadPosition ego_pose) p) ∨
      (∃ i : Nat,
        (findCar w (w.CalcRoadPosition ego_pose) traffic_poses
            (markOvertake w (w.CalcRoadPosition ego_pose) st)).car_id = (i : Int) ∧
        (∃ p, traffic_poses.get? i = some p ∧ scanMatch w (w.CalcRoadPosition ego_pose) p) ∧
        ∀ (k : Nat) (q : Pose), i < k → traffic_poses.get? k = some q →
          ¬ scanMatch w (w.CalcRoadPosition ego_pose) q)) ∧
    (¬ ((st.overtake_to_left = true ∨ st.overtake_to_right = true) ∧ st.car_id = -1) →
      findCar w (w.CalcRoadPosition ego_pose) traffic_poses
          (markOvertake w (w.CalcRoadPosition ego_pose) st) =
        markOvertake w (w.CalcRoadPosition ego_pose) st) := by
  obtain ⟨hl, hr, -, hc⟩ := markOvertake_fields w (w.CalcRoadPosition ego_pose) st
  refine ⟨?_, ?_⟩
  · intro h
    rw [findCar_of_direction w _ traffic_poses st h]
    rcases scanLoop_last_match w (w.CalcRoadPosition ego_pose) traffic_poses 0 (-1) with
      ⟨heq, hnone⟩ | ⟨j, heq, hj, hlast⟩
    · exact Or.inl ⟨heq, hnone⟩
    · exact Or.inr ⟨j, by simpa using heq, hj, hlast⟩
  · intro h
    unfold findCar
    rw [if_neg (by rw [hl, hr, hc]; exact h)]

/-- The search on the example road: with the slow vehicle ahead at `s = 50` and
a vehicle behind at `s = 39`, both in the ego's lane, and a vehicle in the left
lane, the search returns index 1, the vehicle behind. -/
theorem demo_scan_last :
    (findCar demoWorld (demoWorld.CalcRoadPosition demoEgo)
        [demoSlow, demoTailgaterRight, demoLeftAhead]
        (markOvertake demoWorld (demoWorld.CalcRoadPosition demoEgo) demoOutbound)).car_id =
      1 := by
  norm_num [findCar, scanLoop, markOvertake, demoOutbound, demoWorld, demoEgo, demoSlow,
    demoTailgaterRight, demoLeftAhead, demoLaneId]
  decide

/-- C19 on the example road: the search from the flags of a decided move, and
the idle flags, from which the search does not run. -/
theorem scan_keeps_last_match_witness :
    ((demoOutbound.overtake_to_left = true ∨ demoOutbound.overtake_to_right = true) ∧
      demoOutbound.car_id = -1) ∧
    (((findCar demoWorld (demoWorld.CalcRoadPosition demoEgo)
            [demoSlow, demoTailgaterRight, demoLeftAhead]
            (markOvertake demoWorld (demoWorld.CalcRoadPosition demoEgo) demoOutbound)).car_id =
          -1 ∧
        ∀ p ∈ [demoSlow, demoTailgaterRight, demoLeftAhead],
          ¬ scanMatch demoWorld (demoWorld.CalcRoadPosition demoEgo) p) ∨
      (∃ i : Nat,
        (findCar demoWorld (demoWorld.CalcRoadPosition demoEgo)
            [demoSlow, demoTailgaterRight, demoLeftAhead]
            (markOvertake demoWorld (demoWorld.CalcRoadPosition demoEgo) demoOutbound)).car_id =
          (i : Int) ∧
        (∃ p, [demoSlow, demoTailgaterRight, demoLeftAhead].get? i = some p ∧
          scanMatch demoWorld (demoWorld.CalcRoadPosition demoEgo) p) ∧
        ∀ (k : Nat) (q : Car), i < k →
          [demoSlow, demoTailgaterRight, demoLeftAhead].get? k = some q →
          ¬ scanMatch demoWorld (demoWorld.CalcRoadPosition demoEgo) q)) ∧
    ¬ ((ManeuverState.idle.overtake_to_left = true ∨
        ManeuverState.idle.overtake_to_right = true) ∧ ManeuverState.idle.car_id = -1) ∧
    findCar demoWorld (demoWorld.CalcRoadPosition demoEgo)
        [demoSlow, demoTailgaterRight, demoLeftAhead]
        (markOvertake demoWorld (demoWorld.CalcRoadPosition demoEgo) ManeuverState.idle) =
      markOvertake demoWorld (demoWorld.CalcRoadPosition demoEgo) ManeuverState.idle :=
  ⟨⟨Or.inr rfl, rfl⟩,
    (scan_keeps_last_match demoWorld demoEgo [demoSlow, demoTailgaterRight, demoLeftAhead]
      demoOutbound).1 ⟨Or.inr rfl, rfl⟩,
    by decide,
    (scan_keeps_last_match demoWorld demoEgo [demoSlow, demoTailgaterRight, demoLeftAhead]
      ManeuverState.idle).2 (by decide)⟩

/-- The decision of lines 272-305 once `overtake` is true: either the ego's lane
with the flags unchanged, or, `car_id` being set and `old_ego_lane` not null,
the flags reset when the ego's lane has the id of `old_ego_lane` and unchanged
when it has not. -/
theorem decide_lane_of_overtake (w : World Pose Vel) (ego_position : RoadPosition)
    (lanes : Option Lane × Option Lane) (incentives : ℚ × ℚ)
    (mobil_params : MobilPlannerParameters) (ego_pose : Pose) (traffic_poses : List Pose)
    (st st1 : ManeuverState) (lane : Option Lane) (hov : st.overtake = true)
    (h : decide_lane w ego_position lanes incentives mobil_params ego_pose traffic_poses st =
      some (lane, st1)) :
    (lane = some ego_position.lane ∧ st1 = st) ∨
    (st.car_id ≠ -1 ∧ ∃ old, st.old_ego_lane = some old ∧
      ((w.laneId old = w.laneId ego_position.lane ∧ st1 = ManeuverState.idle) ∨
        (w.laneId old ≠ w.laneId ego_position.lane ∧ st1 = st))) := by
  unfold decide_lane at h
  dsimp only at h
  rw [if_neg (by rw [hov]; simp)] at h
  split_ifs at h with hk hdir
  · split at h
    · cases h
    · split at h
      · cases h
      · rename_i old hold
        split_ifs at h with hid
        · cases h
          exact Or.inr ⟨hk, old, hold, Or.inl ⟨hid, rfl⟩⟩
        · cases h
          exact Or.inr ⟨hk, old, hold, Or.inr ⟨hid, rfl⟩⟩
    · cases h
      exact Or.inl ⟨rfl, rfl⟩
  · split at h
    · cases h
    · split at h
      · cases h
      · rename_i old hold
        split_ifs at h with hid
        · cases h
          exact Or.inr ⟨hk, old, hold, Or.inl ⟨hid, rfl⟩⟩
        · cases h
          exact Or.inr ⟨hk, old, hold, Or.inr ⟨hid, rfl⟩⟩
    · cases h
      exact Or.inl ⟨rfl, rfl⟩
  · cases h
    exact Or.inl ⟨rfl, rfl⟩

/-- A tick that returns has valid parameters. -/
theorem valid_of_ImplDoCalcLane (w : World Pose Vel) (ego_pose : Pose) (ego_velocity : Vel)
    (traffic_poses : List Pose) (ego_accel_command : ℚ) (idm_params : IdmPlannerParameters)
    (mobil_params : MobilPlannerParameters) (st st1 : ManeuverState) (out : LaneDirection)
    (h : ImplDoCalcLane w ego_pose ego_velocity traffic_poses ego_accel_command idm_params
      mobil_params st = some (out, st1)) :
    w.IdmIsValid idm_params = true ∧ w.MobilIsValid mobil_params = true := by
  refine ⟨?_, ?_⟩
  · by_contra hc
    simp [ImplDoCalcLane, hc] at h
  · by_contra hc
    simp [ImplDoCalcLane, hc] at h

/-- The step of lines 207-212 sets `overtake` when a direction flag is set and
the ego's lane has an id other than that of `old_ego_lane`. -/
theorem markOvertake_of_moved (w : World Pose Vel) (ego_position : RoadPosition)
    (st : ManeuverState) (origin : Lane) (hold : st.old_ego_lane = some origin)
    (hdir : st.overtake_to_left = true ∨ st.overtake_to_right = true)
    (hlane : w.laneId ego_position.lane ≠ w.laneId origin) :
    (markOvertake w ego_position st).overtake = true := by
  unfold markOvertake
  rw [hold]
  simp only
  rw [if_pos hlane, if_pos hdir.symm]

/-- An index of the snapshot, read through `get_pose`. -/
theorem get_pose_natCast (traffic_poses : List Pose) (i : Nat) :
    get_pose traffic_poses (i : Int) = traffic_poses.get? i := by
  simp [get_pose]

/-- C12 as the code has it: on a tick that starts with a direction flag set,
`old_ego_lane = origin` and `car_id = -1`, at which the ego is resolved to a lane
whose id differs from that of `origin`, a target identified by the tick is a
vehicle of the snapshot resolved to a lane with the id of the ego's current lane
(so not to `origin`) whose `s` differs from the ego's; and when no vehicle of the
snapshot is resolved to the ego's current lane (Scenario C: the only other
vehicle is in `origin`) the tick identifies no target, `car_id` stays -1. -/
theorem target_found_in_ego_lane (w : World Pose Vel) (ego_pose : Pose) (ego_velocity : Vel)
    (traffic_poses : List Pose) (ego_accel_command : ℚ) (idm_params : IdmPlannerParameters)
    (mobil_params : MobilPlannerParameters) (st st1 : ManeuverState) (out : LaneDirection)
    (origin : Lane)
    (hdir : st.overtake_to_left = true ∨ st.overtake_to_right = true)
    (hold : st.old_ego_lane = some origin) (hcar : st.car_id = -1)
    (hlane : w.laneId (w.CalcRoadPosition ego_pose).lane ≠ w.laneId origin)
    (h : ImplDoCalcLane w ego_pose ego_velocity traffic_poses ego_accel_command idm_params
      mobil_params st = some (out, st1)) :
    (st1.car_id ≠ -1 →
      ∃ target, get_pose traffic_poses st1.car_id = some target ∧
        w.laneId (w.CalcRoadPosition target).lane =
          w.laneId (w.CalcRoadPosition ego_pose).lane ∧
        w.laneId (w.CalcRoadPosition target).lane ≠ w.laneId origin ∧
        (w.CalcRoadPosition ego_pose).s ≠ (w.CalcRoadPosition target).s) ∧
    ((∀ p ∈ traffic_poses,
        w.laneId (w.CalcRoadPosition p).lane ≠ w.laneId (w.CalcRoadPosition ego_pose).lane) →
      st1.car_id = -1) := by
  obtain ⟨hidm, hmobil⟩ := valid_of_ImplDoCalcLane w _ _ _ _ _ _ _ _ _ h
  by_cases hn : w.to_left (w.CalcRoadPosition ego_pose).lane ≠ none ∨
      w.to_right (w.CalcRoadPosition ego_pose).lane ≠ none
  · rw [ImplDoCalcLane_of_neighbour w _ _ _ _ _ _ _ hidm hmobil hn,
      findCar_of_direction w _ traffic_poses st ⟨hdir, hcar⟩] at h
    obtain ⟨⟨lane, st3⟩, hd, he⟩ := Option.map_eq_some'.mp h
    obtain ⟨-, rfl⟩ := Prod.mk.inj he
    have hov : ({ markOvertake w (w.CalcRoadPosition ego_pose) st with
        car_id := scanLoop w (w.CalcRoadPosition ego_pose) 0 traffic_poses (-1) } :
        ManeuverState).overtake = true :=
      markOvertake_of_moved w (w.CalcRoadPosition ego_pose) st origin hold hdir hlane
    obtain ⟨-, -, hold1, -⟩ := markOvertake_fields w (w.CalcRoadPosition ego_pose) st
    have hst : st3.car_id =
        scanLoop w (w.CalcRoadPosition ego_pose) 0 traffic_poses (-1) := by
      rcases decide_lane_of_overtake w _ _ _ _ _ _ _ _ _ hov hd with
        ⟨-, h3⟩ | ⟨-, old, hold3, ⟨hid, -⟩ | ⟨-, h3⟩⟩
      · rw [h3]
      · have horigin : old = origin := by
          have h4 : (markOvertake w (w.CalcRoadPosition ego_pose) st).old_ego_lane =
              some old := hold3
          rw [hold1, hold] at h4
          exact (Option.some.inj h4).symm
        rw [horigin] at hid
        exact absurd hid.symm hlane
      · rw [h3]
    rw [hst]
    rcases scanLoop_last_match w (w.CalcRoadPosition ego_pose) traffic_poses 0 (-1) with
      ⟨heq, hnone⟩ | ⟨j, heq, ⟨p, hp, hpm⟩, -⟩
    · exact ⟨fun hne => absurd heq hne, fun _ => heq⟩
    · refine ⟨fun _ => ⟨p, ?_, hpm.1, ?_, hpm.2⟩, fun hall => ?_⟩
      · rw [heq, Nat.zero_add, get_pose_natCast]
        exact hp
      · rw [hpm.1]
        exact hlane
      · exact absurd hpm.1 (hall p (List.get?_mem hp))
  · rw [not_or, not_ne_iff, not_ne_iff] at hn
    rw [ImplDoCalcLane_of_no_neighbour w _ _ _ _ _ _ _ hidm hmobil hn.1 hn.2] at h
    obtain ⟨-, rfl⟩ := Prod.mk.inj (Option.some.inj h)
    exact ⟨fun hne => absurd hcar hne, fun _ => hcar⟩

/-- The ego already in the left lane, a vehicle ahead of it there: the tick finds
vehicle 1, the one in the left lane, and holds the lane. -/
theorem demo_tick_moved_found :
    ImplDoCalcLane demoWorld demoEgoMoved 20 [demoSlow, demoLeftAhead] (-5) demoIdm demoMobil
        demoOutbound =
      some ({ lane := some 1, with_s := true }, demoPassingOne) := by
  rw [ImplDoCalcLane_of_neighbour demoWorld demoEgoMoved 20 [demoSlow, demoLeftAhead] (-5)
    demoIdm demoMobil demoOutbound (by simp [demoWorld, demoIdm])
    (by simp [demoWorld, demoMobil]) (Or.inr (by decide))]
  norm_num [decide_lane, findCar, scanLoop, markOvertake, overtake_condition, get_pose,
    demoOutbound, demoPassingOne, demoWorld, demoEgoMoved, demoSlow, demoLeftAhead, demoLeft,
    demoRight, demoLaneId]
  decide

/-- Scenario C on the example road: the ego already in the left lane, the slow
vehicle of lane 0 the only other vehicle: the tick finds no target. -/
theorem demo_scenario_C :
    ImplDoCalcLane demoWorld demoEgoMoved 20 [demoSlow] (-5) demoIdm demoMobil demoOutbound =
      some ({ lane := some 1, with_s := true }, demoMovedNoTarget) := by
  rw [ImplDoCalcLane_of_neighbour demoWorld demoEgoMoved 20 [demoSlow] (-5)
    demoIdm demoMobil demoOutbound (by simp [demoWorld, demoIdm])
    (by simp [demoWorld, demoMobil]) (Or.inr (by decide))]
  norm_num [decide_lane, findCar, scanLoop, markOvertake, overtake_condition, get_pose,
    demoOutbound, demoMovedNoTarget, demoWorld, demoEgoMoved, demoSlow, demoLeft,
    demoRight, demoLaneId]
  decide

/-- C12 as the code has it, on the example road: the target found from the left
lane is the vehicle of the left lane, and in Scenario C no target is found. -/
theorem target_found_in_ego_lane_witness :
    ((demoOutbound.overtake_to_left = true ∨ demoOutbound.overtake_to_right = true) ∧
      demoOutbound.old_ego_lane = some 0 ∧ demoOutbound.car_id = -1 ∧
      demoWorld.laneId (demoWorld.CalcRoadPosition demoEgoMoved).lane ≠ demoWorld.laneId 0) ∧
    (ImplDoCalcLane demoWorld demoEgoMoved 20 [demoSlow, demoLeftAhead] (-5) demoIdm demoMobil
        demoOutbound = some ({ lane := some 1, with_s := true }, demoPassingOne) ∧
      demoPassingOne.car_id ≠ -1 ∧
      ∃ target, get_pose [demoSlow, demoLeftAhead] demoPassingOne.car_id = some target ∧
        demoWorld.laneId (demoWorld.CalcRoadPosition target).lane =
          demoWorld.laneId (demoWorld.CalcRoadPosition demoEgoMoved).lane ∧
        demoWorld.laneId (demoWorld.CalcRoadPosition target).lane ≠ demoWorld.laneId 0 ∧
        (demoWorld.CalcRoadPosition demoEgoMoved).s ≠ (demoWorld.CalcRoadPosition target).s) ∧
    (ImplDoCalcLane demoWorld demoEgoMoved 20 [demoSlow] (-5) demoIdm demoMobil
        demoOutbound = some ({ lane := some 1, with_s := true }, demoMovedNoTarget) ∧
      (∀ p ∈ [demoSlow],
        demoWorld.laneId (demoWorld.CalcRoadPosition p).lane ≠
          demoWorld.laneId (demoWorld.CalcRoadPosition demoEgoMoved).lane) ∧
      demoMovedNoTarget.car_id = -1) := by
  have hC : ∀ p ∈ [demoSlow],
      demoWorld.laneId (demoWorld.CalcRoadPosition p).lane ≠
        demoWorld.laneId (demoWorld.CalcRoadPosition demoEgoMoved).lane := by
    intro p hp
    rw [List.mem_singleton.mp hp]
    decide
  exact ⟨⟨Or.inr rfl, rfl, rfl, by decide⟩,
    ⟨demo_tick_moved_found, by decide,
      (target_found_in_ego_lane demoWorld demoEgoMoved 20 [demoSlow, demoLeftAhead] (-5)
        demoIdm demoMobil demoOutbound demoPassingOne _ 0 (Or.inr rfl) rfl rfl (by decide)
        demo_tick_moved_found).1 (by decide)⟩,
    ⟨demo_scenario_C, hC,
      (target_found_in_ego_lane demoWorld demoEgoMoved 20 [demoSlow] (-5)
        demoIdm demoMobil demoOutbound demoMovedNoTarget _ 0 (Or.inr rfl) rfl rfl (by decide)
        demo_scenario_C).2 hC⟩⟩

/-- C12 as stated fails.  From the flags of a move to the left out of lane 0 with
no target yet, the tick of the ego already in the left lane identifies vehicle 1,
which is resolved to the left lane and not to lane 0, the origin; and in
Scenario C, the slow vehicle of lane 0 being the only other vehicle, the tick
does not set the target to that vehicle: `car_id` stays -1. -/
theorem target_in_origin_counterexample :
    (¬ ∀ (w : World Car ℚ) (ego_pose : Car) (ego_velocity : ℚ) (traffic_poses : List Car)
        (ego_accel_command : ℚ) (idm_params : IdmPlannerParameters)
        (mobil_params : MobilPlannerParameters) (st st1 : ManeuverState)
        (out : LaneDirection) (origin : Lane),
        (st.overtake_to_left = true ∨ st.overtake_to_right = true) →
        st.old_ego_lane = some origin → st.car_id = -1 →
        w.laneId (w.CalcRoadPosition ego_pose).lane ≠ w.laneId origin →
        ImplDoCalcLane w ego_pose ego_velocity traffic_poses ego_accel_command idm_params
          mobil_params st = some (out, st1) →
        st1.car_id ≠ -1 →
        ∃ target, get_pose traffic_poses st1.car_id = some target ∧
          w.laneId (w.CalcRoadPosition target).lane = w.laneId origin ∧
          (w.CalcRoadPosition ego_pose).s ≠ (w.CalcRoadPosition target).s) ∧
    (∃ out st1,
      ImplDoCalcLane demoWorld demoEgoMoved 20 [demoSlow] (-5) demoIdm demoMobil demoOutbound =
        some (out, st1) ∧ st1.car_id = -1 ∧ st1.car_id ≠ 0) := by
  refine ⟨?_, _, _, demo_scenario_C, rfl, by decide⟩
  intro h
  obtain ⟨target, ht, hl, -⟩ := h demoWorld demoEgoMoved 20 [demoSlow, demoLeftAhead] (-5)
    demoIdm demoMobil demoOutbound demoPassingOne _ 0 (Or.inr rfl) rfl rfl (by decide)
    demo_tick_moved_found (by decide)
  have ht1 : target = demoLeftAhead := by
    have h2 : get_pose [demoSlow, demoLeftAhead] demoPassingOne.car_id = some demoLeftAhead := rfl
    rw [h2] at ht
    exact (Option.some.inj ht).symm
  rw [ht1] at hl
  exact absurd hl (by decide)

/-! ## The ticks between the decision and the target -/

/-- The nested `if` of lines 247-271 while `overtake` is false, written as the
chain `if / else if / else`, from any flags. -/
theorem decide_lane_of_not_overtake (w : World Pose Vel) (ego_position : RoadPosition)
    (lanes : Option Lane × Option Lane) (L R : ℚ) (mobil_params : MobilPlannerParameters)
    (ego_pose : Pose) (traffic_poses : List Pose) (st : ManeuverState)
    (hov : st.overtake = false) :
    decide_lane w ego_position lanes (L, R) mobil_params ego_pose traffic_poses st =
      some
        (if L ≥ R ∧ L > mobil_params.threshold then
          (lanes.1,
            { st with overtake_to_right := true, old_ego_lane := some ego_position.lane })
        else if R > mobil_params.threshold then
          (lanes.2,
            { st with overtake_to_left := true, old_ego_lane := some ego_position.lane })
        else (some ego_position.lane, st)) := by
  by_cases h1 : L ≥ R
  · by_cases h2 : L > mobil_params.threshold
    · simp [decide_lane, hov, h1, h2]
    · have h3 : ¬ R > mobil_params.threshold := fun h => h2 (lt_of_lt_of_le h h1)
      simp [decide_lane, hov, h1, h2, h3]
  · by_cases h3 : R > mobil_params.threshold
    · simp [decide_lane, hov, h1, h3]
    · simp [decide_lane, hov, h1, h3]

/-- The decision of lines 272-305 with `overtake` true and no target: the ego's
lane, flags unchanged. -/
theorem decide_lane_no_target (w : World Pose Vel) (ego_position : RoadPosition)
    (lanes : Option Lane × Option Lane) (incentives : ℚ × ℚ)
    (mobil_params : MobilPlannerParameters) (ego_pose : Pose) (traffic_poses : List Pose)
    (st : ManeuverState) (hov : st.overtake = true) (hcar : st.car_id = -1) :
    decide_lane w ego_position lanes incentives mobil_params ego_pose traffic_poses st =
      some (some ego_position.lane, st) := by
  unfold decide_lane
  simp [hov, hcar]

/-- The step of lines 207-212 changes nothing while the ego's lane has the id of
`old_ego_lane`. -/
theorem markOvertake_of_same_lane (w : World Pose Vel) (ego_position : RoadPosition)
    (st : ManeuverState) (origin : Lane) (hold : st.old_ego_lane = some origin)
    (hlane : w.laneId ego_position.lane = w.laneId origin) :
    markOvertake w ego_position st = st := by
  unfold markOvertake
  rw [hold]
  simp only
  rw [if_neg (not_not.mpr hlane)]

/-- The decision past the target while the ego's lane has an id other than that
of `old_ego_lane`: the lane on the side of the direction flag, flags unchanged. -/
theorem decide_lane_return_keep (w : World Pose Vel) (ego_position : RoadPosition)
    (lanes : Option Lane × Option Lane) (incentives : ℚ × ℚ)
    (mobil_params : MobilPlannerParameters) (ego_pose : Pose) (traffic_poses : List Pose)
    (st : ManeuverState) (target : Pose) (origin : Lane) (hov : st.overtake = true)
    (htarget : get_pose traffic_poses st.car_id = some target)
    (hold : st.old_ego_lane = some origin)
    (hs : (w.CalcRoadPosition ego_pose).s > (w.CalcRoadPosition target).s)
    (hlane : w.laneId ego_position.lane ≠ w.laneId origin) :
    decide_lane w ego_position lanes incentives mobil_params ego_pose traffic_poses st =
      some (if st.overtake_to_right = true then lanes.2 else lanes.1, st) := by
  rw [decide_lane_return w _ _ _ _ _ _ _ target origin hov htarget hold hs]
  have hkeep : (if w.laneId origin = w.laneId ego_position.lane then
      reset_overtake_flags st else st) = st := if_neg (fun h => hlane h.symm)
  rw [hkeep]

/-- C18 as the code has it: a tick with valid parameters that starts with a
direction flag set, `old_ego_lane = origin` and `car_id = -1`.  If the ego is
already resolved to a lane whose id differs from that of `origin`, the tick
returns and, when it ends with `car_id = -1`, the lane it selects is the ego's
current lane.  If the ego is still resolved to a lane with the id of `origin`,
`overtake` is false and the lane has a neighbour, the tick takes the idle
decision again on the incentives `(L, R)` of this tick: the left neighbour if
`L ≥ R` and `L > threshold`, else the right neighbour if `R > threshold`, else
the ego's current lane. -/
theorem outbound_tick_selection (w : World Pose Vel) (ego_pose : Pose) (ego_velocity : Vel)
    (traffic_poses : List Pose) (ego_accel_command : ℚ) (idm_params : IdmPlannerParameters)
    (mobil_params : MobilPlannerParameters) (st : ManeuverState) (origin : Lane)
    (hidm : w.IdmIsValid idm_params = true) (hmobil : w.MobilIsValid mobil_params = true)
    (hdir : st.overtake_to_left = true ∨ st.overtake_to_right = true)
    (hold : st.old_ego_lane = some origin) (hcar : st.car_id = -1) :
    (w.laneId (w.CalcRoadPosition ego_pose).lane ≠ w.laneId origin →
      ∃ out st1,
        ImplDoCalcLane w ego_pose ego_velocity traffic_poses ego_accel_command idm_params
          mobil_params st = some (out, st1) ∧
        (st1.car_id = -1 → out.lane = some (w.CalcRoadPosition ego_pose).lane)) ∧
    (w.laneId (w.CalcRoadPosition ego_pose).lane = w.laneId origin →
      st.overtake = false →
      (w.to_left (w.CalcRoadPosition ego_pose).lane ≠ none ∨
        w.to_right (w.CalcRoadPosition ego_pose).lane ≠ none) →
      ∃ L R : ℚ,
        ComputeIncentives w
            (w.to_left (w.CalcRoadPosition ego_pose).lane,
              w.to_right (w.CalcRoadPosition ego_pose).lane)
            idm_params mobil_params ego_pose ego_velocity traffic_poses ego_accel_command =
          some (L, R) ∧
        (ImplDoCalcLane w ego_pose ego_velocity traffic_poses ego_accel_command idm_params
            mobil_params st).map Prod.fst =
          some { lane :=
                    if L ≥ R ∧ L > mobil_params.threshold then
                      w.to_left (w.CalcRoadPosition ego_pose).lane
                    else if R > mobil_params.threshold then
                      w.to_right (w.CalcRoadPosition ego_pose).lane
                    else some (w.CalcRoadPosition ego_pose).lane,
                  with_s := w.with_s }) := by
  refine ⟨?_, ?_⟩
  · intro hlane
    by_cases hn : w.to_left (w.CalcRoadPosition ego_pose).lane ≠ none ∨
        w.to_right (w.CalcRoadPosition ego_pose).lane ≠ none
    · have hov : ({ markOvertake w (w.CalcRoadPosition ego_pose) st with
          car_id := scanLoop w (w.CalcRoadPosition ego_pose) 0 traffic_poses (-1) } :
          ManeuverState).overtake = true :=
        markOvertake_of_moved w (w.CalcRoadPosition ego_pose) st origin hold hdir hlane
      have hold2 : ({ markOvertake w (w.CalcRoadPosition ego_pose) st with
          car_id := scanLoop w (w.CalcRoadPosition ego_pose) 0 traffic_poses (-1) } :
          ManeuverState).old_ego_lane = some origin := by
        rw [← hold]
        exact (markOvertake_fields w (w.CalcRoadPosition ego_pose) st).2.2.1
      rw [ImplDoCalcLane_of_neighbour w _ _ _ _ _ _ _ hidm hmobil hn,
        findCar_of_direction w _ traffic_poses st ⟨hdir, hcar⟩]
      rcases scanLoop_last_match w (w.CalcRoadPosition ego_pose) traffic_poses 0 (-1) with
        ⟨heq, -⟩ | ⟨j, heq, ⟨p, hp, -⟩, -⟩
      · rw [decide_lane_no_target w _ _ _ _ _ _ _ hov heq]
        exact ⟨_, _, rfl, fun _ => rfl⟩
      · have htarget : get_pose traffic_poses
            ({ markOvertake w (w.CalcRoadPosition ego_pose) st with
              car_id := scanLoop w (w.CalcRoadPosition ego_pose) 0 traffic_poses (-1) } :
              ManeuverState).car_id = some p := by
          show get_pose traffic_poses
            (scanLoop w (w.CalcRoadPosition ego_pose) 0 traffic_poses (-1)) = some p
          rw [heq, Nat.zero_add, get_pose_natCast]
          exact hp
        by_cases hs : (w.CalcRoadPosition ego_pose).s > (w.CalcRoadPosition p).s
        · rw [decide_lane_return_keep w _ _ _ _ _ _ _ p origin hov htarget hold2 hs hlane]
          exact ⟨_, _, rfl, fun hc => absurd hc (ne_neg_one_of_get_pose htarget)⟩
        · rw [decide_lane_hold w _ _ _ _ _ _ _ p hov htarget hs]
          exact ⟨_, _, rfl, fun _ => rfl⟩
    · rw [not_or, not_ne_iff, not_ne_iff] at hn
      exact ⟨_, _, ImplDoCalcLane_of_no_neighbour w _ _ _ _ _ _ _ hidm hmobil hn.1 hn.2,
        fun _ => rfl⟩
  · intro hlane hov hn
    refine ⟨_, _, ComputeIncentives_eq w _ idm_params mobil_params ego_pose ego_velocity
      traffic_poses ego_accel_command, ?_⟩
    rw [ImplDoCalcLane_of_neighbour w _ _ _ _ _ _ _ hidm hmobil hn,
      markOvertake_of_same_lane w _ st origin hold hlane,
      decide_lane_of_not_overtake w _ _ _ _ _ _ _ _
        ((findCar_fields w (w.CalcRoadPosition ego_pose) traffic_poses st).2.2.1.trans hov)]
    split_ifs <;> rfl

/-- The tick after the move to the left was decided, the ego still in lane 0,
the slow vehicle now in the left lane itself: the decision is taken again and
keeps lane 0. -/
theorem demo_tick_outbound_stay :
    ImplDoCalcLane demoWorld demoEgo 20 [demoSlowMoved] (-5) demoIdm demoMobil demoOutbound =
      some ({ lane := some 0, with_s := true }, demoOutbound) := by
  rw [ImplDoCalcLane_of_neighbour demoWorld demoEgo 20 [demoSlowMoved] (-5)
    demoIdm demoMobil demoOutbound (by simp [demoWorld, demoIdm])
    (by simp [demoWorld, demoMobil]) (Or.inl (by decide))]
  norm_num [decide_lane, findCar, scanLoop, markOvertake, demoOutbound, sideIncentive,
    idmAccel, net_distance, demoWorld, demoClosestPair, demoLeading, demoTrailing,
    demoEvaluate, demoIdm, demoMobil, demoEgo, demoSlowMoved, demoLeft, demoRight, demoLaneId,
    RoadOdometry.ofPosition, kDefaultLargeAccel]
  decide

/-- C18 as the code has it, on the example road, from the flags of a move to the
left out of lane 0: the ego already in the left lane, and the ego still in
lane 0. -/
theorem outbound_tick_selection_witness :
    (demoWorld.IdmIsValid demoIdm = true ∧ demoWorld.MobilIsValid demoMobil = true ∧
      (demoOutbound.overtake_to_left = true ∨ demoOutbound.overtake_to_right = true) ∧
      demoOutbound.old_ego_lane = some 0 ∧ demoOutbound.car_id = -1) ∧
    (demoWorld.laneId (demoWorld.CalcRoadPosition demoEgoMoved).lane ≠ demoWorld.laneId 0 ∧
      ∃ out st1,
        ImplDoCalcLane demoWorld demoEgoMoved 20 [demoSlow] (-5) demoIdm demoMobil
          demoOutbound = some (out, st1) ∧
        (st1.car_id = -1 → out.lane = some (demoWorld.CalcRoadPosition demoEgoMoved).lane)) ∧
    (demoWorld.laneId (demoWorld.CalcRoadPosition demoEgo).lane = demoWorld.laneId 0 ∧
      demoOutbound.overtake = false ∧
      (demoWorld.to_left (demoWorld.CalcRoadPosition demoEgo).lane ≠ none ∨
        demoWorld.to_right (demoWorld.CalcRoadPosition demoEgo).lane ≠ none) ∧
      ∃ L R : ℚ,
        ComputeIncentives demoWorld
            (demoWorld.to_left (demoWorld.CalcRoadPosition demoEgo).lane,
              demoWorld.to_right (demoWorld.CalcRoadPosition demoEgo).lane)
            demoIdm demoMobil demoEgo 20 [demoSlowMoved] (-5) = some (L, R) ∧
        (ImplDoCalcLane demoWorld demoEgo 20 [demoSlowMoved] (-5) demoIdm demoMobil
            demoOutbound).map Prod.fst =
          some { lane :=
                    if L ≥ R ∧ L > demoMobil.threshold then
                      demoWorld.to_left (demoWorld.CalcRoadPosition demoEgo).lane
                    else if R > demoMobil.threshold then
                      demoWorld.to_right (demoWorld.CalcRoadPosition demoEgo).lane
                    else some (demoWorld.CalcRoadPosition demoEgo).lane,
                  with_s := demoWorld.with_s }) :=
  ⟨⟨by simp [demoWorld, demoIdm], by simp [demoWorld, demoMobil], Or.inr rfl, rfl, rfl⟩,
    ⟨by decide,
      (outbound_tick_selection demoWorld demoEgoMoved 20 [demoSlow] (-5) demoIdm demoMobil
        demoOutbound 0 (by simp [demoWorld, demoIdm]) (by simp [demoWorld, demoMobil])
        (Or.inr rfl) rfl rfl).1 (by decide)⟩,
    ⟨rfl, rfl, Or.inl (by decide),
      (outbound_tick_selection demoWorld demoEgo 20 [demoSlowMoved] (-5) demoIdm demoMobil
        demoOutbound 0 (by simp [demoWorld, demoIdm]) (by simp [demoWorld, demoMobil])
        (Or.inr rfl) rfl rfl).2 rfl rfl (Or.inl (by decide))⟩⟩

/-- C18 as stated fails.  From the flags of a move to the left out of lane 0
(`overtake_to_right` set, `old_ego_lane` lane 0, no target), with the ego still in
lane 0 and the slow vehicle now in the left lane, the tick ends with
`car_id = -1` and selects lane 0, not the left neighbour of lane 0. -/
theorem outbound_keeps_new_lane_counterexample :
    ¬ ∀ (w : World Car ℚ) (ego_pose : Car) (ego_velocity : ℚ) (traffic_poses : List Car)
        (ego_accel_command : ℚ) (idm_params : IdmPlannerParameters)
        (mobil_params : MobilPlannerParameters) (st st1 : ManeuverState)
        (out : LaneDirection) (origin : Lane),
        w.IdmIsValid idm_params = true → w.MobilIsValid mobil_params = true →
        st.overtake_to_right = true → st.old_ego_lane = some origin → st.car_id = -1 →
        ImplDoCalcLane w ego_pose ego_velocity traffic_poses ego_accel_command idm_params
          mobil_params st = some (out, st1) →
        st1.car_id = -1 →
        out.lane = w.to_left origin := by
  intro h
  have h1 := h demoWorld demoEgo 20 [demoSlowMoved] (-5) demoIdm demoMobil demoOutbound
    demoOutbound _ 0 (by simp [demoWorld, demoIdm]) (by simp [demoWorld, demoMobil]) rfl rfl
    rfl demo_tick_outbound_stay rfl
  exact absurd h1 (by decide)

/-! ## Two planners in one process -/

/-- The lanes of planner `B` in a trace that starts with a tick of planner `A`. -/
theorem lanesOfB_cons_A (out : LaneDirection) (st : ManeuverState)
    (rest : List (Bool × LaneDirection × ManeuverState)) :
    lanesOfB ((true, out, st) :: rest) = lanesOfB rest := by
  simp [lanesOfB]

/-- The lanes of planner `B` in a trace that starts with a tick of planner `B`. -/
theorem lanesOfB_cons_B (out : LaneDirection) (st : ManeuverState)
    (rest : List (Bool × LaneDirection × ManeuverState)) :
    lanesOfB ((false, out, st) :: rest) = out :: lanesOfB rest := by
  simp [lanesOfB]

/-- Planner `B` alone, from the idle flags: its tick keeps the left lane. -/
theorem demo_tickB_alone :
    tick demoWorld demoTickB ManeuverState.idle =
      some ({ lane := some 1, with_s := true }, ManeuverState.idle) := by
  unfold tick
  rw [ImplDoCalcLane_of_neighbour demoWorld _ _ _ _ _ _ _
    (by simp [demoWorld, demoTickB, demoIdm]) (by simp [demoWorld, demoTickB, demoMobil])
    (Or.inr (by decide)),
    markOvertake_of_old_none demoWorld _ _ rfl, findCar_of_no_direction demoWorld _ _ _ rfl rfl,
    decide_lane_idle]
  norm_num [sideIncentive, idmAccel, net_distance, demoWorld, demoClosestPair, demoLeading,
    demoTrailing, demoEvaluate, demoIdm, demoMobil, demoTickB, demoEgoPast, demoSlow,
    demoLeftBehind, demoLeft, demoRight, RoadOdometry.ofPosition, kDefaultLargeAccel]

/-- The same tick of planner `B` from the flags a tick of planner `A` left: it
takes the vehicle behind its ego for the target of the maneuver of `A` and
selects lane 0. -/
theorem demo_tickB_after_A :
    tick demoWorld demoTickB demoOutbound =
      some ({ lane := some 0, with_s := true }, demoPassingOne) := by
  unfold tick
  rw [ImplDoCalcLane_of_neighbour demoWorld _ _ _ _ _ _ _
    (by simp [demoWorld, demoTickB, demoIdm]) (by simp [demoWorld, demoTickB, demoMobil])
    (Or.inr (by decide))]
  norm_num [decide_lane, findCar, scanLoop, markOvertake, overtake_condition, get_pose,
    demoOutbound, demoPassingOne, demoWorld, demoTickB, demoEgoPast, demoSlow, demoLeftBehind,
    demoLeft, demoRight, demoLaneId]
  decide

/-- C17 as stated fails.  Two planners on the example road: planner `B` alone
keeps the left lane on its tick; with one tick of planner `A` before it, the
tick that decides the move of `A` out of lane 0, the same tick of `B` starts
from the flags of `A` and selects lane 0. -/
theorem per_instance_state_counterexample :
    ¬ ∀ (wA wB : World Car ℚ) (ts : List (Bool × Tick Car ℚ))
        (shared : List (Bool × LaneDirection × ManeuverState))
        (alone : List (LaneDirection × ManeuverState)),
        runShared wA wB ManeuverState.idle ts = some shared →
        runTicks wB ManeuverState.idle (ticksOfB ts) = some alone →
        lanesOfB shared = lanesOf alone := by
  intro h
  have hA : tick demoWorld (demoTickAt demoEgo) ManeuverState.idle =
      some ({ lane := some 1, with_s := true }, demoOutbound) := demo_scenario_B
  have hshared : runShared demoWorld demoWorld ManeuverState.idle
      [(true, demoTickAt demoEgo), (false, demoTickB)] =
      some [(true, { lane := some 1, with_s := true }, demoOutbound),
        (false, { lane := some 0, with_s := true }, demoPassingOne)] := by
    simp only [runShared, if_true, hA, Bool.false_eq_true, if_false, demo_tickB_after_A]
  have halone : runTicks demoWorld ManeuverState.idle
      (ticksOfB [(true, demoTickAt demoEgo), (false, demoTickB)]) =
      some [({ lane := some 1, with_s := true }, ManeuverState.idle)] := by
    have hB : ticksOfB [(true, demoTickAt demoEgo), (false, demoTickB)] = [demoTickB] := by
      simp [ticksOfB]
    rw [hB]
    simp only [runTicks, demo_tickB_alone]
  have h1 := h demoWorld demoWorld _ _ _ hshared halone
  simp [lanesOfB, lanesOf] at h1

/-! ## The origin lane -/

/-- The flags the decision of lines 244-305 can return: the flags it was given,
the idle flags, or, `overtake` being false, flags with a direction flag set and
`old_ego_lane` the ego's lane. -/
theorem decide_lane_cases (w : World Pose Vel) (ego_position : RoadPosition)
    (lanes : Option Lane × Option Lane) (incentives : ℚ × ℚ)
    (mobil_params : MobilPlannerParameters) (ego_pose : Pose) (traffic_poses : List Pose)
    (st st1 : ManeuverState) (lane : Option Lane)
    (h : decide_lane w ego_position lanes incentives mobil_params ego_pose traffic_poses st =
      some (lane, st1)) :
    st1 = st ∨ st1 = ManeuverState.idle ∨
      (st.overtake = false ∧ st1.old_ego_lane = some ego_position.lane ∧
        (st1.overtake_to_left = true ∨ st1.overtake_to_right = true)) := by
  by_cases hov : st.overtake = true
  · rcases decide_lane_of_overtake w _ _ _ _ _ _ _ _ _ hov h with
      ⟨-, h1⟩ | ⟨-, old, -, ⟨-, h1⟩ | ⟨-, h1⟩⟩
    · exact Or.inl h1
    · exact Or.inr (Or.inl h1)
    · exact Or.inl h1
  · have hov1 : st.overtake = false := by simpa using hov
    obtain ⟨L, R⟩ := incentives
    rw [decide_lane_of_not_overtake w _ _ _ _ _ _ _ _ hov1] at h
    split_ifs at h
    · cases h
      exact Or.inr (Or.inr ⟨hov1, rfl, Or.inr rfl⟩)
    · cases h
      exact Or.inr (Or.inr ⟨hov1, rfl, Or.inl rfl⟩)
    · cases h
      exact Or.inl rfl

/-- The flags a tick can return, field by field: the idle flags; or the direction
flags and `old_ego_lane` it was given; or, the step of lines 207-212 having left
`overtake` false, flags with a direction flag set and `old_ego_lane` the ego's
lane. -/
theorem tick_cases (w : World Pose Vel) (t : Tick Pose Vel) (st st1 : ManeuverState)
    (out : LaneDirection) (h : tick w t st = some (out, st1)) :
    st1 = ManeuverState.idle ∨
    (st1.overtake_to_left = st.overtake_to_left ∧
      st1.overtake_to_right = st.overtake_to_right ∧ st1.old_ego_lane = st.old_ego_lane) ∨
    ((markOvertake w (w.CalcRoadPosition t.ego_pose) st).overtake = false ∧
      st1.old_ego_lane = some (w.CalcRoadPosition t.ego_pose).lane ∧
      (st1.overtake_to_left = true ∨ st1.overtake_to_right = true)) := by
  unfold tick at h
  obtain ⟨hidm, hmobil⟩ := valid_of_ImplDoCalcLane w _ _ _ _ _ _ _ _ _ h
  by_cases hn : w.to_left (w.CalcRoadPosition t.ego_pose).lane ≠ none ∨
      w.to_right (w.CalcRoadPosition t.ego_pose).lane ≠ none
  · rw [ImplDoCalcLane_of_neighbour w _ _ _ _ _ _ _ hidm hmobil hn] at h
    obtain ⟨⟨lane, st3⟩, hd, he⟩ := Option.map_eq_some'.mp h
    obtain ⟨-, rfl⟩ := Prod.mk.inj he
    obtain ⟨hl, hr, ho, -⟩ := markOvertake_fields w (w.CalcRoadPosition t.ego_pose) st
    obtain ⟨fl, fr, fo, fold⟩ := findCar_fields w (w.CalcRoadPosition t.ego_pose)
      t.traffic_poses (markOvertake w (w.CalcRoadPosition t.ego_pose) st)
    rcases decide_lane_cases w _ _ _ _ _ _ _ _ _ hd with h1 | h1 | ⟨h1, h2, h3⟩
    · exact Or.inr (Or.inl ⟨by rw [h1, fl, hl], by rw [h1, fr, hr], by rw [h1, fold, ho]⟩)
    · exact Or.inl h1
    · exact Or.inr (Or.inr ⟨by rw [← fo]; exact h1, h2, h3⟩)
  · rw [not_or, not_ne_iff, not_ne_iff] at hn
    rw [ImplDoCalcLane_of_no_neighbour w _ _ _ _ _ _ _ hidm hmobil hn.1 hn.2] at h
    obtain ⟨-, rfl⟩ := Prod.mk.inj (Option.some.inj h)
    exact Or.inr (Or.inl ⟨rfl, rfl, rfl⟩)

/-- A tick keeps the correspondence between the direction flags and
`old_ego_lane`. -/
theorem tick_keeps_origin_recorded (w : World Pose Vel) (t : Tick Pose Vel)
    (st st1 : ManeuverState) (out : LaneDirection)
    (hinv : (st.overtake_to_left = true ∨ st.overtake_to_right = true) ↔
      st.old_ego_lane ≠ none)
    (h : tick w t st = some (out, st1)) :
    (st1.overtake_to_left = true ∨ st1.overtake_to_right = true) ↔
      st1.old_ego_lane ≠ none := by
  rcases tick_cases w t st st1 out h with h1 | ⟨h1, h2, h3⟩ | ⟨-, h2, h3⟩
  · rw [h1]
    simp [ManeuverState.idle]
  · rw [h1, h2, h3]
    exact hinv
  · rw [h2]
    simp [h3]

/-- Every state of a run keeps the correspondence between the direction flags
and `old_ego_lane` when the first one has it. -/
theorem runTicks_origin_recorded (w : World Pose Vel) (ts : List (Tick Pose Vel)) :
    ∀ (st : ManeuverState) (trace : List (LaneDirection × ManeuverState)),
      ((st.overtake_to_left = true ∨ st.overtake_to_right = true) ↔
        st.old_ego_lane ≠ none) →
      runTicks w st ts = some trace →
      ∀ e ∈ trace, ((e.2.overtake_to_left = true ∨ e.2.overtake_to_right = true) ↔
        e.2.old_ego_lane ≠ none) := by
  induction ts with
  | nil =>
    intro st trace _ h e he
    simp only [runTicks] at h
    rw [← Option.some.inj h] at he
    exact absurd he (List.not_mem_nil e)
  | cons t ts ih =>
    intro st trace hinv h e he
    simp only [runTicks] at h
    cases ht : tick w t st with
    | none => rw [ht] at h; cases h
    | some r =>
      obtain ⟨out, st1⟩ := r
      rw [ht] at h
      simp only at h
      have hinv1 := tick_keeps_origin_recorded w t st st1 out hinv ht
      cases hr : runTicks w st1 ts with
      | none => rw [hr] at h; cases h
      | some rest =>
        rw [hr] at h
        simp only at h
        rw [← Option.some.inj h] at he
        rcases List.mem_cons.mp he with rfl | he1
        · exact hinv1
        · exact ih st1 rest hinv1 hr e he1

/-- C20: in every state of a run from the idle flags (the idle flags and the
flags after each tick), a direction flag is set if and only if `old_ego_lane` is
not null; and for every tick from such a state with `old_ego_lane = origin`,
`old_ego_lane` after the tick is a lane with the id of `origin` or null, it is
null only when the tick has reset the flags to idle, and at a tick where the ego
is resolved to a lane with another id than `origin` it is still `origin` itself
unless the flags are reset: the decision re-assigns it only while the ego is
resolved to `origin`. -/
theorem origin_fixed_for_maneuver (w : World Pose Vel) (ts : List (Tick Pose Vel))
    (states : List ManeuverState) (hrun : statesOfRun w ts = some states) :
    ∀ st ∈ states,
      ((st.overtake_to_left = true ∨ st.overtake_to_right = true) ↔
        st.old_ego_lane ≠ none) ∧
      ∀ (t : Tick Pose Vel) (out : LaneDirection) (st1 : ManeuverState) (origin : Lane),
        st.old_ego_lane = some origin → tick w t st = some (out, st1) →
        ((∃ l, st1.old_ego_lane = some l ∧ w.laneId l = w.laneId origin) ∨
          st1.old_ego_lane = none) ∧
        (st1.old_ego_lane = none → st1 = ManeuverState.idle) ∧
        (w.laneId (w.CalcRoadPosition t.ego_pose).lane ≠ w.laneId origin →
          st1.old_ego_lane = some origin ∨ st1 = ManeuverState.idle) := by
  intro st hst
  have hinv : (st.overtake_to_left = true ∨ st.overtake_to_right = true) ↔
      st.old_ego_lane ≠ none := by
    unfold statesOfRun at hrun
    obtain ⟨trace, htrace, hstates⟩ := Option.map_eq_some'.mp hrun
    rw [← hstates] at hst
    rcases List.mem_cons.mp hst with rfl | hst1
    · simp [ManeuverState.idle]
    · obtain ⟨e, he, rfl⟩ := List.mem_map.mp hst1
      exact runTicks_origin_recorded w ts ManeuverState.idle trace
        (by simp [ManeuverState.idle]) htrace e he
  refine ⟨hinv, ?_⟩
  intro t out st1 origin hold h
  have hdir : st.overtake_to_left = true ∨ st.overtake_to_right = true :=
    hinv.mpr (by rw [hold]; simp)
  rcases tick_cases w t st st1 out h with h1 | ⟨-, -, h3⟩ | ⟨h1, h2, -⟩
  · exact ⟨Or.inr (by rw [h1]; rfl), fun _ => h1, fun _ => Or.inr h1⟩
  · rw [hold] at h3
    exact ⟨Or.inl ⟨origin, h3, rfl⟩, fun hnone => absurd (h3.symm.trans hnone) (by simp),
      fun _ => Or.inl h3⟩
  · have hlane : w.laneId (w.CalcRoadPosition t.ego_pose).lane = w.laneId origin := by
      by_contra hne
      rw [markOvertake_of_moved w _ st origin hold hdir hne] at h1
      cases h1
    exact ⟨Or.inl ⟨_, h2, hlane⟩, fun hnone => absurd (h2.symm.trans hnone) (by simp),
      fun hne => absurd hlane hne⟩

/-- The states of the overtake of the slow vehicle on the example road. -/
theorem demo_overtake_states :
    statesOfRun demoWorld demoOvertakeRun =
      some [ManeuverState.idle, demoOutbound, demoOutboundTarget, demoPassing, demoPassing,
        ManeuverState.idle] := by
  simp [statesOfRun, demo_overtake_run]

/-- C20 on the example road: the state after the first tick of the overtake of
the slow vehicle, and the second tick of that overtake run from it. -/
theorem origin_fixed_for_maneuver_witness :
    statesOfRun demoWorld demoOvertakeRun =
      some [ManeuverState.idle, demoOutbound, demoOutboundTarget, demoPassing, demoPassing,
        ManeuverState.idle] ∧
    demoOutbound ∈ [ManeuverState.idle, demoOutbound, demoOutboundTarget, demoPassing,
      demoPassing, ManeuverState.idle] ∧
    demoOutbound.old_ego_lane = some 0 ∧
    tick demoWorld (demoTickAt { lane := 0, s := 41, v := 20 }) demoOutbound =
      some ({ lane := some 1, with_s := true }, demoOutboundTarget) ∧
    ((demoOutbound.overtake_to_left = true ∨ demoOutbound.overtake_to_right = true) ↔
      demoOutbound.old_ego_lane ≠ none) ∧
    ((∃ l, demoOutboundTarget.old_ego_lane = some l ∧
        demoWorld.laneId l = demoWorld.laneId 0) ∨
      demoOutboundTarget.old_ego_lane = none) ∧
    (demoOutboundTarget.old_ego_lane = none → demoOutboundTarget = ManeuverState.idle) ∧
    (demoWorld.laneId
        (demoWorld.CalcRoadPosition
          (demoTickAt { lane := 0, s := 41, v := 20 }).ego_pose).lane ≠ demoWorld.laneId 0 →
      demoOutboundTarget.old_ego_lane = some 0 ∨ demoOutboundTarget = ManeuverState.idle) := by
  have hmem : demoOutbound ∈ [ManeuverState.idle, demoOutbound, demoOutboundTarget,
      demoPassing, demoPassing, ManeuverState.idle] := by simp
  exact ⟨demo_overtake_states, hmem, rfl, demo_run_tick2,
    (origin_fixed_for_maneuver demoWorld demoOvertakeRun _ demo_overtake_states demoOutbound
      hmem).1,
    (origin_fixed_for_maneuver demoWorld demoOvertakeRun _ demo_overtake_states demoOutbound
      hmem).2 (demoTickAt { lane := 0, s := 41, v := 20 }) _ demoOutboundTarget 0 rfl
      demo_run_tick2⟩

/-! ## The gap assertion on doubles that may be NaN -/

/-- On real-valued positions the saturation on doubles is the saturation on
reals. -/
theorem net_distance_double_fin (idm_params : IdmPlannerParameters) (x y : ℚ) :
    net_distance_double idm_params (Dbl.fin x) (Dbl.fin y) =
      Dbl.fin (net_distance idm_params (y - x)) := by
  unfold net_distance_double net_distance
  by_cases h : y - x ≥ 0
  · have hge : Dbl.ge (Dbl.sub (Dbl.fin y) (Dbl.fin x)) (Dbl.fin 0) = true := by
      simp [Dbl.sub, Dbl.ge, Dbl.lt]
      linarith
    simp only [hge, if_true, if_pos h]
    by_cases h1 : y - x - idm_params.bloat_diameter < idm_params.distance_lower_limit
    · simp [Dbl.sub, Dbl.max, Dbl.lt, h1, max_eq_right (le_of_lt h1)]
    · simp [Dbl.sub, Dbl.max, Dbl.lt, h1, max_eq_left (not_lt.mp h1)]
  · have hge : Dbl.ge (Dbl.sub (Dbl.fin y) (Dbl.fin x)) (Dbl.fin 0) = false := by
      simp [Dbl.sub, Dbl.ge, Dbl.lt]
      linarith
    simp only [hge, Bool.false_eq_true, if_false, if_neg h]
    by_cases h1 : -idm_params.distance_lower_limit < y - x + idm_params.bloat_diameter
    · simp [Dbl.sub, Dbl.add, Dbl.min, Dbl.lt, h1, min_eq_right (le_of_lt h1)]
    · simp [Dbl.sub, Dbl.add, Dbl.min, Dbl.lt, h1, min_eq_left (not_lt.mp h1)]

/-- The difference of two doubles is NaN exactly when one of them is NaN or both
are the same infinity. -/
theorem Dbl.sub_eq_nan_iff (a b : Dbl) :
    Dbl.sub a b = Dbl.nan ↔
      a = Dbl.nan ∨ b = Dbl.nan ∨ (a = Dbl.posInf ∧ b = Dbl.posInf) ∨
        (a = Dbl.negInf ∧ b = Dbl.negInf) := by
  cases a <;> cases b <;> simp [Dbl.sub]

/-- C8 as the code has it: the `DRAKE_DEMAND` of line 418 passes, for every real
`bloat_diameter` and `distance_lower_limit`, exactly when the difference
`s_lead - s_ego` of the two positions is not NaN.  It passes in particular for
all real-valued positions, where `Evaluate` receives the saturated gap, of
magnitude at least `distance_lower_limit`; it fires when a position is NaN or
both positions are the same infinity, the saturated gap being NaN then. -/
theorem gap_assertion_iff_not_nan (w : World Pose Vel) (idm_params : IdmPlannerParameters) :
    (∀ s_ego s_lead : Dbl, Dbl.sub s_lead s_ego ≠ Dbl.nan →
      gap_assertion idm_params s_ego s_lead = true) ∧
    (∀ s_ego s_lead : Dbl, Dbl.sub s_lead s_ego = Dbl.nan →
      net_distance_double idm_params s_ego s_lead = Dbl.nan ∧
        gap_assertion idm_params s_ego s_lead = false) ∧
    (∀ follower leader : RoadOdometry Vel,
      ∃ gap : ℚ,
        net_distance_double idm_params (Dbl.fin follower.s) (Dbl.fin leader.s) = Dbl.fin gap ∧
        idm_params.distance_lower_limit ≤ |gap| ∧
        EvaluateIdm w idm_params follower leader =
          some (w.Evaluate idm_params (w.GetSVelocity follower) gap
            (w.GetSVelocity follower - w.GetSVelocity leader))) := by
  refine ⟨?_, ?_, ?_⟩
  · intro s_ego s_lead h
    cases s_ego <;> cases s_lead <;>
      first
      | exact absurd rfl h
      | (rename_i x y
         unfold gap_assertion
         rw [net_distance_double_fin]
         simp only [Dbl.abs, Dbl.ge, Dbl.lt, Bool.not_eq_true', decide_eq_false_iff_not, not_lt]
         exact le_abs_net_distance idm_params _)
      | simp [gap_assertion, net_distance_double, Dbl.sub, Dbl.add, Dbl.ge, Dbl.lt, Dbl.max,
          Dbl.min, Dbl.abs]
  · intro s_ego s_lead h
    have hnd : net_distance_double idm_params s_ego s_lead = Dbl.nan := by
      unfold net_distance_double
      simp only [h]
      simp [Dbl.ge, Dbl.add, Dbl.min, Dbl.lt]
    exact ⟨hnd, by unfold gap_assertion; rw [hnd]; rfl⟩
  · intro follower leader
    exact ⟨_, net_distance_double_fin idm_params follower.s leader.s,
      le_abs_net_distance idm_params _, EvaluateIdm_eq w idm_params follower leader⟩

/-- C8 as the code has it, on the example parameters: real positions two metres
apart, a follower at minus infinity behind a real leader, and a NaN position. -/
theorem gap_assertion_iff_not_nan_witness :
    (Dbl.sub (Dbl.fin 42) (Dbl.fin 40) ≠ Dbl.nan ∧
      gap_assertion demoIdm (Dbl.fin 40) (Dbl.fin 42) = true) ∧
    (Dbl.sub (Dbl.fin 42) Dbl.negInf ≠ Dbl.nan ∧
      gap_assertion demoIdm Dbl.negInf (Dbl.fin 42) = true) ∧
    (Dbl.sub (Dbl.fin 42) Dbl.nan = Dbl.nan ∧
      net_distance_double demoIdm Dbl.nan (Dbl.fin 42) = Dbl.nan ∧
      gap_assertion demoIdm Dbl.nan (Dbl.fin 42) = false) :=
  ⟨⟨by simp [Dbl.sub],
      (gap_assertion_iff_not_nan demoWorld demoIdm).1 (Dbl.fin 40) (Dbl.fin 42)
        (by simp [Dbl.sub])⟩,
    ⟨by simp [Dbl.sub],
      (gap_assertion_iff_not_nan demoWorld demoIdm).1 Dbl.negInf (Dbl.fin 42)
        (by simp [Dbl.sub])⟩,
    ⟨rfl, (gap_assertion_iff_not_nan demoWorld demoIdm).2.1 Dbl.nan (Dbl.fin 42) rfl⟩⟩

/-- C8 as stated fails: with valid parameters and a follower whose position is
NaN, the saturated gap is NaN and the `DRAKE_DEMAND` of line 418 fires. -/
theorem gap_assertion_counterexample :
    ¬ ∀ (idm_params : IdmPlannerParameters) (s_ego s_lead : Dbl),
        gap_assertion idm_params s_ego s_lead = true := by
  intro h
  have h1 := h demoIdm Dbl.nan (Dbl.fin 42)
  have h2 : gap_assertion demoIdm Dbl.nan (Dbl.fin 42) = false := rfl
  rw [h2] at h1
  cases h1

/-! ## Interleaved ticks that keep the flags -/

/-- Interleaved ticks of planner `A` that each return and leave the flags as
they found them do not change the lanes planner `B` selects. -/
theorem runShared_of_keepsFlagsA (wA wB : World Pose Vel)
    (ts : List (Bool × Tick Pose Vel)) :
    ∀ st : ManeuverState, keepsFlagsA wA wB st ts →
      (runShared wA wB st ts).map lanesOfB = (runTicks wB st (ticksOfB ts)).map lanesOf := by
  induction ts with
  | nil =>
    intro st _
    rfl
  | cons e ts ih =>
    intro st h
    obtain ⟨isA, t⟩ := e
    cases isA with
    | true =>
      obtain ⟨⟨out, ht⟩, hrest⟩ := h
      have hB : ticksOfB ((true, t) :: ts) = ticksOfB ts := by simp [ticksOfB]
      rw [hB, ← ih st hrest]
      simp only [runShared, if_true, ht]
      cases runShared wA wB st ts with
      | none => rfl
      | some rest => simp [lanesOfB_cons_A]
    | false =>
      have hB : ticksOfB ((false, t) :: ts) = t :: ticksOfB ts := by simp [ticksOfB]
      rw [hB]
      simp only [runShared, runTicks, Bool.false_eq_true, if_false]
      cases ht : tick wB t st with
      | none => rfl
      | some r =>
        obtain ⟨out, st1⟩ := r
        have ih2 := ih st1 (h out st1 ht)
        simp only
        cases hs : runShared wA wB st1 ts with
        | none =>
          rw [hs] at ih2
          cases hr : runTicks wB st1 (ticksOfB ts) with
          | none => rfl
          | some rest => rw [hr] at ih2; cases ih2
        | some rest =>
          rw [hs] at ih2
          cases hr : runTicks wB st1 (ticksOfB ts) with
          | none => rw [hr] at ih2; cases ih2
          | some rest1 =>
            rw [hr] at ih2
            have h5 : lanesOfB rest = lanesOf rest1 := Option.some.inj ih2
            simp [lanesOfB_cons_B, lanesOf, h5]

/-- Ticks of planner `A` with valid parameters on lanes without neighbours keep
the flags, from any flags. -/
theorem keepsFlagsA_of_no_neighbour (wA wB : World Pose Vel)
    (ts : List (Bool × Tick Pose Vel)) :
    ∀ st : ManeuverState,
      (∀ e ∈ ts, e.1 = true →
        wA.IdmIsValid e.2.idm_params = true ∧ wA.MobilIsValid e.2.mobil_params = true ∧
        wA.to_left (wA.CalcRoadPosition e.2.ego_pose).lane = none ∧
        wA.to_right (wA.CalcRoadPosition e.2.ego_pose).lane = none) →
      keepsFlagsA wA wB st ts := by
  induction ts with
  | nil =>
    intro st _
    exact True.intro
  | cons e ts ih =>
    intro st h
    obtain ⟨isA, t⟩ := e
    have ih1 := fun st1 => ih st1 (fun e he => h e (List.mem_cons_of_mem _ he))
    cases isA with
    | true =>
      obtain ⟨h1, h2, h3, h4⟩ := h (true, t) (List.mem_cons_self _ _) rfl
      exact ⟨⟨_, ImplDoCalcLane_of_no_neighbour wA _ _ _ _ _ _ _ h1 h2 h3 h4⟩, ih1 st⟩
    | false =>
      intro out st1 _
      exact ih1 st1

/-- C17 as the code has it: the flags are shared by the planners of a process.
A tick of planner `B` that follows a tick of planner `A` starts from the flags
the tick of `A` returned; the lanes `B` selects are those of `B` run alone
whenever every interleaved tick of `A` returns and leaves the flags as it found
them; and ticks of `A` with valid parameters on a lane without neighbours are
such ticks. -/
theorem shared_flags_between_planners (wA wB : World Pose Vel) :
    (∀ (st stA : ManeuverState) (tA tB : Tick Pose Vel) (outA : LaneDirection),
      tick wA tA st = some (outA, stA) →
      (runShared wA wB st [(true, tA), (false, tB)]).map lanesOfB =
        (tick wB tB stA).map fun r => [r.1]) ∧
    (∀ (st : ManeuverState) (ts : List (Bool × Tick Pose Vel)),
      keepsFlagsA wA wB st ts →
      (runShared wA wB st ts).map lanesOfB = (runTicks wB st (ticksOfB ts)).map lanesOf) ∧
    (∀ (st : ManeuverState) (ts : List (Bool × Tick Pose Vel)),
      (∀ e ∈ ts, e.1 = true →
        wA.IdmIsValid e.2.idm_params = true ∧ wA.MobilIsValid e.2.mobil_params = true ∧
        wA.to_left (wA.CalcRoadPosition e.2.ego_pose).lane = none ∧
        wA.to_right (wA.CalcRoadPosition e.2.ego_pose).lane = none) →
      keepsFlagsA wA wB st ts ∧
        (runShared wA wB st ts).map lanesOfB =
          (runTicks wB st (ticksOfB ts)).map lanesOf) := by
  refine ⟨?_, fun st ts h => runShared_of_keepsFlagsA wA wB ts st h,
    fun st ts h => ⟨keepsFlagsA_of_no_neighbour wA wB ts st h,
      runShared_of_keepsFlagsA wA wB ts st (keepsFlagsA_of_no_neighbour wA wB ts st h)⟩⟩
  intro st stA tA tB outA hA
  simp only [runShared, if_true, hA, Bool.false_eq_true, if_false]
  cases tick wB tB stA with
  | none => rfl
  | some r => simp [lanesOfB]

/-- The tick of the ego braking behind the slow vehicle, from the idle flags:
lane 0 and the idle flags. -/
theorem demo_quiet_tick :
    tick demoWorld demoQuietTick ManeuverState.idle =
      some ({ lane := some 0, with_s := true }, ManeuverState.idle) :=
  tick_idle_of_low_incentives demoWorld demoQuietTick
    (by simp [demoWorld, demoIdm, demoQuietTick])
    (by simp [demoWorld, demoMobil, demoQuietTick]) demoQuietTick_low

/-- C17 as the code has it, on the example road with both planners on it: the
tick of `B` after the tick of `A` that decided a move; the tick of `B` after a
tick of `A` in lane 0, which has a neighbour, that keeps the idle flags; and the
tick of `B` after a tick of `A` in lane 2, which has no neighbour. -/
theorem shared_flags_between_planners_witness :
    (tick demoWorld (demoTickAt demoEgo) ManeuverState.idle =
        some ({ lane := some 1, with_s := true }, demoOutbound) ∧
      (runShared demoWorld demoWorld ManeuverState.idle
          [(true, demoTickAt demoEgo), (false, demoTickB)]).map lanesOfB =
        (tick demoWorld demoTickB demoOutbound).map fun r => [r.1]) ∧
    (keepsFlagsA demoWorld demoWorld ManeuverState.idle
        [(true, demoQuietTick), (false, demoTickB)] ∧
      (runShared demoWorld demoWorld ManeuverState.idle
          [(true, demoQuietTick), (false, demoTickB)]).map lanesOfB =
        (runTicks demoWorld ManeuverState.idle
          (ticksOfB [(true, demoQuietTick), (false, demoTickB)])).map lanesOf) ∧
    ((∀ e ∈ [(true, demoSingleTick), (false, demoTickB)], e.1 = true →
        demoWorld.IdmIsValid e.2.idm_params = true ∧
        demoWorld.MobilIsValid e.2.mobil_params = true ∧
        demoWorld.to_left (demoWorld.CalcRoadPosition e.2.ego_pose).lane = none ∧
        demoWorld.to_right (demoWorld.CalcRoadPosition e.2.ego_pose).lane = none) ∧
      keepsFlagsA demoWorld demoWorld ManeuverState.idle
        [(true, demoSingleTick), (false, demoTickB)] ∧
      (runShared demoWorld demoWorld ManeuverState.idle
          [(true, demoSingleTick), (false, demoTickB)]).map lanesOfB =
        (runTicks demoWorld ManeuverState.idle
          (ticksOfB [(true, demoSingleTick), (false, demoTickB)])).map lanesOf) := by
  have hq : keepsFlagsA demoWorld demoWorld ManeuverState.idle
      [(true, demoQuietTick), (false, demoTickB)] :=
    ⟨⟨_, demo_quiet_tick⟩, fun _ _ _ => True.intro⟩
  have h : ∀ e ∈ [(true, demoSingleTick), (false, demoTickB)], e.1 = true →
      demoWorld.IdmIsValid e.2.idm_params = true ∧
      demoWorld.MobilIsValid e.2.mobil_params = true ∧
      demoWorld.to_left (demoWorld.CalcRoadPosition e.2.ego_pose).lane = none ∧
      demoWorld.to_right (demoWorld.CalcRoadPosition e.2.ego_pose).lane = none := by
    intro e he hA
    simp only [List.mem_cons, List.mem_singleton, List.not_mem_nil, or_false] at he
    rcases he with rfl | rfl
    · exact ⟨by simp [demoWorld, demoSingleTick, demoIdm],
        by simp [demoWorld, demoSingleTick, demoMobil], rfl, rfl⟩
    · cases hA
  exact ⟨⟨demo_scenario_B,
      (shared_flags_between_planners demoWorld demoWorld).1 ManeuverState.idle demoOutbound
        (demoTickAt demoEgo) demoTickB _ demo_scenario_B⟩,
    ⟨hq, (shared_flags_between_planners demoWorld demoWorld).2.1 ManeuverState.idle
      [(true, demoQuietTick), (false, demoTickB)] hq⟩,
    ⟨h, (shared_flags_between_planners demoWorld demoWorld).2.2 ManeuverState.idle
      [(true, demoSingleTick), (false, demoTickB)] h⟩⟩

end Mobil2
